import Mathlib

/-!
Shallow embedding of the AES-DH repository (src/aes.h, src/prime.h, src/exchange.h,
src/hmac.h, src/network.h) and proofs about the specification claims.

Conventions of the embedding:
* C++ unsigned integers are modelled as Nat; wherever the C++ code truncates a value
  by storing it into a fixed-width type, the embedding applies the corresponding mask
  (for example, storing into uint8_t becomes a final mask by 0xFF).
* std::string values are modelled as List Nat, one entry per byte.
* bounded C++ loops are modelled by fuel-based recursion or by unrolled iteration when
  the trip count is a fixed constant; comments at each definition record the bound.
* a 4x4 state_array is modelled as a structure with sixteen byte fields, where field
  bI holds the physical cell array[I / 4][I mod 4] of the source, which is byte I of
  the input string in the constructor.
* fallible operations (the C++ code throws std::runtime_error) are modelled with
  Option or Except.
-/

namespace aes

namespace gf

/-- Multiplication step preamble: the conditional doubling of the first operand.
Source mult, src/aes.h lines 82-93: when the top bit of a is set, a becomes
(a shifted left by one) XOR the reducing polynomial 0b100011011, otherwise a is just
shifted; in both cases the result is stored back into a uint8_t, hence the 0xFF mask. -/
def xtime (a : Nat) : Nat :=
  cond ((a &&& 0x80) != 0) (((a <<< 1) ^^^ 0b100011011) &&& 0xFF) ((a <<< 1) &&& 0xFF)

/-- Accumulation step of the mult loop: if the current low bit of b is one, XOR a copy
of a into the running result (src/aes.h line 85). -/
def multStep (a b res : Nat) : Nat := cond ((b &&& 1) != 0) (res ^^^ a) res

/-- Multiply two bytes in GF(2 pow 8): src/aes.h gf::mult, lines 49-95.
The C++ loop runs while b is nonzero, shifting b right once per iteration; since b is
a uint8_t it holds fewer than 2 pow 8 values, so at most eight iterations ever run, and
an iteration whose remaining b is zero leaves the result unchanged.  The loop is
therefore unrolled to exactly eight iterations.  Iteration order matches the source:
the result accumulates with the value of a from before the doubling of that round. -/
def mult (a b : Nat) : Nat :=
  let r1 := multStep a b 0
  let a1 := xtime a
  let b1 := b >>> 1
  let r2 := multStep a1 b1 r1
  let a2 := xtime a1
  let b2 := b1 >>> 1
  let r3 := multStep a2 b2 r2
  let a3 := xtime a2
  let b3 := b2 >>> 1
  let r4 := multStep a3 b3 r3
  let a4 := xtime a3
  let b4 := b3 >>> 1
  let r5 := multStep a4 b4 r4
  let a5 := xtime a4
  let b5 := b4 >>> 1
  let r6 := multStep a5 b5 r5
  let a6 := xtime a5
  let b6 := b5 >>> 1
  let r7 := multStep a6 b6 r6
  let a7 := xtime a6
  let b7 := b6 >>> 1
  multStep a7 b7 r7

/-- Search loop of gf::inverse, src/aes.h lines 106-111: x runs from 0 to 255 and the
first x with mult a x = 1 is returned; if the loop exhausts, 0 is returned.  The fuel
argument counts the remaining candidates (256 at the top call). -/
def inverseGo : Nat → Nat → Nat → Nat
  | 0, _, _ => 0
  | fuel+1, a, x => cond (mult a x == 1) x (inverseGo fuel a (x+1))

/-- Multiplicative inverse of a byte in GF(2 pow 8) by brute force: src/aes.h
gf::inverse, lines 106-111. -/
def inverse (a : Nat) : Nat := inverseGo 256 a 0

end gf

/-- Affine transformation used by SubBytes and SubWord, src/aes.h lines 161-165 and
432-447: result bit x is the XOR of input bits x, x+4, x+5, x+6, x+7 (mod 8) and bit x
of the constant 0b01100011.  The eight result bits are reassembled into a byte. -/
def affine (i : Nat) : Nat :=
  let bit := fun x => ((i >>> x) ^^^ (i >>> ((x+4) % 8)) ^^^ (i >>> ((x+5) % 8)) ^^^
                      (i >>> ((x+6) % 8)) ^^^ (i >>> ((x+7) % 8)) ^^^ (0b01100011 >>> x)) &&& 1
  bit 0 ||| (bit 1 <<< 1) ||| (bit 2 <<< 2) ||| (bit 3 <<< 3) |||
  (bit 4 <<< 4) ||| (bit 5 <<< 5) ||| (bit 6 <<< 6) ||| (bit 7 <<< 7)

/-- The S-box applied to one byte: multiplicative inverse followed by the affine map
(src/aes.h SubBytes, lines 419-450, and SubWord, lines 152-170). -/
def sboxByte (b : Nat) : Nat := affine (gf.inverse b)

/-- Eight-bit rotate left, std::rotl on uint8_t. -/
def rotl8 (a k : Nat) : Nat := ((a <<< k) ||| (a >>> (8 - k))) &&& 0xFF

/-- The inverse S-box applied to one byte: src/aes.h InvSubBytes, lines 459-476:
undo the affine map via rotl(i,1) XOR rotl(i,3) XOR rotl(i,6) XOR 0b00000101, then
take the GF(2 pow 8) inverse. -/
def invSboxByte (b : Nat) : Nat :=
  gf.inverse (rotl8 b 1 ^^^ rotl8 b 3 ^^^ rotl8 b 6 ^^^ 0b00000101)

namespace key

/-- Round constant table, src/aes.h lines 130-133.  The C++ array has exactly ten
entries; key::Expansion for Nk = 4 reads index 10, which is out of bounds (undefined
behaviour in C++); the embedding models that read as 0 via getD. -/
def Rcon : List Nat :=
  [0x01000000, 0x02000000, 0x04000000, 0x08000000, 0x10000000,
   0x20000000, 0x40000000, 0x80000000, 0x1b000000, 0x36000000]

/-- Rotate a 32-bit word left by one byte, src/aes.h line 142 (std::rotl(word, 8)). -/
def RotWord (w : Nat) : Nat := ((w <<< 8) ||| (w >>> 24)) &&& 0xFFFFFFFF

/-- Substitute each byte of a key-schedule word, src/aes.h lines 152-170.  The source
reads the word as its four little-endian bytes, applies the S-box formula to each, and
reassembles them in the same order. -/
def SubWord (w : Nat) : Nat :=
  sboxByte (w &&& 0xFF) |||
  (sboxByte ((w >>> 8) &&& 0xFF) <<< 8) |||
  (sboxByte ((w >>> 16) &&& 0xFF) <<< 16) |||
  (sboxByte ((w >>> 24) &&& 0xFF) <<< 24)

end key

/-- Shared key: four 64-bit words (std::array of uint64_t, 4), src/aes.h line 193. -/
structure Key where
  k0 : Nat
  k1 : Nat
  k2 : Nat
  k3 : Nat
deriving DecidableEq

namespace key

/-- Break each 64-bit key word into two 32-bit words, low half first:
src/aes.h lines 197-201. -/
def keyWords (k : Key) : List Nat :=
  [k.k0 &&& 0xffffffff, (k.k0 >>> 32) &&& 0xffffffff,
   k.k1 &&& 0xffffffff, (k.k1 >>> 32) &&& 0xffffffff,
   k.k2 &&& 0xffffffff, (k.k2 >>> 32) &&& 0xffffffff,
   k.k3 &&& 0xffffffff, (k.k3 >>> 32) &&& 0xffffffff]

/-- Main loop of key::Expansion, src/aes.h lines 220-234, iterating i from Nk while
i is less than 4*Nr + 3.  The fuel argument is the number of remaining iterations. -/
def expandGo (Nk : Nat) : Nat → Nat → List Nat → List Nat
  | 0, _, w => w
  | steps+1, i, w =>
    let temp := w.getD (i-1) 0
    let temp :=
      if i % Nk = 0 then SubWord (RotWord temp) ^^^ Rcon.getD (i / Nk) 0
      else if Nk > 6 ∧ i % Nk = 4 then SubWord temp
      else temp
    expandGo Nk steps (i+1) (w.set i (w.getD (i - Nk) 0 ^^^ temp))

/-- Key expansion, src/aes.h key::Expansion, lines 193-236.  The schedule w is created
with 4*Nr + 4 zero entries, the first Nk words are the key words, and the loop fills
indices Nk up to 4*Nr + 2 inclusive (the loop bound in the source is i < 4*Nr + 3). -/
def Expansion (k : Key) (Nk : Nat) : List Nat :=
  let words := keyWords k
  let Nr : Nat := if Nk = 4 then 10 else if Nk = 6 then 12 else 14
  let w0 := (List.range (4*Nr + 4)).map (fun i => if i < Nk then words.getD i 0 else 0)
  expandGo Nk (4*Nr + 3 - Nk) Nk w0

end key

/-- Key schedule generation with round-count validation: src/aes.h state::Schedule,
lines 629-636.  Any round count other than 10, 12, 14 throws, modelled as none. -/
def Schedule (k : Key) (Nr : Nat) : Option (List Nat) :=
  if Nr = 10 then some (key.Expansion k 4)
  else if Nr = 12 then some (key.Expansion k 6)
  else if Nr = 14 then some (key.Expansion k 8)
  else none

/-- The 4x4 state array (one 16-byte block), src/aes.h class state_array.  Field bI is
the physical cell array[I / 4][I mod 4], which the constructor fills with byte I of the
input string. -/
structure Block where
  b0 : Nat
  b1 : Nat
  b2 : Nat
  b3 : Nat
  b4 : Nat
  b5 : Nat
  b6 : Nat
  b7 : Nat
  b8 : Nat
  b9 : Nat
  b10 : Nat
  b11 : Nat
  b12 : Nat
  b13 : Nat
  b14 : Nat
  b15 : Nat
deriving DecidableEq

namespace Block

/-- Constructor state_array(const std::string) from src/aes.h lines 289-293: take byte
i of the string when present, otherwise 0. -/
def ofList (l : List Nat) : Block :=
  ⟨l.getD 0 0, l.getD 1 0, l.getD 2 0, l.getD 3 0,
   l.getD 4 0, l.getD 5 0, l.getD 6 0, l.getD 7 0,
   l.getD 8 0, l.getD 9 0, l.getD 10 0, l.getD 11 0,
   l.getD 12 0, l.getD 13 0, l.getD 14 0, l.getD 15 0⟩

/-- Unravel, src/aes.h lines 379-387: cells are emitted row-major over array[row][col],
which is exactly input byte order b0 .. b15. -/
def serialize (B : Block) : List Nat :=
  [B.b0, B.b1, B.b2, B.b3, B.b4, B.b5, B.b6, B.b7,
   B.b8, B.b9, B.b10, B.b11, B.b12, B.b13, B.b14, B.b15]

/-- The all-zero block (default constructor, src/aes.h lines 307-313). -/
def zero : Block := ⟨0,0,0,0,0,0,0,0,0,0,0,0,0,0,0,0⟩

/-- Cell-wise XOR of two blocks, src/aes.h xor_arr, lines 322-328. -/
def xor (B C : Block) : Block :=
  ⟨B.b0 ^^^ C.b0, B.b1 ^^^ C.b1, B.b2 ^^^ C.b2, B.b3 ^^^ C.b3,
   B.b4 ^^^ C.b4, B.b5 ^^^ C.b5, B.b6 ^^^ C.b6, B.b7 ^^^ C.b7,
   B.b8 ^^^ C.b8, B.b9 ^^^ C.b9, B.b10 ^^^ C.b10, B.b11 ^^^ C.b11,
   B.b12 ^^^ C.b12, B.b13 ^^^ C.b13, B.b14 ^^^ C.b14, B.b15 ^^^ C.b15⟩

/-- SubBytes, src/aes.h lines 419-450: apply the S-box to every cell. -/
def SubBytes (B : Block) : Block :=
  ⟨sboxByte B.b0, sboxByte B.b1, sboxByte B.b2, sboxByte B.b3,
   sboxByte B.b4, sboxByte B.b5, sboxByte B.b6, sboxByte B.b7,
   sboxByte B.b8, sboxByte B.b9, sboxByte B.b10, sboxByte B.b11,
   sboxByte B.b12, sboxByte B.b13, sboxByte B.b14, sboxByte B.b15⟩

/-- InvSubBytes, src/aes.h lines 459-476: apply the inverse S-box to every cell. -/
def InvSubBytes (B : Block) : Block :=
  ⟨invSboxByte B.b0, invSboxByte B.b1, invSboxByte B.b2, invSboxByte B.b3,
   invSboxByte B.b4, invSboxByte B.b5, invSboxByte B.b6, invSboxByte B.b7,
   invSboxByte B.b8, invSboxByte B.b9, invSboxByte B.b10, invSboxByte B.b11,
   invSboxByte B.b12, invSboxByte B.b13, invSboxByte B.b14, invSboxByte B.b15⟩

/-- ShiftRows, src/aes.h lines 488-523: buffer[col][row] = array[(col + row) mod 4][row],
written out cell by cell in the bI encoding (bI = array[I/4][I mod 4]). -/
def ShiftRows (B : Block) : Block :=
  ⟨B.b0, B.b5, B.b10, B.b15,
   B.b4, B.b9, B.b14, B.b3,
   B.b8, B.b13, B.b2, B.b7,
   B.b12, B.b1, B.b6, B.b11⟩

/-- InvShiftRows, src/aes.h lines 533-551: buffer[col][row] = array[(col - row) mod 4][row];
col - row underflows size_t, and the wrap modulo 2 pow 64 followed by mod 4 equals the
usual col - row mod 4. -/
def InvShiftRows (B : Block) : Block :=
  ⟨B.b0, B.b13, B.b10, B.b7,
   B.b4, B.b1, B.b14, B.b11,
   B.b8, B.b5, B.b2, B.b15,
   B.b12, B.b9, B.b6, B.b3⟩

/-- MixColumns, src/aes.h lines 560-580: each column (cells b4c .. b4c+3) is multiplied
by the fixed matrix with rows (2 3 1 1), (1 2 3 1), (1 1 2 3), (3 1 1 2) over GF(2 pow 8). -/
def MixColumns (B : Block) : Block :=
  ⟨gf.mult 0x2 B.b0 ^^^ gf.mult 0x3 B.b1 ^^^ B.b2 ^^^ B.b3,
   B.b0 ^^^ gf.mult 0x2 B.b1 ^^^ gf.mult 0x3 B.b2 ^^^ B.b3,
   B.b0 ^^^ B.b1 ^^^ gf.mult 0x2 B.b2 ^^^ gf.mult 0x3 B.b3,
   gf.mult 0x3 B.b0 ^^^ B.b1 ^^^ B.b2 ^^^ gf.mult 0x2 B.b3,
   gf.mult 0x2 B.b4 ^^^ gf.mult 0x3 B.b5 ^^^ B.b6 ^^^ B.b7,
   B.b4 ^^^ gf.mult 0x2 B.b5 ^^^ gf.mult 0x3 B.b6 ^^^ B.b7,
   B.b4 ^^^ B.b5 ^^^ gf.mult 0x2 B.b6 ^^^ gf.mult 0x3 B.b7,
   gf.mult 0x3 B.b4 ^^^ B.b5 ^^^ B.b6 ^^^ gf.mult 0x2 B.b7,
   gf.mult 0x2 B.b8 ^^^ gf.mult 0x3 B.b9 ^^^ B.b10 ^^^ B.b11,
   B.b8 ^^^ gf.mult 0x2 B.b9 ^^^ gf.mult 0x3 B.b10 ^^^ B.b11,
   B.b8 ^^^ B.b9 ^^^ gf.mult 0x2 B.b10 ^^^ gf.mult 0x3 B.b11,
   gf.mult 0x3 B.b8 ^^^ B.b9 ^^^ B.b10 ^^^ gf.mult 0x2 B.b11,
   gf.mult 0x2 B.b12 ^^^ gf.mult 0x3 B.b13 ^^^ B.b14 ^^^ B.b15,
   B.b12 ^^^ gf.mult 0x2 B.b13 ^^^ gf.mult 0x3 B.b14 ^^^ B.b15,
   B.b12 ^^^ B.b13 ^^^ gf.mult 0x2 B.b14 ^^^ gf.mult 0x3 B.b15,
   gf.mult 0x3 B.b12 ^^^ B.b13 ^^^ B.b14 ^^^ gf.mult 0x2 B.b15⟩

/-- InvMixColumns, src/aes.h lines 587-608: the matrix rows are (e b d 9), (9 e b d),
(d 9 e b), (b d 9 e). -/
def InvMixColumns (B : Block) : Block :=
  ⟨gf.mult 0xe B.b0 ^^^ gf.mult 0xb B.b1 ^^^ gf.mult 0xd B.b2 ^^^ gf.mult 0x9 B.b3,
   gf.mult 0x9 B.b0 ^^^ gf.mult 0xe B.b1 ^^^ gf.mult 0xb B.b2 ^^^ gf.mult 0xd B.b3,
   gf.mult 0xd B.b0 ^^^ gf.mult 0x9 B.b1 ^^^ gf.mult 0xe B.b2 ^^^ gf.mult 0xb B.b3,
   gf.mult 0xb B.b0 ^^^ gf.mult 0xd B.b1 ^^^ gf.mult 0x9 B.b2 ^^^ gf.mult 0xe B.b3,
   gf.mult 0xe B.b4 ^^^ gf.mult 0xb B.b5 ^^^ gf.mult 0xd B.b6 ^^^ gf.mult 0x9 B.b7,
   gf.mult 0x9 B.b4 ^^^ gf.mult 0xe B.b5 ^^^ gf.mult 0xb B.b6 ^^^ gf.mult 0xd B.b7,
   gf.mult 0xd B.b4 ^^^ gf.mult 0x9 B.b5 ^^^ gf.mult 0xe B.b6 ^^^ gf.mult 0xb B.b7,
   gf.mult 0xb B.b4 ^^^ gf.mult 0xd B.b5 ^^^ gf.mult 0x9 B.b6 ^^^ gf.mult 0xe B.b7,
   gf.mult 0xe B.b8 ^^^ gf.mult 0xb B.b9 ^^^ gf.mult 0xd B.b10 ^^^ gf.mult 0x9 B.b11,
   gf.mult 0x9 B.b8 ^^^ gf.mult 0xe B.b9 ^^^ gf.mult 0xb B.b10 ^^^ gf.mult 0xd B.b11,
   gf.mult 0xd B.b8 ^^^ gf.mult 0x9 B.b9 ^^^ gf.mult 0xe B.b10 ^^^ gf.mult 0xb B.b11,
   gf.mult 0xb B.b8 ^^^ gf.mult 0xd B.b9 ^^^ gf.mult 0x9 B.b10 ^^^ gf.mult 0xe B.b11,
   gf.mult 0xe B.b12 ^^^ gf.mult 0xb B.b13 ^^^ gf.mult 0xd B.b14 ^^^ gf.mult 0x9 B.b15,
   gf.mult 0x9 B.b12 ^^^ gf.mult 0xe B.b13 ^^^ gf.mult 0xb B.b14 ^^^ gf.mult 0xd B.b15,
   gf.mult 0xd B.b12 ^^^ gf.mult 0x9 B.b13 ^^^ gf.mult 0xe B.b14 ^^^ gf.mult 0xb B.b15,
   gf.mult 0xb B.b12 ^^^ gf.mult 0xd B.b13 ^^^ gf.mult 0x9 B.b14 ^^^ gf.mult 0xe B.b15⟩

/-- AddRoundKey, src/aes.h lines 396-407: for each col, the word keys[4*round + col]
is read as its four little-endian bytes and byte row is XORed into array[row][col],
that is, into cell b of index 4*row + col. -/
def AddRoundKey (round : Nat) (w : List Nat) (B : Block) : Block :=
  let k0 := w.getD (4*round) 0
  let k1 := w.getD (4*round + 1) 0
  let k2 := w.getD (4*round + 2) 0
  let k3 := w.getD (4*round + 3) 0
  ⟨B.b0 ^^^ (k0 &&& 0xFF), B.b1 ^^^ (k1 &&& 0xFF),
   B.b2 ^^^ (k2 &&& 0xFF), B.b3 ^^^ (k3 &&& 0xFF),
   B.b4 ^^^ ((k0 >>> 8) &&& 0xFF), B.b5 ^^^ ((k1 >>> 8) &&& 0xFF),
   B.b6 ^^^ ((k2 >>> 8) &&& 0xFF), B.b7 ^^^ ((k3 >>> 8) &&& 0xFF),
   B.b8 ^^^ ((k0 >>> 16) &&& 0xFF), B.b9 ^^^ ((k1 >>> 16) &&& 0xFF),
   B.b10 ^^^ ((k2 >>> 16) &&& 0xFF), B.b11 ^^^ ((k3 >>> 16) &&& 0xFF),
   B.b12 ^^^ ((k0 >>> 24) &&& 0xFF), B.b13 ^^^ ((k1 >>> 24) &&& 0xFF),
   B.b14 ^^^ ((k2 >>> 24) &&& 0xFF), B.b15 ^^^ ((k3 >>> 24) &&& 0xFF)⟩

end Block

/-- Partition a byte string into 16-byte blocks, zero-padding the final fragment:
src/aes.h state constructor lines 642-655 with state_array(in, x) lines 263-285.
An empty input yields no blocks at all. -/
def toBlocks : List Nat → List Block
  | [] => []
  | a0::a1::a2::a3::a4::a5::a6::a7::a8::a9::a10::a11::a12::a13::a14::a15::rest =>
    ⟨a0,a1,a2,a3,a4,a5,a6,a7,a8,a9,a10,a11,a12,a13,a14,a15⟩ :: toBlocks rest
  | l => [Block.ofList l]

/-- A byte string zero-padded on the right to a multiple of 16 bytes (the padded
plaintext of the specification; empty input stays empty). -/
def zeroPad (m : List Nat) : List Nat :=
  m ++ List.replicate ((16 - m.length % 16) % 16) 0

/-- Main rounds of Cipher, src/aes.h lines 720-725: iteration number x applies
SubBytes, ShiftRows, MixColumns, AddRoundKey(x+1).  The fuel argument is the number of
remaining iterations (Nr - 1 at the top call, x starting from 0). -/
def cipherLoop (w : List Nat) : Nat → Nat → Block → Block
  | _, 0, B => B
  | x, n+1, B =>
    cipherLoop w (x+1) n (Block.AddRoundKey (x+1) w (Block.MixColumns (Block.ShiftRows (Block.SubBytes B))))

/-- Cipher on a single block, src/aes.h lines 716-732: AddRoundKey(0), then Nr - 1
main rounds, then the final SubBytes, ShiftRows, AddRoundKey(Nr - 1).  Note the final
round key index in the source is Nr - 1, the same index the last loop iteration used. -/
def cipherBlock (w : List Nat) (Nr : Nat) (B : Block) : Block :=
  let B1 := Block.AddRoundKey 0 w B
  let B2 := cipherLoop w 0 (Nr - 1) B1
  Block.AddRoundKey (Nr - 1) w (Block.ShiftRows (Block.SubBytes B2))

/-- Main rounds of InvCipher, src/aes.h lines 752-757: x runs from Nr - 1 down to 1,
applying InvShiftRows, InvSubBytes, AddRoundKey(x), InvMixColumns. -/
def invCipherLoop (w : List Nat) : Nat → Block → Block
  | 0, B => B
  | x+1, B =>
    invCipherLoop w x (Block.InvMixColumns (Block.AddRoundKey (x+1) w (Block.InvSubBytes (Block.InvShiftRows B))))

/-- InvCipher on a single block, src/aes.h lines 744-764. -/
def invCipherBlock (w : List Nat) (Nr : Nat) (B : Block) : Block :=
  let B1 := Block.AddRoundKey (Nr - 1) w B
  let B2 := invCipherLoop w (Nr - 1) B1
  Block.AddRoundKey 0 w (Block.InvSubBytes (Block.InvShiftRows B2))

/-- Apply the block cipher to every block of a string and concatenate the results
(state construction, per-block rounds, and state::unravel). -/
def cipherString (w : List Nat) (Nr : Nat) (input : List Nat) : List Nat :=
  (((toBlocks input).map (cipherBlock w Nr)).map Block.serialize).flatten

/-- Inverse of cipherString block-wise. -/
def invCipherString (w : List Nat) (Nr : Nat) (input : List Nat) : List Nat :=
  (((toBlocks input).map (invCipherBlock w Nr)).map Block.serialize).flatten

/-- Encrypt a message with AES (ECB), src/aes.h Cipher, lines 716-732; none models the
std::runtime_error thrown by state::Schedule for invalid round counts. -/
def Cipher (input : List Nat) (k : Key) (Nr : Nat) : Option (List Nat) :=
  (Schedule k Nr).map fun w => cipherString w Nr input

/-- Decrypt a message with AES (ECB), src/aes.h InvCipher, lines 744-764. -/
def InvCipher (input : List Nat) (k : Key) (Nr : Nat) : Option (List Nat) :=
  (Schedule k Nr).map fun w => invCipherString w Nr input

/-- The eight bytes of a uint64 value in little-endian order, as produced by
std::string(reinterpret_cast, sizeof(uint64_t)) on a little-endian machine. -/
def nonceBytes (n : Nat) : List Nat :=
  [n &&& 0xFF, (n >>> 8) &&& 0xFF, (n >>> 16) &&& 0xFF, (n >>> 24) &&& 0xFF,
   (n >>> 32) &&& 0xFF, (n >>> 40) &&& 0xFF, (n >>> 48) &&& 0xFF, (n >>> 56) &&& 0xFF]

/-- Per-block loop of Ctr, src/aes.h lines 781-791: each block is XORed with the
encryption of the 8-byte nonce string (zero-padded to one block by the state_array
constructor), and the nonce increments with uint64 wrap-around between blocks.
The pad is Cipher of the nonce string under the same key and round count, which equals
cipherString with the schedule computed by Schedule (key expansion is deterministic). -/
def ctrGo (w : List Nat) (Nr : Nat) : List Block → Nat → List Block
  | [], _ => []
  | B :: rest, nonce =>
    Block.xor B (Block.ofList (cipherString w Nr (nonceBytes nonce))) ::
      ctrGo w Nr rest ((nonce + 1) % 18446744073709551616)

/-- AES in CTR mode, src/aes.h Ctr, lines 776-795. -/
def Ctr (input : List Nat) (k : Key) (Nr : Nat) (nonce : Nat) : Option (List Nat) :=
  (Schedule k Nr).map fun w =>
    ((ctrGo w Nr (toBlocks input) nonce).map Block.serialize).flatten

end aes

namespace aes

namespace gcm

/-- The R constant of the GF(2 pow 128) block multiplication: a block whose cell
array[0][0] (byte b0) is 0b11100001, all other cells zero; src/aes.h lines 891-892. -/
def Rblock : Block :=
  ⟨0b11100001, 0,0,0,0,0,0,0,0,0,0,0,0,0,0,0⟩

/-- Shift a block right by one bit, src/aes.h shift_r, lines 332-372.  The source
visits cells array[col][row] with row as the outer loop index, that is, physical cells
in the order b0, b4, b8, b12, b1, b5, b9, b13, b2, b6, b10, b14, b3, b7, b11, b15, and
chains the shifted-out low bit of each visited cell into the top bit of the next. -/
def shiftR1 (B : Block) : Block :=
  let n0 := B.b0 >>> 1
  let c1 := cond ((B.b0 &&& 1) != 0) 0b10000000 0
  let n4 := (B.b4 >>> 1) ||| c1
  let c2 := cond ((B.b4 &&& 1) != 0) 0b10000000 0
  let n8 := (B.b8 >>> 1) ||| c2
  let c3 := cond ((B.b8 &&& 1) != 0) 0b10000000 0
  let n12 := (B.b12 >>> 1) ||| c3
  let c4 := cond ((B.b12 &&& 1) != 0) 0b10000000 0
  let n1 := (B.b1 >>> 1) ||| c4
  let c5 := cond ((B.b1 &&& 1) != 0) 0b10000000 0
  let n5 := (B.b5 >>> 1) ||| c5
  let c6 := cond ((B.b5 &&& 1) != 0) 0b10000000 0
  let n9 := (B.b9 >>> 1) ||| c6
  let c7 := cond ((B.b9 &&& 1) != 0) 0b10000000 0
  let n13 := (B.b13 >>> 1) ||| c7
  let c8 := cond ((B.b13 &&& 1) != 0) 0b10000000 0
  let n2 := (B.b2 >>> 1) ||| c8
  let c9 := cond ((B.b2 &&& 1) != 0) 0b10000000 0
  let n6 := (B.b6 >>> 1) ||| c9
  let c10 := cond ((B.b6 &&& 1) != 0) 0b10000000 0
  let n10 := (B.b10 >>> 1) ||| c10
  let c11 := cond ((B.b10 &&& 1) != 0) 0b10000000 0
  let n14 := (B.b14 >>> 1) ||| c11
  let c12 := cond ((B.b14 &&& 1) != 0) 0b10000000 0
  let n3 := (B.b3 >>> 1) ||| c12
  let c13 := cond ((B.b3 &&& 1) != 0) 0b10000000 0
  let n7 := (B.b7 >>> 1) ||| c13
  let c14 := cond ((B.b7 &&& 1) != 0) 0b10000000 0
  let n11 := (B.b11 >>> 1) ||| c14
  let c15 := cond ((B.b11 &&& 1) != 0) 0b10000000 0
  let n15 := (B.b15 >>> 1) ||| c15
  ⟨n0, n1, n2, n3, n4, n5, n6, n7, n8, n9, n10, n11, n12, n13, n14, n15⟩

/-- One bit-iteration of the gcm::mult inner loop, src/aes.h lines 914-931: if the
tested bit of the current byte of X is set, Z picks up V; then V shifts right once and,
when the shifted V has its cell array[3][3] (byte b15) odd, V picks up R.  The source
tests (byte AND 0b10000000) every time: the statement byte shifted left by one on line
930 discards its result, so the tested bit never changes within a byte. -/
def gmultStep (x : Bool) (ZV : Block × Block) : Block × Block :=
  let Z := cond x (Block.xor ZV.1 ZV.2) ZV.1
  let V1 := shiftR1 ZV.2
  let V := cond ((V1.b15 &&& 1) == 1) (Block.xor V1 Rblock) V1
  (Z, V)

/-- Process one byte of X inside gcm::mult: eight iterations of gmultStep, all with
the same tested bit because of the discarded shift (see gmultStep). -/
def gmultByte (ZV : Block × Block) (byte : Nat) : Block × Block :=
  let x := (byte &&& 0b10000000) != 0
  gmultStep x (gmultStep x (gmultStep x (gmultStep x
    (gmultStep x (gmultStep x (gmultStep x (gmultStep x ZV)))))))

/-- Block multiplication of gcm::mult, src/aes.h lines 888-935.  The bytes of X are
visited as X.get()[col][row] with row as the outer loop index, that is, in physical
order b0, b4, b8, b12, b1, b5, b9, b13, b2, b6, b10, b14, b3, b7, b11, b15. -/
def gmult (X Y : Block) : Block :=
  let s := gmultByte (Block.zero, Y) X.b0
  let s := gmultByte s X.b4
  let s := gmultByte s X.b8
  let s := gmultByte s X.b12
  let s := gmultByte s X.b1
  let s := gmultByte s X.b5
  let s := gmultByte s X.b9
  let s := gmultByte s X.b13
  let s := gmultByte s X.b2
  let s := gmultByte s X.b6
  let s := gmultByte s X.b10
  let s := gmultByte s X.b14
  let s := gmultByte s X.b3
  let s := gmultByte s X.b7
  let s := gmultByte s X.b11
  let s := gmultByte s X.b15
  s.1

/-- Iteration of GHASH: update Y to mult(Y XOR X_i, H) for each block. -/
def ghashGo : Block → List Block → Block → Block
  | Y, [], _ => Y
  | Y, B :: rest, H => ghashGo (gmult (Block.xor Y B) H) rest H

/-- GHASH, src/aes.h lines 956-965: Y starts at zero and for each block of the state
updates to mult(Y XOR X_i, H). -/
def GHASH (blocks : List Block) (H : Block) : Block := ghashGo Block.zero blocks H

/-- The GCM counter increment, src/aes.h increment, lines 828-878: the last column,
cells array[3][0..3] = b12..b15, is read as a big-endian 32-bit value, incremented with
uint32 wrap-around, and written back byte by byte. -/
def incBlock (B : Block) : Block :=
  let lsb := ((B.b12 <<< 24) ||| (B.b13 <<< 16) ||| (B.b14 <<< 8) ||| B.b15) + 1
  let lsb := lsb % 4294967296
  { B with b15 := lsb &&& 0xFF, b14 := (lsb >>> 8) &&& 0xFF,
           b13 := (lsb >>> 16) &&& 0xFF, b12 := (lsb >>> 24) &&& 0xFF }

/-- Per-block loop of GCTR, src/aes.h lines 979-996: each block is XORed with the
encryption of the unravelled counter block, and the counter steps by increment.  The
pad is Cipher(ICB.unravel(), key, rounds) of the source, expressed through the schedule
w computed by Schedule for the same key (key expansion is deterministic). -/
def gctrGo (w : List Nat) (Nr : Nat) : List Block → Block → List Block
  | [], _ => []
  | B :: rest, icb =>
    Block.xor B (Block.ofList (cipherString w Nr icb.serialize)) ::
      gctrGo w Nr rest (incBlock icb)

/-- The hash subkey H as the source actually computes it, src/aes.h lines 1010 and
1052: the C string literal of sixteen NUL escapes converts to an EMPTY std::string
(construction from const char* stops at the first NUL), Cipher of the empty string is
the empty string, and the state_array constructor zero-fills the missing bytes. -/
def gcmH (w : List Nat) (Nr : Nat) : Block :=
  Block.ofList (cipherString w Nr [])

/-- Encrypt with AES-GCM, src/aes.h gcm::Enc, lines 1007-1037. -/
def Enc (input : List Nat) (k : Key) (Nr : Nat) (nonce : Nat) : Option (List Nat) :=
  (Schedule k Nr).map fun w =>
    let H := gcmH w Nr
    let J := GHASH (toBlocks (nonceBytes nonce)) H
    let Jc := incBlock J
    let cblocks := gctrGo w Nr (toBlocks input) Jc
    let hash := (gctrGo w Nr [GHASH cblocks H] J).headD Block.zero
    (((cblocks ++ [hash]).map Block.serialize)).flatten

/-- Failure modes of gcm::Dec: invalidInput models the runtime error of Schedule (and
the undefined back() on an empty block vector), authFailure the runtime error thrown at
the hash comparison, src/aes.h lines 1067-1069. -/
inductive DecErr where
  | invalidInput : DecErr
  | authFailure : DecErr
deriving DecidableEq

/-- Decrypt with AES-GCM, src/aes.h gcm::Dec, lines 1049-1074: recompute H and J, split
off the trailing hash block, decrypt the hash with GCTR under J, compare with the GHASH
of the ciphertext blocks, throw on mismatch, otherwise decrypt with the incremented J. -/
def Dec (input : List Nat) (k : Key) (Nr : Nat) (nonce : Nat) : Except DecErr (List Nat) :=
  match Schedule k Nr with
  | none => .error .invalidInput
  | some w =>
    let H := gcmH w Nr
    let J := GHASH (toBlocks (nonceBytes nonce)) H
    let blocks := toBlocks input
    match blocks.getLast? with
    | none => .error .invalidInput
    | some hash =>
      let cblocks := blocks.dropLast
      let hash2 := (gctrGo w Nr [hash] J).headD Block.zero
      if hash2.serialize ≠ (GHASH cblocks H).serialize then .error .authFailure
      else .ok (((gctrGo w Nr cblocks (incBlock J)).map Block.serialize).flatten)

/-- The trailing 16 bytes that gcm::Enc appends: because the H subkey degenerates to
the zero block, the appended hash block is always the AES encryption of the zero block,
independent of message and nonce (see the proofs below). -/
def encTagBytes (k : Key) (Nr : Nat) : List Nat :=
  match Schedule k Nr with
  | some w => Block.serialize (Block.ofList (cipherString w Nr (List.replicate 16 0)))
  | none => []

end gcm

end aes

namespace prime

/-- Trial-division loop of prime::is, src/prime.h lines 28-31: x runs from 2 up to root
inclusive; the fuel argument is the number of remaining candidates. -/
def isGo (num : Nat) : Nat → Nat → Bool
  | 0, _ => true
  | fuel+1, x => cond (num % x == 0) false (isGo num fuel (x+1))

/-- Search for the integer square root: the largest r with r*r at most num, found by
counting r upward; num is ample fuel.  This models the uint64 cast of std::sqrt. -/
def sqrtGo (num : Nat) : Nat → Nat → Nat
  | 0, r => r
  | fuel+1, r => cond ((r+1)*(r+1) ≤ num) (sqrtGo num fuel (r+1)) r

/-- Floor square root by upward search (equals the uint64 cast of std::sqrt for the
64-bit values involved). -/
def sqrtFloor (num : Nat) : Nat := sqrtGo num num 0

/-- Primality test of prime::is, src/prime.h lines 21-33.  The source computes
root = uint64(std::sqrt(num)) + 1, modelled by sqrtFloor num + 1.  Then 1 is rejected
and any divisor among 2 .. root rejects. -/
def is (num : Nat) : Bool :=
  if num = 1 then false
  else
    let root := sqrtFloor num + 1
    isGo num (root - 1) 2

/-- Square-and-multiply loop of prime::raise, src/prime.h lines 71-79, marching the
exponent down one bit per iteration.  The exponent is a uint64, so 64 iterations always
suffice; an iteration with exponent zero leaves the result unchanged, matching the
loop exit of the source.  The fuel argument counts remaining iterations. -/
def raiseGo (mod : Nat) : Nat → Nat → Nat → Nat → Nat
  | 0, _, _, ret => ret
  | fuel+1, value, e, ret =>
    cond (e == 0) ret
      (raiseGo mod fuel ((value*value) % mod) (e >>> 1)
        (cond ((e &&& 1) != 0) ((ret*value) % mod) ret))

/-- Modular exponentiation, src/prime.h raise, lines 64-81. -/
def raise (value exp mod : Nat) : Nat :=
  raiseGo mod 64 (value % mod) exp 1

end prime

namespace exchange

/-- The h-search loop of the server path of exchange_keys, src/exchange.h lines
106-107: h starts at 1 and the loop runs while raise(h, (p-1)/q, p) is at most 1;
because the condition uses the post-increment h++, the loop leaves h one PAST the
first value whose raise exceeds 1.  The fuel argument bounds the search; the caller
passes p, which is ample for any h that terminates the loop. -/
def serverHGo (e p : Nat) : Nat → Nat → Nat
  | 0, h => h
  | fuel+1, h => cond (1 < prime.raise h e p) (h + 1) (serverHGo e p fuel (h+1))

/-- The h value left after the search loop (one past the first satisfying value). -/
def serverH (p q : Nat) : Nat := serverHGo ((p-1)/q) p p 1

/-- The generator the server computes and sends, src/exchange.h line 110:
g = raise(h, (p-1)/q, p) evaluated at the post-increment value of h. -/
def serverG (p q : Nat) : Nat := prime.raise (serverH p q) ((p-1)/q) p

end exchange

namespace hmac

/-- Byte-extraction loop of hmac::generate for one 64-bit key word, src/hmac.h lines
44-51: eight iterations, each appending char(num AND 0xf) and then shifting num right
by ONE bit (the loop header is y++, num shifted right by 1). -/
def keyWordBytes (num : Nat) : List Nat :=
  [num &&& 0xf, (num >>> 1) &&& 0xf, (num >>> 2) &&& 0xf, (num >>> 3) &&& 0xf,
   (num >>> 4) &&& 0xf, (num >>> 5) &&& 0xf, (num >>> 6) &&& 0xf, (num >>> 7) &&& 0xf]

/-- The key bytes hmac::generate hands to the external HMAC-SHA-256 primitive,
src/hmac.h lines 30-57: 2, 3 or 4 words of the shared key for rounds 10, 12, 14
(none models the runtime error on any other round count), each serialized by
keyWordBytes. -/
def keyBytes (k : aes.Key) (rounds : Nat) : Option (List Nat) :=
  if rounds = 10 then some (keyWordBytes k.k0 ++ keyWordBytes k.k1)
  else if rounds = 12 then some (keyWordBytes k.k0 ++ keyWordBytes k.k1 ++ keyWordBytes k.k2)
  else if rounds = 14 then
    some (keyWordBytes k.k0 ++ keyWordBytes k.k1 ++ keyWordBytes k.k2 ++ keyWordBytes k.k3)
  else none

/-- The serialization the specification describes: each 64-bit word contributes its
eight bytes (little-endian byte order, matching the in-memory representation). -/
def specKeyBytes (k : aes.Key) (rounds : Nat) : Option (List Nat) :=
  if rounds = 10 then some (aes.nonceBytes k.k0 ++ aes.nonceBytes k.k1)
  else if rounds = 12 then
    some (aes.nonceBytes k.k0 ++ aes.nonceBytes k.k1 ++ aes.nonceBytes k.k2)
  else if rounds = 14 then
    some (aes.nonceBytes k.k0 ++ aes.nonceBytes k.k1 ++ aes.nonceBytes k.k2 ++ aes.nonceBytes k.k3)
  else none

end hmac

namespace network

/-- Packet metadata tags, src/network.h lines 41-44, in declaration order; ERROR has
underlying value 0. -/
inductive Tag where
  | ERROR | EMPTY | DATA | HMAC | NONCE | IV
  | FINAL | MESSAGE | ACK | REFUSED | REEXCHANGE
deriving DecidableEq

/-- Underlying integer value of a tag (C enum, starting at 0). -/
def Tag.toNat : Tag → Nat
  | .ERROR => 0 | .EMPTY => 1 | .DATA => 2 | .HMAC => 3 | .NONCE => 4 | .IV => 5
  | .FINAL => 6 | .MESSAGE => 7 | .ACK => 8 | .REFUSED => 9 | .REEXCHANGE => 10

/-- A fixed-size packet, src/network.h lines 56-59. -/
structure Packet where
  m : Tag
  data : List Nat
deriving DecidableEq

/-- Leading-whitespace skip of operator>> on an input string stream. -/
def skipWs : List Nat → List Nat
  | [] => []
  | b :: rest =>
    cond (b == 32 || b == 9 || b == 10 || b == 11 || b == 12 || b == 13)
      (skipWs rest) (b :: rest)

/-- Decimal-digit accumulation of operator>> for an unsigned integer. -/
def parseDigits : List Nat → Nat → Nat
  | [], acc => acc
  | b :: rest, acc =>
    cond (48 ≤ b && b ≤ 57) (parseDigits rest (acc*10 + (b - 48))) acc

/-- Model of istringstream extraction into a uint64_t initialised to zero: skip
whitespace, consume leading decimal digits; with no digits the value stays 0 (the C++
stream extraction failure leaves the zero-initialised T ret unchanged). -/
def parseU64 (l : List Nat) : Nat := parseDigits (skipWs l) 0

/-- Receive and parse a value, src/network.h recv_value, lines 131-140, as a function
of the received packet p.  The source line 133 reads
if (p.m = network::meta::ERROR) throw ... : a single equals sign, so it ASSIGNS ERROR
to p.m and tests the assigned enum value for truth; ERROR converts to 0, the test is
always false, and the throw is unreachable.  The function then parses the payload of
the (overwritten) packet, whose data field is untouched. -/
def recv_value (p : Packet) : Except Unit Nat :=
  let assigned := Tag.ERROR
  if assigned.toNat ≠ 0 then .error ()
  else .ok (parseU64 p.data)

end network

namespace aes

/-- Wellformedness of a block: every cell is a byte value.  This holds for every block
built from a C++ std::string and is preserved by all the AES operations. -/
def Block.wf (B : Block) : Prop :=
  B.b0 < 256 ∧ B.b1 < 256 ∧ B.b2 < 256 ∧ B.b3 < 256 ∧
  B.b4 < 256 ∧ B.b5 < 256 ∧ B.b6 < 256 ∧ B.b7 < 256 ∧
  B.b8 < 256 ∧ B.b9 < 256 ∧ B.b10 < 256 ∧ B.b11 < 256 ∧
  B.b12 < 256 ∧ B.b13 < 256 ∧ B.b14 < 256 ∧ B.b15 < 256

instance : Std.Associative (fun (a b : Nat) => a ^^^ b) := ⟨Nat.xor_assoc⟩

instance : Std.Commutative (fun (a b : Nat) => a ^^^ b) := ⟨Nat.xor_comm⟩

end aes

/-! Helper lemmas about the GF(2 pow 8) layer. -/

namespace aes

theorem xor_left_comm (a b c : Nat) : a ^^^ (b ^^^ c) = b ^^^ (a ^^^ c) := by
  rw [← Nat.xor_assoc, Nat.xor_comm a b, Nat.xor_assoc]

theorem xor_shiftRight (a b n : Nat) : (a ^^^ b) >>> n = (a >>> n) ^^^ (b >>> n) := by
  apply Nat.eq_of_testBit_eq
  intro i
  simp [Nat.testBit_shiftRight, Nat.testBit_xor]

theorem xor_lt_256 {a b : Nat} (ha : a < 256) (hb : b < 256) : a ^^^ b < 256 := by
  have h : a ^^^ b < 2 ^ 8 := Nat.xor_lt_two_pow ha hb
  simpa using h

theorem and_255_lt (a : Nat) : a &&& 255 < 256 :=
  Nat.lt_succ_of_le Nat.and_le_right

theorem gf.xtime_lt (a : Nat) : gf.xtime a < 256 := by
  unfold gf.xtime
  cases ((a &&& 0x80) != 0) <;> exact and_255_lt _

theorem gf.multStep_lt {a r : Nat} (b : Nat) (ha : a < 256) (hr : r < 256) :
    gf.multStep a b r < 256 := by
  unfold gf.multStep
  cases ((b &&& 1) != 0)
  · exact hr
  · exact xor_lt_256 hr ha

theorem gf.mult_lt {a : Nat} (b : Nat) (ha : a < 256) : gf.mult a b < 256 := by
  simp only [gf.mult]
  exact gf.multStep_lt _ (gf.xtime_lt _)
    (gf.multStep_lt _ (gf.xtime_lt _)
      (gf.multStep_lt _ (gf.xtime_lt _)
        (gf.multStep_lt _ (gf.xtime_lt _)
          (gf.multStep_lt _ (gf.xtime_lt _)
            (gf.multStep_lt _ (gf.xtime_lt _)
              (gf.multStep_lt _ (gf.xtime_lt _)
                (gf.multStep_lt _ ha (by norm_num))))))))

theorem gf.inverseGo_bound : ∀ (fuel a x : Nat),
    gf.inverseGo fuel a x = 0 ∨ gf.inverseGo fuel a x < x + fuel
  | 0, _, _ => Or.inl rfl
  | fuel+1, a, x => by
    unfold gf.inverseGo
    cases h : (gf.mult a x == 1)
    · rcases gf.inverseGo_bound fuel a (x+1) with h0 | hlt
      · exact Or.inl (by simp [h, h0])
      · right
        simpa [h] using lt_of_lt_of_le hlt (by omega)
    · right
      simp [h]

theorem gf.inverse_lt (a : Nat) : gf.inverse a < 256 := by
  have h := gf.inverseGo_bound 256 a 0
  unfold gf.inverse
  rcases h with h | h
  · rw [h]
    norm_num
  · simpa using h

theorem shiftedBit_lt {t : Nat} (k : Nat) (ht : t ≤ 1) (hk : k ≤ 7) : t <<< k < 256 := by
  have h1 : t <<< k = t * 2 ^ k := Nat.shiftLeft_eq t k
  have h2 : 2 ^ k ≤ 2 ^ 7 := Nat.pow_le_pow_right (by norm_num) hk
  have : t * 2 ^ k ≤ 1 * 2 ^ 7 := Nat.mul_le_mul ht h2
  omega

theorem or_lt_256 {a b : Nat} (ha : a < 256) (hb : b < 256) : a ||| b < 256 := by
  have h : a ||| b < 2 ^ 8 := Nat.or_lt_two_pow ha hb
  simpa using h

theorem affine_lt (i : Nat) : affine i < 256 := by
  simp only [affine]
  have hb : ∀ x : Nat,
      ((i >>> x) ^^^ (i >>> ((x+4) % 8)) ^^^ (i >>> ((x+5) % 8)) ^^^
       (i >>> ((x+6) % 8)) ^^^ (i >>> ((x+7) % 8)) ^^^ (0b01100011 >>> x)) &&& 1 ≤ 1 :=
    fun _ => Nat.and_le_right
  refine or_lt_256 (or_lt_256 (or_lt_256 (or_lt_256 (or_lt_256 (or_lt_256 (or_lt_256 ?_ ?_) ?_) ?_) ?_) ?_) ?_) ?_
  · exact lt_of_le_of_lt (hb 0) (by norm_num)
  all_goals exact shiftedBit_lt _ (hb _) (by norm_num)

theorem sboxByte_lt (b : Nat) : sboxByte b < 256 := affine_lt _

theorem invSboxByte_lt (b : Nat) : invSboxByte b < 256 := gf.inverse_lt _

end aes

namespace aes

theorem gf.multStep_lin (a x y r s : Nat) :
    gf.multStep a (x ^^^ y) (r ^^^ s) = gf.multStep a x r ^^^ gf.multStep a y s := by
  unfold gf.multStep
  have hxy : (x ^^^ y) &&& 1 = (x &&& 1) ^^^ (y &&& 1) := Nat.and_xor_distrib_right
  have hx : x &&& 1 = 0 ∨ x &&& 1 = 1 := by
    have := Nat.and_one_is_mod x
    omega
  have hy : y &&& 1 = 0 ∨ y &&& 1 = 1 := by
    have := Nat.and_one_is_mod y
    omega
  rcases hx with hx | hx <;> rcases hy with hy | hy <;>
    simp [hxy, hx, hy, Nat.xor_assoc, Nat.xor_comm, xor_left_comm, Nat.xor_cancel_left]

theorem gf.multStep_lin0 (a x y : Nat) :
    gf.multStep a (x ^^^ y) 0 = gf.multStep a x 0 ^^^ gf.multStep a y 0 := by
  have h := gf.multStep_lin a x y 0 0
  simpa using h

theorem gf.mult_xor (a x y : Nat) :
    gf.mult a (x ^^^ y) = gf.mult a x ^^^ gf.mult a y := by
  simp only [gf.mult, xor_shiftRight]
  rw [gf.multStep_lin0, gf.multStep_lin, gf.multStep_lin, gf.multStep_lin,
      gf.multStep_lin, gf.multStep_lin, gf.multStep_lin, gf.multStep_lin]

end aes

namespace aes

/-! Pointwise values of the brute-force GF(2 pow 8) inverse, one byte per lemma,
followed by the S-box values and the round trips derived from them by rewriting. -/

theorem gf.invByte0 : gf.inverse 0 = 0 := by decide!
theorem gf.invByte1 : gf.inverse 1 = 1 := by decide!
theorem gf.invByte2 : gf.inverse 2 = 141 := by decide!
theorem gf.invByte3 : gf.inverse 3 = 246 := by decide!
theorem gf.invByte4 : gf.inverse 4 = 203 := by decide!
theorem gf.invByte5 : gf.inverse 5 = 82 := by decide!
theorem gf.invByte6 : gf.inverse 6 = 123 := by decide!
theorem gf.invByte7 : gf.inverse 7 = 209 := by decide!
theorem gf.invByte8 : gf.inverse 8 = 232 := by decide!
theorem gf.invByte9 : gf.inverse 9 = 79 := by decide!
theorem gf.invByte10 : gf.inverse 10 = 41 := by decide!
theorem gf.invByte11 : gf.inverse 11 = 192 := by decide!
theorem gf.invByte12 : gf.inverse 12 = 176 := by decide!
theorem gf.invByte13 : gf.inverse 13 = 225 := by decide!
theorem gf.invByte14 : gf.inverse 14 = 229 := by decide!
theorem gf.invByte15 : gf.inverse 15 = 199 := by decide!
theorem gf.invByte16 : gf.inverse 16 = 116 := by decide!
theorem gf.invByte17 : gf.inverse 17 = 180 := by decide!
theorem gf.invByte18 : gf.inverse 18 = 170 := by decide!
theorem gf.invByte19 : gf.inverse 19 = 75 := by decide!
theorem gf.invByte20 : gf.inverse 20 = 153 := by decide!
theorem gf.invByte21 : gf.inverse 21 = 43 := by decide!
theorem gf.invByte22 : gf.inverse 22 = 96 := by decide!
theorem gf.invByte23 : gf.inverse 23 = 95 := by decide!
theorem gf.invByte24 : gf.inverse 24 = 88 := by decide!
theorem gf.invByte25 : gf.inverse 25 = 63 := by decide!
theorem gf.invByte26 : gf.inverse 26 = 253 := by decide!
theorem gf.invByte27 : gf.inverse 27 = 204 := by decide!
theorem gf.invByte28 : gf.inverse 28 = 255 := by decide!
theorem gf.invByte29 : gf.inverse 29 = 64 := by decide!
theorem gf.invByte30 : gf.inverse 30 = 238 := by decide!
theorem gf.invByte31 : gf.inverse 31 = 178 := by decide!
theorem gf.invByte32 : gf.inverse 32 = 58 := by decide!
theorem gf.invByte33 : gf.inverse 33 = 110 := by decide!
theorem gf.invByte34 : gf.inverse 34 = 90 := by decide!
theorem gf.invByte35 : gf.inverse 35 = 241 := by decide!
theorem gf.invByte36 : gf.inverse 36 = 85 := by decide!
theorem gf.invByte37 : gf.inverse 37 = 77 := by decide!
theorem gf.invByte38 : gf.inverse 38 = 168 := by decide!
theorem gf.invByte39 : gf.inverse 39 = 201 := by decide!
theorem gf.invByte40 : gf.inverse 40 = 193 := by decide!
theorem gf.invByte41 : gf.inverse 41 = 10 := by decide!
theorem gf.invByte42 : gf.inverse 42 = 152 := by decide!
theorem gf.invByte43 : gf.inverse 43 = 21 := by decide!
theorem gf.invByte44 : gf.inverse 44 = 48 := by decide!
theorem gf.invByte45 : gf.inverse 45 = 68 := by decide!
theorem gf.invByte46 : gf.inverse 46 = 162 := by decide!
theorem gf.invByte47 : gf.inverse 47 = 194 := by decide!
theorem gf.invByte48 : gf.inverse 48 = 44 := by decide!
theorem gf.invByte49 : gf.inverse 49 = 69 := by decide!
theorem gf.invByte50 : gf.inverse 50 = 146 := by decide!
theorem gf.invByte51 : gf.inverse 51 = 108 := by decide!
theorem gf.invByte52 : gf.inverse 52 = 243 := by decide!
theorem gf.invByte53 : gf.inverse 53 = 57 := by decide!
theorem gf.invByte54 : gf.inverse 54 = 102 := by decide!
theorem gf.invByte55 : gf.inverse 55 = 66 := by decide!
theorem gf.invByte56 : gf.inverse 56 = 242 := by decide!
theorem gf.invByte57 : gf.inverse 57 = 53 := by decide!
theorem gf.invByte58 : gf.inverse 58 = 32 := by decide!
theorem gf.invByte59 : gf.inverse 59 = 111 := by decide!
theorem gf.invByte60 : gf.inverse 60 = 119 := by decide!
theorem gf.invByte61 : gf.inverse 61 = 187 := by decide!
theorem gf.invByte62 : gf.inverse 62 = 89 := by decide!
theorem gf.invByte63 : gf.inverse 63 = 25 := by decide!
theorem gf.invByte64 : gf.inverse 64 = 29 := by decide!
theorem gf.invByte65 : gf.inverse 65 = 254 := by decide!
theorem gf.invByte66 : gf.inverse 66 = 55 := by decide!
theorem gf.invByte67 : gf.inverse 67 = 103 := by decide!
theorem gf.invByte68 : gf.inverse 68 = 45 := by decide!
theorem gf.invByte69 : gf.inverse 69 = 49 := by decide!
theorem gf.invByte70 : gf.inverse 70 = 245 := by decide!
theorem gf.invByte71 : gf.inverse 71 = 105 := by decide!
theorem gf.invByte72 : gf.inverse 72 = 167 := by decide!
theorem gf.invByte73 : gf.inverse 73 = 100 := by decide!
theorem gf.invByte74 : gf.inverse 74 = 171 := by decide!
theorem gf.invByte75 : gf.inverse 75 = 19 := by decide!
theorem gf.invByte76 : gf.inverse 76 = 84 := by decide!
theorem gf.invByte77 : gf.inverse 77 = 37 := by decide!
theorem gf.invByte78 : gf.inverse 78 = 233 := by decide!
theorem gf.invByte79 : gf.inverse 79 = 9 := by decide!
theorem gf.invByte80 : gf.inverse 80 = 237 := by decide!
theorem gf.invByte81 : gf.inverse 81 = 92 := by decide!
theorem gf.invByte82 : gf.inverse 82 = 5 := by decide!
theorem gf.invByte83 : gf.inverse 83 = 202 := by decide!
theorem gf.invByte84 : gf.inverse 84 = 76 := by decide!
theorem gf.invByte85 : gf.inverse 85 = 36 := by decide!
theorem gf.invByte86 : gf.inverse 86 = 135 := by decide!
theorem gf.invByte87 : gf.inverse 87 = 191 := by decide!
theorem gf.invByte88 : gf.inverse 88 = 24 := by decide!
theorem gf.invByte89 : gf.inverse 89 = 62 := by decide!
theorem gf.invByte90 : gf.inverse 90 = 34 := by decide!
theorem gf.invByte91 : gf.inverse 91 = 240 := by decide!
theorem gf.invByte92 : gf.inverse 92 = 81 := by decide!
theorem gf.invByte93 : gf.inverse 93 = 236 := by decide!
theorem gf.invByte94 : gf.inverse 94 = 97 := by decide!
theorem gf.invByte95 : gf.inverse 95 = 23 := by decide!
theorem gf.invByte96 : gf.inverse 96 = 22 := by decide!
theorem gf.invByte97 : gf.inverse 97 = 94 := by decide!
theorem gf.invByte98 : gf.inverse 98 = 175 := by decide!
theorem gf.invByte99 : gf.inverse 99 = 211 := by decide!
theorem gf.invByte100 : gf.inverse 100 = 73 := by decide!
theorem gf.invByte101 : gf.inverse 101 = 166 := by decide!
theorem gf.invByte102 : gf.inverse 102 = 54 := by decide!
theorem gf.invByte103 : gf.inverse 103 = 67 := by decide!
theorem gf.invByte104 : gf.inverse 104 = 244 := by decide!
theorem gf.invByte105 : gf.inverse 105 = 71 := by decide!
theorem gf.invByte106 : gf.inverse 106 = 145 := by decide!
theorem gf.invByte107 : gf.inverse 107 = 223 := by decide!
theorem gf.invByte108 : gf.inverse 108 = 51 := by decide!
theorem gf.invByte109 : gf.inverse 109 = 147 := by decide!
theorem gf.invByte110 : gf.inverse 110 = 33 := by decide!
theorem gf.invByte111 : gf.inverse 111 = 59 := by decide!
theorem gf.invByte112 : gf.inverse 112 = 121 := by decide!
theorem gf.invByte113 : gf.inverse 113 = 183 := by decide!
theorem gf.invByte114 : gf.inverse 114 = 151 := by decide!
theorem gf.invByte115 : gf.inverse 115 = 133 := by decide!
theorem gf.invByte116 : gf.inverse 116 = 16 := by decide!
theorem gf.invByte117 : gf.inverse 117 = 181 := by decide!
theorem gf.invByte118 : gf.inverse 118 = 186 := by decide!
theorem gf.invByte119 : gf.inverse 119 = 60 := by decide!
theorem gf.invByte120 : gf.inverse 120 = 182 := by decide!
theorem gf.invByte121 : gf.inverse 121 = 112 := by decide!
theorem gf.invByte122 : gf.inverse 122 = 208 := by decide!
theorem gf.invByte123 : gf.inverse 123 = 6 := by decide!
theorem gf.invByte124 : gf.inverse 124 = 161 := by decide!
theorem gf.invByte125 : gf.inverse 125 = 250 := by decide!
theorem gf.invByte126 : gf.inverse 126 = 129 := by decide!
theorem gf.invByte127 : gf.inverse 127 = 130 := by decide!
theorem gf.invByte128 : gf.inverse 128 = 131 := by decide!
theorem gf.invByte129 : gf.inverse 129 = 126 := by decide!
theorem gf.invByte130 : gf.inverse 130 = 127 := by decide!
theorem gf.invByte131 : gf.inverse 131 = 128 := by decide!
theorem gf.invByte132 : gf.inverse 132 = 150 := by decide!
theorem gf.invByte133 : gf.inverse 133 = 115 := by decide!
theorem gf.invByte134 : gf.inverse 134 = 190 := by decide!
theorem gf.invByte135 : gf.inverse 135 = 86 := by decide!
theorem gf.invByte136 : gf.inverse 136 = 155 := by decide!
theorem gf.invByte137 : gf.inverse 137 = 158 := by decide!
theorem gf.invByte138 : gf.inverse 138 = 149 := by decide!
theorem gf.invByte139 : gf.inverse 139 = 217 := by decide!
theorem gf.invByte140 : gf.inverse 140 = 247 := by decide!
theorem gf.invByte141 : gf.inverse 141 = 2 := by decide!
theorem gf.invByte142 : gf.inverse 142 = 185 := by decide!
theorem gf.invByte143 : gf.inverse 143 = 164 := by decide!
theorem gf.invByte144 : gf.inverse 144 = 222 := by decide!
theorem gf.invByte145 : gf.inverse 145 = 106 := by decide!
theorem gf.invByte146 : gf.inverse 146 = 50 := by decide!
theorem gf.invByte147 : gf.inverse 147 = 109 := by decide!
theorem gf.invByte148 : gf.inverse 148 = 216 := by decide!
theorem gf.invByte149 : gf.inverse 149 = 138 := by decide!
theorem gf.invByte150 : gf.inverse 150 = 132 := by decide!
theorem gf.invByte151 : gf.inverse 151 = 114 := by decide!
theorem gf.invByte152 : gf.inverse 152 = 42 := by decide!
theorem gf.invByte153 : gf.inverse 153 = 20 := by decide!
theorem gf.invByte154 : gf.inverse 154 = 159 := by decide!
theorem gf.invByte155 : gf.inverse 155 = 136 := by decide!
theorem gf.invByte156 : gf.inverse 156 = 249 := by decide!
theorem gf.invByte157 : gf.inverse 157 = 220 := by decide!
theorem gf.invByte158 : gf.inverse 158 = 137 := by decide!
theorem gf.invByte159 : gf.inverse 159 = 154 := by decide!
theorem gf.invByte160 : gf.inverse 160 = 251 := by decide!
theorem gf.invByte161 : gf.inverse 161 = 124 := by decide!
theorem gf.invByte162 : gf.inverse 162 = 46 := by decide!
theorem gf.invByte163 : gf.inverse 163 = 195 := by decide!
theorem gf.invByte164 : gf.inverse 164 = 143 := by decide!
theorem gf.invByte165 : gf.inverse 165 = 184 := by decide!
theorem gf.invByte166 : gf.inverse 166 = 101 := by decide!
theorem gf.invByte167 : gf.inverse 167 = 72 := by decide!
theorem gf.invByte168 : gf.inverse 168 = 38 := by decide!
theorem gf.invByte169 : gf.inverse 169 = 200 := by decide!
theorem gf.invByte170 : gf.inverse 170 = 18 := by decide!
theorem gf.invByte171 : gf.inverse 171 = 74 := by decide!
theorem gf.invByte172 : gf.inverse 172 = 206 := by decide!
theorem gf.invByte173 : gf.inverse 173 = 231 := by decide!
theorem gf.invByte174 : gf.inverse 174 = 210 := by decide!
theorem gf.invByte175 : gf.inverse 175 = 98 := by decide!
theorem gf.invByte176 : gf.inverse 176 = 12 := by decide!
theorem gf.invByte177 : gf.inverse 177 = 224 := by decide!
theorem gf.invByte178 : gf.inverse 178 = 31 := by decide!
theorem gf.invByte179 : gf.inverse 179 = 239 := by decide!
theorem gf.invByte180 : gf.inverse 180 = 17 := by decide!
theorem gf.invByte181 : gf.inverse 181 = 117 := by decide!
theorem gf.invByte182 : gf.inverse 182 = 120 := by decide!
theorem gf.invByte183 : gf.inverse 183 = 113 := by decide!
theorem gf.invByte184 : gf.inverse 184 = 165 := by decide!
theorem gf.invByte185 : gf.inverse 185 = 142 := by decide!
theorem gf.invByte186 : gf.inverse 186 = 118 := by decide!
theorem gf.invByte187 : gf.inverse 187 = 61 := by decide!
theorem gf.invByte188 : gf.inverse 188 = 189 := by decide!
theorem gf.invByte189 : gf.inverse 189 = 188 := by decide!
theorem gf.invByte190 : gf.inverse 190 = 134 := by decide!
theorem gf.invByte191 : gf.inverse 191 = 87 := by decide!
theorem gf.invByte192 : gf.inverse 192 = 11 := by decide!
theorem gf.invByte193 : gf.inverse 193 = 40 := by decide!
theorem gf.invByte194 : gf.inverse 194 = 47 := by decide!
theorem gf.invByte195 : gf.inverse 195 = 163 := by decide!
theorem gf.invByte196 : gf.inverse 196 = 218 := by decide!
theorem gf.invByte197 : gf.inverse 197 = 212 := by decide!
theorem gf.invByte198 : gf.inverse 198 = 228 := by decide!
theorem gf.invByte199 : gf.inverse 199 = 15 := by decide!
theorem gf.invByte200 : gf.inverse 200 = 169 := by decide!
theorem gf.invByte201 : gf.inverse 201 = 39 := by decide!
theorem gf.invByte202 : gf.inverse 202 = 83 := by decide!
theorem gf.invByte203 : gf.inverse 203 = 4 := by decide!
theorem gf.invByte204 : gf.inverse 204 = 27 := by decide!
theorem gf.invByte205 : gf.inverse 205 = 252 := by decide!
theorem gf.invByte206 : gf.inverse 206 = 172 := by decide!
theorem gf.invByte207 : gf.inverse 207 = 230 := by decide!
theorem gf.invByte208 : gf.inverse 208 = 122 := by decide!
theorem gf.invByte209 : gf.inverse 209 = 7 := by decide!
theorem gf.invByte210 : gf.inverse 210 = 174 := by decide!
theorem gf.invByte211 : gf.inverse 211 = 99 := by decide!
theorem gf.invByte212 : gf.inverse 212 = 197 := by decide!
theorem gf.invByte213 : gf.inverse 213 = 219 := by decide!
theorem gf.invByte214 : gf.inverse 214 = 226 := by decide!
theorem gf.invByte215 : gf.inverse 215 = 234 := by decide!
theorem gf.invByte216 : gf.inverse 216 = 148 := by decide!
theorem gf.invByte217 : gf.inverse 217 = 139 := by decide!
theorem gf.invByte218 : gf.inverse 218 = 196 := by decide!
theorem gf.invByte219 : gf.inverse 219 = 213 := by decide!
theorem gf.invByte220 : gf.inverse 220 = 157 := by decide!
theorem gf.invByte221 : gf.inverse 221 = 248 := by decide!
theorem gf.invByte222 : gf.inverse 222 = 144 := by decide!
theorem gf.invByte223 : gf.inverse 223 = 107 := by decide!
theorem gf.invByte224 : gf.inverse 224 = 177 := by decide!
theorem gf.invByte225 : gf.inverse 225 = 13 := by decide!
theorem gf.invByte226 : gf.inverse 226 = 214 := by decide!
theorem gf.invByte227 : gf.inverse 227 = 235 := by decide!
theorem gf.invByte228 : gf.inverse 228 = 198 := by decide!
theorem gf.invByte229 : gf.inverse 229 = 14 := by decide!
theorem gf.invByte230 : gf.inverse 230 = 207 := by decide!
theorem gf.invByte231 : gf.inverse 231 = 173 := by decide!
theorem gf.invByte232 : gf.inverse 232 = 8 := by decide!
theorem gf.invByte233 : gf.inverse 233 = 78 := by decide!
theorem gf.invByte234 : gf.inverse 234 = 215 := by decide!
theorem gf.invByte235 : gf.inverse 235 = 227 := by decide!
theorem gf.invByte236 : gf.inverse 236 = 93 := by decide!
theorem gf.invByte237 : gf.inverse 237 = 80 := by decide!
theorem gf.invByte238 : gf.inverse 238 = 30 := by decide!
theorem gf.invByte239 : gf.inverse 239 = 179 := by decide!
theorem gf.invByte240 : gf.inverse 240 = 91 := by decide!
theorem gf.invByte241 : gf.inverse 241 = 35 := by decide!
theorem gf.invByte242 : gf.inverse 242 = 56 := by decide!
theorem gf.invByte243 : gf.inverse 243 = 52 := by decide!
theorem gf.invByte244 : gf.inverse 244 = 104 := by decide!
theorem gf.invByte245 : gf.inverse 245 = 70 := by decide!
theorem gf.invByte246 : gf.inverse 246 = 3 := by decide!
theorem gf.invByte247 : gf.inverse 247 = 140 := by decide!
theorem gf.invByte248 : gf.inverse 248 = 221 := by decide!
theorem gf.invByte249 : gf.inverse 249 = 156 := by decide!
theorem gf.invByte250 : gf.inverse 250 = 125 := by decide!
theorem gf.invByte251 : gf.inverse 251 = 160 := by decide!
theorem gf.invByte252 : gf.inverse 252 = 205 := by decide!
theorem gf.invByte253 : gf.inverse 253 = 26 := by decide!
theorem gf.invByte254 : gf.inverse 254 = 65 := by decide!
theorem gf.invByte255 : gf.inverse 255 = 28 := by decide!

theorem sboxV0 : sboxByte 0 = 99 := by
  simp only [sboxByte]
  rw [gf.invByte0]
  decide!
theorem sboxV1 : sboxByte 1 = 124 := by
  simp only [sboxByte]
  rw [gf.invByte1]
  decide!
theorem sboxV2 : sboxByte 2 = 119 := by
  simp only [sboxByte]
  rw [gf.invByte2]
  decide!
theorem sboxV3 : sboxByte 3 = 123 := by
  simp only [sboxByte]
  rw [gf.invByte3]
  decide!
theorem sboxV4 : sboxByte 4 = 242 := by
  simp only [sboxByte]
  rw [gf.invByte4]
  decide!
theorem sboxV5 : sboxByte 5 = 107 := by
  simp only [sboxByte]
  rw [gf.invByte5]
  decide!
theorem sboxV6 : sboxByte 6 = 111 := by
  simp only [sboxByte]
  rw [gf.invByte6]
  decide!
theorem sboxV7 : sboxByte 7 = 197 := by
  simp only [sboxByte]
  rw [gf.invByte7]
  decide!
theorem sboxV8 : sboxByte 8 = 48 := by
  simp only [sboxByte]
  rw [gf.invByte8]
  decide!
theorem sboxV9 : sboxByte 9 = 1 := by
  simp only [sboxByte]
  rw [gf.invByte9]
  decide!
theorem sboxV10 : sboxByte 10 = 103 := by
  simp only [sboxByte]
  rw [gf.invByte10]
  decide!
theorem sboxV11 : sboxByte 11 = 43 := by
  simp only [sboxByte]
  rw [gf.invByte11]
  decide!
theorem sboxV12 : sboxByte 12 = 254 := by
  simp only [sboxByte]
  rw [gf.invByte12]
  decide!
theorem sboxV13 : sboxByte 13 = 215 := by
  simp only [sboxByte]
  rw [gf.invByte13]
  decide!
theorem sboxV14 : sboxByte 14 = 171 := by
  simp only [sboxByte]
  rw [gf.invByte14]
  decide!
theorem sboxV15 : sboxByte 15 = 118 := by
  simp only [sboxByte]
  rw [gf.invByte15]
  decide!
theorem sboxV16 : sboxByte 16 = 202 := by
  simp only [sboxByte]
  rw [gf.invByte16]
  decide!
theorem sboxV17 : sboxByte 17 = 130 := by
  simp only [sboxByte]
  rw [gf.invByte17]
  decide!
theorem sboxV18 : sboxByte 18 = 201 := by
  simp only [sboxByte]
  rw [gf.invByte18]
  decide!
theorem sboxV19 : sboxByte 19 = 125 := by
  simp only [sboxByte]
  rw [gf.invByte19]
  decide!
theorem sboxV20 : sboxByte 20 = 250 := by
  simp only [sboxByte]
  rw [gf.invByte20]
  decide!
theorem sboxV21 : sboxByte 21 = 89 := by
  simp only [sboxByte]
  rw [gf.invByte21]
  decide!
theorem sboxV22 : sboxByte 22 = 71 := by
  simp only [sboxByte]
  rw [gf.invByte22]
  decide!
theorem sboxV23 : sboxByte 23 = 240 := by
  simp only [sboxByte]
  rw [gf.invByte23]
  decide!
theorem sboxV24 : sboxByte 24 = 173 := by
  simp only [sboxByte]
  rw [gf.invByte24]
  decide!
theorem sboxV25 : sboxByte 25 = 212 := by
  simp only [sboxByte]
  rw [gf.invByte25]
  decide!
theorem sboxV26 : sboxByte 26 = 162 := by
  simp only [sboxByte]
  rw [gf.invByte26]
  decide!
theorem sboxV27 : sboxByte 27 = 175 := by
  simp only [sboxByte]
  rw [gf.invByte27]
  decide!
theorem sboxV28 : sboxByte 28 = 156 := by
  simp only [sboxByte]
  rw [gf.invByte28]
  decide!
theorem sboxV29 : sboxByte 29 = 164 := by
  simp only [sboxByte]
  rw [gf.invByte29]
  decide!
theorem sboxV30 : sboxByte 30 = 114 := by
  simp only [sboxByte]
  rw [gf.invByte30]
  decide!
theorem sboxV31 : sboxByte 31 = 192 := by
  simp only [sboxByte]
  rw [gf.invByte31]
  decide!
theorem sboxV32 : sboxByte 32 = 183 := by
  simp only [sboxByte]
  rw [gf.invByte32]
  decide!
theorem sboxV33 : sboxByte 33 = 253 := by
  simp only [sboxByte]
  rw [gf.invByte33]
  decide!
theorem sboxV34 : sboxByte 34 = 147 := by
  simp only [sboxByte]
  rw [gf.invByte34]
  decide!
theorem sboxV35 : sboxByte 35 = 38 := by
  simp only [sboxByte]
  rw [gf.invByte35]
  decide!
theorem sboxV36 : sboxByte 36 = 54 := by
  simp only [sboxByte]
  rw [gf.invByte36]
  decide!
theorem sboxV37 : sboxByte 37 = 63 := by
  simp only [sboxByte]
  rw [gf.invByte37]
  decide!
theorem sboxV38 : sboxByte 38 = 247 := by
  simp only [sboxByte]
  rw [gf.invByte38]
  decide!
theorem sboxV39 : sboxByte 39 = 204 := by
  simp only [sboxByte]
  rw [gf.invByte39]
  decide!
theorem sboxV40 : sboxByte 40 = 52 := by
  simp only [sboxByte]
  rw [gf.invByte40]
  decide!
theorem sboxV41 : sboxByte 41 = 165 := by
  simp only [sboxByte]
  rw [gf.invByte41]
  decide!
theorem sboxV42 : sboxByte 42 = 229 := by
  simp only [sboxByte]
  rw [gf.invByte42]
  decide!
theorem sboxV43 : sboxByte 43 = 241 := by
  simp only [sboxByte]
  rw [gf.invByte43]
  decide!
theorem sboxV44 : sboxByte 44 = 113 := by
  simp only [sboxByte]
  rw [gf.invByte44]
  decide!
theorem sboxV45 : sboxByte 45 = 216 := by
  simp only [sboxByte]
  rw [gf.invByte45]
  decide!
theorem sboxV46 : sboxByte 46 = 49 := by
  simp only [sboxByte]
  rw [gf.invByte46]
  decide!
theorem sboxV47 : sboxByte 47 = 21 := by
  simp only [sboxByte]
  rw [gf.invByte47]
  decide!
theorem sboxV48 : sboxByte 48 = 4 := by
  simp only [sboxByte]
  rw [gf.invByte48]
  decide!
theorem sboxV49 : sboxByte 49 = 199 := by
  simp only [sboxByte]
  rw [gf.invByte49]
  decide!
theorem sboxV50 : sboxByte 50 = 35 := by
  simp only [sboxByte]
  rw [gf.invByte50]
  decide!
theorem sboxV51 : sboxByte 51 = 195 := by
  simp only [sboxByte]
  rw [gf.invByte51]
  decide!
theorem sboxV52 : sboxByte 52 = 24 := by
  simp only [sboxByte]
  rw [gf.invByte52]
  decide!
theorem sboxV53 : sboxByte 53 = 150 := by
  simp only [sboxByte]
  rw [gf.invByte53]
  decide!
theorem sboxV54 : sboxByte 54 = 5 := by
  simp only [sboxByte]
  rw [gf.invByte54]
  decide!
theorem sboxV55 : sboxByte 55 = 154 := by
  simp only [sboxByte]
  rw [gf.invByte55]
  decide!
theorem sboxV56 : sboxByte 56 = 7 := by
  simp only [sboxByte]
  rw [gf.invByte56]
  decide!
theorem sboxV57 : sboxByte 57 = 18 := by
  simp only [sboxByte]
  rw [gf.invByte57]
  decide!
theorem sboxV58 : sboxByte 58 = 128 := by
  simp only [sboxByte]
  rw [gf.invByte58]
  decide!
theorem sboxV59 : sboxByte 59 = 226 := by
  simp only [sboxByte]
  rw [gf.invByte59]
  decide!
theorem sboxV60 : sboxByte 60 = 235 := by
  simp only [sboxByte]
  rw [gf.invByte60]
  decide!
theorem sboxV61 : sboxByte 61 = 39 := by
  simp only [sboxByte]
  rw [gf.invByte61]
  decide!
theorem sboxV62 : sboxByte 62 = 178 := by
  simp only [sboxByte]
  rw [gf.invByte62]
  decide!
theorem sboxV63 : sboxByte 63 = 117 := by
  simp only [sboxByte]
  rw [gf.invByte63]
  decide!
theorem sboxV64 : sboxByte 64 = 9 := by
  simp only [sboxByte]
  rw [gf.invByte64]
  decide!
theorem sboxV65 : sboxByte 65 = 131 := by
  simp only [sboxByte]
  rw [gf.invByte65]
  decide!
theorem sboxV66 : sboxByte 66 = 44 := by
  simp only [sboxByte]
  rw [gf.invByte66]
  decide!
theorem sboxV67 : sboxByte 67 = 26 := by
  simp only [sboxByte]
  rw [gf.invByte67]
  decide!
theorem sboxV68 : sboxByte 68 = 27 := by
  simp only [sboxByte]
  rw [gf.invByte68]
  decide!
theorem sboxV69 : sboxByte 69 = 110 := by
  simp only [sboxByte]
  rw [gf.invByte69]
  decide!
theorem sboxV70 : sboxByte 70 = 90 := by
  simp only [sboxByte]
  rw [gf.invByte70]
  decide!
theorem sboxV71 : sboxByte 71 = 160 := by
  simp only [sboxByte]
  rw [gf.invByte71]
  decide!
theorem sboxV72 : sboxByte 72 = 82 := by
  simp only [sboxByte]
  rw [gf.invByte72]
  decide!
theorem sboxV73 : sboxByte 73 = 59 := by
  simp only [sboxByte]
  rw [gf.invByte73]
  decide!
theorem sboxV74 : sboxByte 74 = 214 := by
  simp only [sboxByte]
  rw [gf.invByte74]
  decide!
theorem sboxV75 : sboxByte 75 = 179 := by
  simp only [sboxByte]
  rw [gf.invByte75]
  decide!
theorem sboxV76 : sboxByte 76 = 41 := by
  simp only [sboxByte]
  rw [gf.invByte76]
  decide!
theorem sboxV77 : sboxByte 77 = 227 := by
  simp only [sboxByte]
  rw [gf.invByte77]
  decide!
theorem sboxV78 : sboxByte 78 = 47 := by
  simp only [sboxByte]
  rw [gf.invByte78]
  decide!
theorem sboxV79 : sboxByte 79 = 132 := by
  simp only [sboxByte]
  rw [gf.invByte79]
  decide!
theorem sboxV80 : sboxByte 80 = 83 := by
  simp only [sboxByte]
  rw [gf.invByte80]
  decide!
theorem sboxV81 : sboxByte 81 = 209 := by
  simp only [sboxByte]
  rw [gf.invByte81]
  decide!
theorem sboxV82 : sboxByte 82 = 0 := by
  simp only [sboxByte]
  rw [gf.invByte82]
  decide!
theorem sboxV83 : sboxByte 83 = 237 := by
  simp only [sboxByte]
  rw [gf.invByte83]
  decide!
theorem sboxV84 : sboxByte 84 = 32 := by
  simp only [sboxByte]
  rw [gf.invByte84]
  decide!
theorem sboxV85 : sboxByte 85 = 252 := by
  simp only [sboxByte]
  rw [gf.invByte85]
  decide!
theorem sboxV86 : sboxByte 86 = 177 := by
  simp only [sboxByte]
  rw [gf.invByte86]
  decide!
theorem sboxV87 : sboxByte 87 = 91 := by
  simp only [sboxByte]
  rw [gf.invByte87]
  decide!
theorem sboxV88 : sboxByte 88 = 106 := by
  simp only [sboxByte]
  rw [gf.invByte88]
  decide!
theorem sboxV89 : sboxByte 89 = 203 := by
  simp only [sboxByte]
  rw [gf.invByte89]
  decide!
theorem sboxV90 : sboxByte 90 = 190 := by
  simp only [sboxByte]
  rw [gf.invByte90]
  decide!
theorem sboxV91 : sboxByte 91 = 57 := by
  simp only [sboxByte]
  rw [gf.invByte91]
  decide!
theorem sboxV92 : sboxByte 92 = 74 := by
  simp only [sboxByte]
  rw [gf.invByte92]
  decide!
theorem sboxV93 : sboxByte 93 = 76 := by
  simp only [sboxByte]
  rw [gf.invByte93]
  decide!
theorem sboxV94 : sboxByte 94 = 88 := by
  simp only [sboxByte]
  rw [gf.invByte94]
  decide!
theorem sboxV95 : sboxByte 95 = 207 := by
  simp only [sboxByte]
  rw [gf.invByte95]
  decide!
theorem sboxV96 : sboxByte 96 = 208 := by
  simp only [sboxByte]
  rw [gf.invByte96]
  decide!
theorem sboxV97 : sboxByte 97 = 239 := by
  simp only [sboxByte]
  rw [gf.invByte97]
  decide!
theorem sboxV98 : sboxByte 98 = 170 := by
  simp only [sboxByte]
  rw [gf.invByte98]
  decide!
theorem sboxV99 : sboxByte 99 = 251 := by
  simp only [sboxByte]
  rw [gf.invByte99]
  decide!
theorem sboxV100 : sboxByte 100 = 67 := by
  simp only [sboxByte]
  rw [gf.invByte100]
  decide!
theorem sboxV101 : sboxByte 101 = 77 := by
  simp only [sboxByte]
  rw [gf.invByte101]
  decide!
theorem sboxV102 : sboxByte 102 = 51 := by
  simp only [sboxByte]
  rw [gf.invByte102]
  decide!
theorem sboxV103 : sboxByte 103 = 133 := by
  simp only [sboxByte]
  rw [gf.invByte103]
  decide!
theorem sboxV104 : sboxByte 104 = 69 := by
  simp only [sboxByte]
  rw [gf.invByte104]
  decide!
theorem sboxV105 : sboxByte 105 = 249 := by
  simp only [sboxByte]
  rw [gf.invByte105]
  decide!
theorem sboxV106 : sboxByte 106 = 2 := by
  simp only [sboxByte]
  rw [gf.invByte106]
  decide!
theorem sboxV107 : sboxByte 107 = 127 := by
  simp only [sboxByte]
  rw [gf.invByte107]
  decide!
theorem sboxV108 : sboxByte 108 = 80 := by
  simp only [sboxByte]
  rw [gf.invByte108]
  decide!
theorem sboxV109 : sboxByte 109 = 60 := by
  simp only [sboxByte]
  rw [gf.invByte109]
  decide!
theorem sboxV110 : sboxByte 110 = 159 := by
  simp only [sboxByte]
  rw [gf.invByte110]
  decide!
theorem sboxV111 : sboxByte 111 = 168 := by
  simp only [sboxByte]
  rw [gf.invByte111]
  decide!
theorem sboxV112 : sboxByte 112 = 81 := by
  simp only [sboxByte]
  rw [gf.invByte112]
  decide!
theorem sboxV113 : sboxByte 113 = 163 := by
  simp only [sboxByte]
  rw [gf.invByte113]
  decide!
theorem sboxV114 : sboxByte 114 = 64 := by
  simp only [sboxByte]
  rw [gf.invByte114]
  decide!
theorem sboxV115 : sboxByte 115 = 143 := by
  simp only [sboxByte]
  rw [gf.invByte115]
  decide!
theorem sboxV116 : sboxByte 116 = 146 := by
  simp only [sboxByte]
  rw [gf.invByte116]
  decide!
theorem sboxV117 : sboxByte 117 = 157 := by
  simp only [sboxByte]
  rw [gf.invByte117]
  decide!
theorem sboxV118 : sboxByte 118 = 56 := by
  simp only [sboxByte]
  rw [gf.invByte118]
  decide!
theorem sboxV119 : sboxByte 119 = 245 := by
  simp only [sboxByte]
  rw [gf.invByte119]
  decide!
theorem sboxV120 : sboxByte 120 = 188 := by
  simp only [sboxByte]
  rw [gf.invByte120]
  decide!
theorem sboxV121 : sboxByte 121 = 182 := by
  simp only [sboxByte]
  rw [gf.invByte121]
  decide!
theorem sboxV122 : sboxByte 122 = 218 := by
  simp only [sboxByte]
  rw [gf.invByte122]
  decide!
theorem sboxV123 : sboxByte 123 = 33 := by
  simp only [sboxByte]
  rw [gf.invByte123]
  decide!
theorem sboxV124 : sboxByte 124 = 16 := by
  simp only [sboxByte]
  rw [gf.invByte124]
  decide!
theorem sboxV125 : sboxByte 125 = 255 := by
  simp only [sboxByte]
  rw [gf.invByte125]
  decide!
theorem sboxV126 : sboxByte 126 = 243 := by
  simp only [sboxByte]
  rw [gf.invByte126]
  decide!
theorem sboxV127 : sboxByte 127 = 210 := by
  simp only [sboxByte]
  rw [gf.invByte127]
  decide!
theorem sboxV128 : sboxByte 128 = 205 := by
  simp only [sboxByte]
  rw [gf.invByte128]
  decide!
theorem sboxV129 : sboxByte 129 = 12 := by
  simp only [sboxByte]
  rw [gf.invByte129]
  decide!
theorem sboxV130 : sboxByte 130 = 19 := by
  simp only [sboxByte]
  rw [gf.invByte130]
  decide!
theorem sboxV131 : sboxByte 131 = 236 := by
  simp only [sboxByte]
  rw [gf.invByte131]
  decide!
theorem sboxV132 : sboxByte 132 = 95 := by
  simp only [sboxByte]
  rw [gf.invByte132]
  decide!
theorem sboxV133 : sboxByte 133 = 151 := by
  simp only [sboxByte]
  rw [gf.invByte133]
  decide!
theorem sboxV134 : sboxByte 134 = 68 := by
  simp only [sboxByte]
  rw [gf.invByte134]
  decide!
theorem sboxV135 : sboxByte 135 = 23 := by
  simp only [sboxByte]
  rw [gf.invByte135]
  decide!
theorem sboxV136 : sboxByte 136 = 196 := by
  simp only [sboxByte]
  rw [gf.invByte136]
  decide!
theorem sboxV137 : sboxByte 137 = 167 := by
  simp only [sboxByte]
  rw [gf.invByte137]
  decide!
theorem sboxV138 : sboxByte 138 = 126 := by
  simp only [sboxByte]
  rw [gf.invByte138]
  decide!
theorem sboxV139 : sboxByte 139 = 61 := by
  simp only [sboxByte]
  rw [gf.invByte139]
  decide!
theorem sboxV140 : sboxByte 140 = 100 := by
  simp only [sboxByte]
  rw [gf.invByte140]
  decide!
theorem sboxV141 : sboxByte 141 = 93 := by
  simp only [sboxByte]
  rw [gf.invByte141]
  decide!
theorem sboxV142 : sboxByte 142 = 25 := by
  simp only [sboxByte]
  rw [gf.invByte142]
  decide!
theorem sboxV143 : sboxByte 143 = 115 := by
  simp only [sboxByte]
  rw [gf.invByte143]
  decide!
theorem sboxV144 : sboxByte 144 = 96 := by
  simp only [sboxByte]
  rw [gf.invByte144]
  decide!
theorem sboxV145 : sboxByte 145 = 129 := by
  simp only [sboxByte]
  rw [gf.invByte145]
  decide!
theorem sboxV146 : sboxByte 146 = 79 := by
  simp only [sboxByte]
  rw [gf.invByte146]
  decide!
theorem sboxV147 : sboxByte 147 = 220 := by
  simp only [sboxByte]
  rw [gf.invByte147]
  decide!
theorem sboxV148 : sboxByte 148 = 34 := by
  simp only [sboxByte]
  rw [gf.invByte148]
  decide!
theorem sboxV149 : sboxByte 149 = 42 := by
  simp only [sboxByte]
  rw [gf.invByte149]
  decide!
theorem sboxV150 : sboxByte 150 = 144 := by
  simp only [sboxByte]
  rw [gf.invByte150]
  decide!
theorem sboxV151 : sboxByte 151 = 136 := by
  simp only [sboxByte]
  rw [gf.invByte151]
  decide!
theorem sboxV152 : sboxByte 152 = 70 := by
  simp only [sboxByte]
  rw [gf.invByte152]
  decide!
theorem sboxV153 : sboxByte 153 = 238 := by
  simp only [sboxByte]
  rw [gf.invByte153]
  decide!
theorem sboxV154 : sboxByte 154 = 184 := by
  simp only [sboxByte]
  rw [gf.invByte154]
  decide!
theorem sboxV155 : sboxByte 155 = 20 := by
  simp only [sboxByte]
  rw [gf.invByte155]
  decide!
theorem sboxV156 : sboxByte 156 = 222 := by
  simp only [sboxByte]
  rw [gf.invByte156]
  decide!
theorem sboxV157 : sboxByte 157 = 94 := by
  simp only [sboxByte]
  rw [gf.invByte157]
  decide!
theorem sboxV158 : sboxByte 158 = 11 := by
  simp only [sboxByte]
  rw [gf.invByte158]
  decide!
theorem sboxV159 : sboxByte 159 = 219 := by
  simp only [sboxByte]
  rw [gf.invByte159]
  decide!
theorem sboxV160 : sboxByte 160 = 224 := by
  simp only [sboxByte]
  rw [gf.invByte160]
  decide!
theorem sboxV161 : sboxByte 161 = 50 := by
  simp only [sboxByte]
  rw [gf.invByte161]
  decide!
theorem sboxV162 : sboxByte 162 = 58 := by
  simp only [sboxByte]
  rw [gf.invByte162]
  decide!
theorem sboxV163 : sboxByte 163 = 10 := by
  simp only [sboxByte]
  rw [gf.invByte163]
  decide!
theorem sboxV164 : sboxByte 164 = 73 := by
  simp only [sboxByte]
  rw [gf.invByte164]
  decide!
theorem sboxV165 : sboxByte 165 = 6 := by
  simp only [sboxByte]
  rw [gf.invByte165]
  decide!
theorem sboxV166 : sboxByte 166 = 36 := by
  simp only [sboxByte]
  rw [gf.invByte166]
  decide!
theorem sboxV167 : sboxByte 167 = 92 := by
  simp only [sboxByte]
  rw [gf.invByte167]
  decide!
theorem sboxV168 : sboxByte 168 = 194 := by
  simp only [sboxByte]
  rw [gf.invByte168]
  decide!
theorem sboxV169 : sboxByte 169 = 211 := by
  simp only [sboxByte]
  rw [gf.invByte169]
  decide!
theorem sboxV170 : sboxByte 170 = 172 := by
  simp only [sboxByte]
  rw [gf.invByte170]
  decide!
theorem sboxV171 : sboxByte 171 = 98 := by
  simp only [sboxByte]
  rw [gf.invByte171]
  decide!
theorem sboxV172 : sboxByte 172 = 145 := by
  simp only [sboxByte]
  rw [gf.invByte172]
  decide!
theorem sboxV173 : sboxByte 173 = 149 := by
  simp only [sboxByte]
  rw [gf.invByte173]
  decide!
theorem sboxV174 : sboxByte 174 = 228 := by
  simp only [sboxByte]
  rw [gf.invByte174]
  decide!
theorem sboxV175 : sboxByte 175 = 121 := by
  simp only [sboxByte]
  rw [gf.invByte175]
  decide!
theorem sboxV176 : sboxByte 176 = 231 := by
  simp only [sboxByte]
  rw [gf.invByte176]
  decide!
theorem sboxV177 : sboxByte 177 = 200 := by
  simp only [sboxByte]
  rw [gf.invByte177]
  decide!
theorem sboxV178 : sboxByte 178 = 55 := by
  simp only [sboxByte]
  rw [gf.invByte178]
  decide!
theorem sboxV179 : sboxByte 179 = 109 := by
  simp only [sboxByte]
  rw [gf.invByte179]
  decide!
theorem sboxV180 : sboxByte 180 = 141 := by
  simp only [sboxByte]
  rw [gf.invByte180]
  decide!
theorem sboxV181 : sboxByte 181 = 213 := by
  simp only [sboxByte]
  rw [gf.invByte181]
  decide!
theorem sboxV182 : sboxByte 182 = 78 := by
  simp only [sboxByte]
  rw [gf.invByte182]
  decide!
theorem sboxV183 : sboxByte 183 = 169 := by
  simp only [sboxByte]
  rw [gf.invByte183]
  decide!
theorem sboxV184 : sboxByte 184 = 108 := by
  simp only [sboxByte]
  rw [gf.invByte184]
  decide!
theorem sboxV185 : sboxByte 185 = 86 := by
  simp only [sboxByte]
  rw [gf.invByte185]
  decide!
theorem sboxV186 : sboxByte 186 = 244 := by
  simp only [sboxByte]
  rw [gf.invByte186]
  decide!
theorem sboxV187 : sboxByte 187 = 234 := by
  simp only [sboxByte]
  rw [gf.invByte187]
  decide!
theorem sboxV188 : sboxByte 188 = 101 := by
  simp only [sboxByte]
  rw [gf.invByte188]
  decide!
theorem sboxV189 : sboxByte 189 = 122 := by
  simp only [sboxByte]
  rw [gf.invByte189]
  decide!
theorem sboxV190 : sboxByte 190 = 174 := by
  simp only [sboxByte]
  rw [gf.invByte190]
  decide!
theorem sboxV191 : sboxByte 191 = 8 := by
  simp only [sboxByte]
  rw [gf.invByte191]
  decide!
theorem sboxV192 : sboxByte 192 = 186 := by
  simp only [sboxByte]
  rw [gf.invByte192]
  decide!
theorem sboxV193 : sboxByte 193 = 120 := by
  simp only [sboxByte]
  rw [gf.invByte193]
  decide!
theorem sboxV194 : sboxByte 194 = 37 := by
  simp only [sboxByte]
  rw [gf.invByte194]
  decide!
theorem sboxV195 : sboxByte 195 = 46 := by
  simp only [sboxByte]
  rw [gf.invByte195]
  decide!
theorem sboxV196 : sboxByte 196 = 28 := by
  simp only [sboxByte]
  rw [gf.invByte196]
  decide!
theorem sboxV197 : sboxByte 197 = 166 := by
  simp only [sboxByte]
  rw [gf.invByte197]
  decide!
theorem sboxV198 : sboxByte 198 = 180 := by
  simp only [sboxByte]
  rw [gf.invByte198]
  decide!
theorem sboxV199 : sboxByte 199 = 198 := by
  simp only [sboxByte]
  rw [gf.invByte199]
  decide!
theorem sboxV200 : sboxByte 200 = 232 := by
  simp only [sboxByte]
  rw [gf.invByte200]
  decide!
theorem sboxV201 : sboxByte 201 = 221 := by
  simp only [sboxByte]
  rw [gf.invByte201]
  decide!
theorem sboxV202 : sboxByte 202 = 116 := by
  simp only [sboxByte]
  rw [gf.invByte202]
  decide!
theorem sboxV203 : sboxByte 203 = 31 := by
  simp only [sboxByte]
  rw [gf.invByte203]
  decide!
theorem sboxV204 : sboxByte 204 = 75 := by
  simp only [sboxByte]
  rw [gf.invByte204]
  decide!
theorem sboxV205 : sboxByte 205 = 189 := by
  simp only [sboxByte]
  rw [gf.invByte205]
  decide!
theorem sboxV206 : sboxByte 206 = 139 := by
  simp only [sboxByte]
  rw [gf.invByte206]
  decide!
theorem sboxV207 : sboxByte 207 = 138 := by
  simp only [sboxByte]
  rw [gf.invByte207]
  decide!
theorem sboxV208 : sboxByte 208 = 112 := by
  simp only [sboxByte]
  rw [gf.invByte208]
  decide!
theorem sboxV209 : sboxByte 209 = 62 := by
  simp only [sboxByte]
  rw [gf.invByte209]
  decide!
theorem sboxV210 : sboxByte 210 = 181 := by
  simp only [sboxByte]
  rw [gf.invByte210]
  decide!
theorem sboxV211 : sboxByte 211 = 102 := by
  simp only [sboxByte]
  rw [gf.invByte211]
  decide!
theorem sboxV212 : sboxByte 212 = 72 := by
  simp only [sboxByte]
  rw [gf.invByte212]
  decide!
theorem sboxV213 : sboxByte 213 = 3 := by
  simp only [sboxByte]
  rw [gf.invByte213]
  decide!
theorem sboxV214 : sboxByte 214 = 246 := by
  simp only [sboxByte]
  rw [gf.invByte214]
  decide!
theorem sboxV215 : sboxByte 215 = 14 := by
  simp only [sboxByte]
  rw [gf.invByte215]
  decide!
theorem sboxV216 : sboxByte 216 = 97 := by
  simp only [sboxByte]
  rw [gf.invByte216]
  decide!
theorem sboxV217 : sboxByte 217 = 53 := by
  simp only [sboxByte]
  rw [gf.invByte217]
  decide!
theorem sboxV218 : sboxByte 218 = 87 := by
  simp only [sboxByte]
  rw [gf.invByte218]
  decide!
theorem sboxV219 : sboxByte 219 = 185 := by
  simp only [sboxByte]
  rw [gf.invByte219]
  decide!
theorem sboxV220 : sboxByte 220 = 134 := by
  simp only [sboxByte]
  rw [gf.invByte220]
  decide!
theorem sboxV221 : sboxByte 221 = 193 := by
  simp only [sboxByte]
  rw [gf.invByte221]
  decide!
theorem sboxV222 : sboxByte 222 = 29 := by
  simp only [sboxByte]
  rw [gf.invByte222]
  decide!
theorem sboxV223 : sboxByte 223 = 158 := by
  simp only [sboxByte]
  rw [gf.invByte223]
  decide!
theorem sboxV224 : sboxByte 224 = 225 := by
  simp only [sboxByte]
  rw [gf.invByte224]
  decide!
theorem sboxV225 : sboxByte 225 = 248 := by
  simp only [sboxByte]
  rw [gf.invByte225]
  decide!
theorem sboxV226 : sboxByte 226 = 152 := by
  simp only [sboxByte]
  rw [gf.invByte226]
  decide!
theorem sboxV227 : sboxByte 227 = 17 := by
  simp only [sboxByte]
  rw [gf.invByte227]
  decide!
theorem sboxV228 : sboxByte 228 = 105 := by
  simp only [sboxByte]
  rw [gf.invByte228]
  decide!
theorem sboxV229 : sboxByte 229 = 217 := by
  simp only [sboxByte]
  rw [gf.invByte229]
  decide!
theorem sboxV230 : sboxByte 230 = 142 := by
  simp only [sboxByte]
  rw [gf.invByte230]
  decide!
theorem sboxV231 : sboxByte 231 = 148 := by
  simp only [sboxByte]
  rw [gf.invByte231]
  decide!
theorem sboxV232 : sboxByte 232 = 155 := by
  simp only [sboxByte]
  rw [gf.invByte232]
  decide!
theorem sboxV233 : sboxByte 233 = 30 := by
  simp only [sboxByte]
  rw [gf.invByte233]
  decide!
theorem sboxV234 : sboxByte 234 = 135 := by
  simp only [sboxByte]
  rw [gf.invByte234]
  decide!
theorem sboxV235 : sboxByte 235 = 233 := by
  simp only [sboxByte]
  rw [gf.invByte235]
  decide!
theorem sboxV236 : sboxByte 236 = 206 := by
  simp only [sboxByte]
  rw [gf.invByte236]
  decide!
theorem sboxV237 : sboxByte 237 = 85 := by
  simp only [sboxByte]
  rw [gf.invByte237]
  decide!
theorem sboxV238 : sboxByte 238 = 40 := by
  simp only [sboxByte]
  rw [gf.invByte238]
  decide!
theorem sboxV239 : sboxByte 239 = 223 := by
  simp only [sboxByte]
  rw [gf.invByte239]
  decide!
theorem sboxV240 : sboxByte 240 = 140 := by
  simp only [sboxByte]
  rw [gf.invByte240]
  decide!
theorem sboxV241 : sboxByte 241 = 161 := by
  simp only [sboxByte]
  rw [gf.invByte241]
  decide!
theorem sboxV242 : sboxByte 242 = 137 := by
  simp only [sboxByte]
  rw [gf.invByte242]
  decide!
theorem sboxV243 : sboxByte 243 = 13 := by
  simp only [sboxByte]
  rw [gf.invByte243]
  decide!
theorem sboxV244 : sboxByte 244 = 191 := by
  simp only [sboxByte]
  rw [gf.invByte244]
  decide!
theorem sboxV245 : sboxByte 245 = 230 := by
  simp only [sboxByte]
  rw [gf.invByte245]
  decide!
theorem sboxV246 : sboxByte 246 = 66 := by
  simp only [sboxByte]
  rw [gf.invByte246]
  decide!
theorem sboxV247 : sboxByte 247 = 104 := by
  simp only [sboxByte]
  rw [gf.invByte247]
  decide!
theorem sboxV248 : sboxByte 248 = 65 := by
  simp only [sboxByte]
  rw [gf.invByte248]
  decide!
theorem sboxV249 : sboxByte 249 = 153 := by
  simp only [sboxByte]
  rw [gf.invByte249]
  decide!
theorem sboxV250 : sboxByte 250 = 45 := by
  simp only [sboxByte]
  rw [gf.invByte250]
  decide!
theorem sboxV251 : sboxByte 251 = 15 := by
  simp only [sboxByte]
  rw [gf.invByte251]
  decide!
theorem sboxV252 : sboxByte 252 = 176 := by
  simp only [sboxByte]
  rw [gf.invByte252]
  decide!
theorem sboxV253 : sboxByte 253 = 84 := by
  simp only [sboxByte]
  rw [gf.invByte253]
  decide!
theorem sboxV254 : sboxByte 254 = 187 := by
  simp only [sboxByte]
  rw [gf.invByte254]
  decide!
theorem sboxV255 : sboxByte 255 = 22 := by
  simp only [sboxByte]
  rw [gf.invByte255]
  decide!

theorem sboxRT0 : invSboxByte (sboxByte 0) = 0 := by
  rw [sboxV0]
  simp only [invSboxByte]
  rw [show rotl8 99 1 ^^^ rotl8 99 3 ^^^ rotl8 99 6 ^^^ 5 = 0 from by decide!]
  exact gf.invByte0
theorem sboxRT1 : invSboxByte (sboxByte 1) = 1 := by
  rw [sboxV1]
  simp only [invSboxByte]
  rw [show rotl8 124 1 ^^^ rotl8 124 3 ^^^ rotl8 124 6 ^^^ 5 = 1 from by decide!]
  exact gf.invByte1
theorem sboxRT2 : invSboxByte (sboxByte 2) = 2 := by
  rw [sboxV2]
  simp only [invSboxByte]
  rw [show rotl8 119 1 ^^^ rotl8 119 3 ^^^ rotl8 119 6 ^^^ 5 = 141 from by decide!]
  exact gf.invByte141
theorem sboxRT3 : invSboxByte (sboxByte 3) = 3 := by
  rw [sboxV3]
  simp only [invSboxByte]
  rw [show rotl8 123 1 ^^^ rotl8 123 3 ^^^ rotl8 123 6 ^^^ 5 = 246 from by decide!]
  exact gf.invByte246
theorem sboxRT4 : invSboxByte (sboxByte 4) = 4 := by
  rw [sboxV4]
  simp only [invSboxByte]
  rw [show rotl8 242 1 ^^^ rotl8 242 3 ^^^ rotl8 242 6 ^^^ 5 = 203 from by decide!]
  exact gf.invByte203
theorem sboxRT5 : invSboxByte (sboxByte 5) = 5 := by
  rw [sboxV5]
  simp only [invSboxByte]
  rw [show rotl8 107 1 ^^^ rotl8 107 3 ^^^ rotl8 107 6 ^^^ 5 = 82 from by decide!]
  exact gf.invByte82
theorem sboxRT6 : invSboxByte (sboxByte 6) = 6 := by
  rw [sboxV6]
  simp only [invSboxByte]
  rw [show rotl8 111 1 ^^^ rotl8 111 3 ^^^ rotl8 111 6 ^^^ 5 = 123 from by decide!]
  exact gf.invByte123
theorem sboxRT7 : invSboxByte (sboxByte 7) = 7 := by
  rw [sboxV7]
  simp only [invSboxByte]
  rw [show rotl8 197 1 ^^^ rotl8 197 3 ^^^ rotl8 197 6 ^^^ 5 = 209 from by decide!]
  exact gf.invByte209
theorem sboxRT8 : invSboxByte (sboxByte 8) = 8 := by
  rw [sboxV8]
  simp only [invSboxByte]
  rw [show rotl8 48 1 ^^^ rotl8 48 3 ^^^ rotl8 48 6 ^^^ 5 = 232 from by decide!]
  exact gf.invByte232
theorem sboxRT9 : invSboxByte (sboxByte 9) = 9 := by
  rw [sboxV9]
  simp only [invSboxByte]
  rw [show rotl8 1 1 ^^^ rotl8 1 3 ^^^ rotl8 1 6 ^^^ 5 = 79 from by decide!]
  exact gf.invByte79
theorem sboxRT10 : invSboxByte (sboxByte 10) = 10 := by
  rw [sboxV10]
  simp only [invSboxByte]
  rw [show rotl8 103 1 ^^^ rotl8 103 3 ^^^ rotl8 103 6 ^^^ 5 = 41 from by decide!]
  exact gf.invByte41
theorem sboxRT11 : invSboxByte (sboxByte 11) = 11 := by
  rw [sboxV11]
  simp only [invSboxByte]
  rw [show rotl8 43 1 ^^^ rotl8 43 3 ^^^ rotl8 43 6 ^^^ 5 = 192 from by decide!]
  exact gf.invByte192
theorem sboxRT12 : invSboxByte (sboxByte 12) = 12 := by
  rw [sboxV12]
  simp only [invSboxByte]
  rw [show rotl8 254 1 ^^^ rotl8 254 3 ^^^ rotl8 254 6 ^^^ 5 = 176 from by decide!]
  exact gf.invByte176
theorem sboxRT13 : invSboxByte (sboxByte 13) = 13 := by
  rw [sboxV13]
  simp only [invSboxByte]
  rw [show rotl8 215 1 ^^^ rotl8 215 3 ^^^ rotl8 215 6 ^^^ 5 = 225 from by decide!]
  exact gf.invByte225
theorem sboxRT14 : invSboxByte (sboxByte 14) = 14 := by
  rw [sboxV14]
  simp only [invSboxByte]
  rw [show rotl8 171 1 ^^^ rotl8 171 3 ^^^ rotl8 171 6 ^^^ 5 = 229 from by decide!]
  exact gf.invByte229
theorem sboxRT15 : invSboxByte (sboxByte 15) = 15 := by
  rw [sboxV15]
  simp only [invSboxByte]
  rw [show rotl8 118 1 ^^^ rotl8 118 3 ^^^ rotl8 118 6 ^^^ 5 = 199 from by decide!]
  exact gf.invByte199
theorem sboxRT16 : invSboxByte (sboxByte 16) = 16 := by
  rw [sboxV16]
  simp only [invSboxByte]
  rw [show rotl8 202 1 ^^^ rotl8 202 3 ^^^ rotl8 202 6 ^^^ 5 = 116 from by decide!]
  exact gf.invByte116
theorem sboxRT17 : invSboxByte (sboxByte 17) = 17 := by
  rw [sboxV17]
  simp only [invSboxByte]
  rw [show rotl8 130 1 ^^^ rotl8 130 3 ^^^ rotl8 130 6 ^^^ 5 = 180 from by decide!]
  exact gf.invByte180
theorem sboxRT18 : invSboxByte (sboxByte 18) = 18 := by
  rw [sboxV18]
  simp only [invSboxByte]
  rw [show rotl8 201 1 ^^^ rotl8 201 3 ^^^ rotl8 201 6 ^^^ 5 = 170 from by decide!]
  exact gf.invByte170
theorem sboxRT19 : invSboxByte (sboxByte 19) = 19 := by
  rw [sboxV19]
  simp only [invSboxByte]
  rw [show rotl8 125 1 ^^^ rotl8 125 3 ^^^ rotl8 125 6 ^^^ 5 = 75 from by decide!]
  exact gf.invByte75
theorem sboxRT20 : invSboxByte (sboxByte 20) = 20 := by
  rw [sboxV20]
  simp only [invSboxByte]
  rw [show rotl8 250 1 ^^^ rotl8 250 3 ^^^ rotl8 250 6 ^^^ 5 = 153 from by decide!]
  exact gf.invByte153
theorem sboxRT21 : invSboxByte (sboxByte 21) = 21 := by
  rw [sboxV21]
  simp only [invSboxByte]
  rw [show rotl8 89 1 ^^^ rotl8 89 3 ^^^ rotl8 89 6 ^^^ 5 = 43 from by decide!]
  exact gf.invByte43
theorem sboxRT22 : invSboxByte (sboxByte 22) = 22 := by
  rw [sboxV22]
  simp only [invSboxByte]
  rw [show rotl8 71 1 ^^^ rotl8 71 3 ^^^ rotl8 71 6 ^^^ 5 = 96 from by decide!]
  exact gf.invByte96
theorem sboxRT23 : invSboxByte (sboxByte 23) = 23 := by
  rw [sboxV23]
  simp only [invSboxByte]
  rw [show rotl8 240 1 ^^^ rotl8 240 3 ^^^ rotl8 240 6 ^^^ 5 = 95 from by decide!]
  exact gf.invByte95
theorem sboxRT24 : invSboxByte (sboxByte 24) = 24 := by
  rw [sboxV24]
  simp only [invSboxByte]
  rw [show rotl8 173 1 ^^^ rotl8 173 3 ^^^ rotl8 173 6 ^^^ 5 = 88 from by decide!]
  exact gf.invByte88
theorem sboxRT25 : invSboxByte (sboxByte 25) = 25 := by
  rw [sboxV25]
  simp only [invSboxByte]
  rw [show rotl8 212 1 ^^^ rotl8 212 3 ^^^ rotl8 212 6 ^^^ 5 = 63 from by decide!]
  exact gf.invByte63
theorem sboxRT26 : invSboxByte (sboxByte 26) = 26 := by
  rw [sboxV26]
  simp only [invSboxByte]
  rw [show rotl8 162 1 ^^^ rotl8 162 3 ^^^ rotl8 162 6 ^^^ 5 = 253 from by decide!]
  exact gf.invByte253
theorem sboxRT27 : invSboxByte (sboxByte 27) = 27 := by
  rw [sboxV27]
  simp only [invSboxByte]
  rw [show rotl8 175 1 ^^^ rotl8 175 3 ^^^ rotl8 175 6 ^^^ 5 = 204 from by decide!]
  exact gf.invByte204
theorem sboxRT28 : invSboxByte (sboxByte 28) = 28 := by
  rw [sboxV28]
  simp only [invSboxByte]
  rw [show rotl8 156 1 ^^^ rotl8 156 3 ^^^ rotl8 156 6 ^^^ 5 = 255 from by decide!]
  exact gf.invByte255
theorem sboxRT29 : invSboxByte (sboxByte 29) = 29 := by
  rw [sboxV29]
  simp only [invSboxByte]
  rw [show rotl8 164 1 ^^^ rotl8 164 3 ^^^ rotl8 164 6 ^^^ 5 = 64 from by decide!]
  exact gf.invByte64
theorem sboxRT30 : invSboxByte (sboxByte 30) = 30 := by
  rw [sboxV30]
  simp only [invSboxByte]
  rw [show rotl8 114 1 ^^^ rotl8 114 3 ^^^ rotl8 114 6 ^^^ 5 = 238 from by decide!]
  exact gf.invByte238
theorem sboxRT31 : invSboxByte (sboxByte 31) = 31 := by
  rw [sboxV31]
  simp only [invSboxByte]
  rw [show rotl8 192 1 ^^^ rotl8 192 3 ^^^ rotl8 192 6 ^^^ 5 = 178 from by decide!]
  exact gf.invByte178
theorem sboxRT32 : invSboxByte (sboxByte 32) = 32 := by
  rw [sboxV32]
  simp only [invSboxByte]
  rw [show rotl8 183 1 ^^^ rotl8 183 3 ^^^ rotl8 183 6 ^^^ 5 = 58 from by decide!]
  exact gf.invByte58
theorem sboxRT33 : invSboxByte (sboxByte 33) = 33 := by
  rw [sboxV33]
  simp only [invSboxByte]
  rw [show rotl8 253 1 ^^^ rotl8 253 3 ^^^ rotl8 253 6 ^^^ 5 = 110 from by decide!]
  exact gf.invByte110
theorem sboxRT34 : invSboxByte (sboxByte 34) = 34 := by
  rw [sboxV34]
  simp only [invSboxByte]
  rw [show rotl8 147 1 ^^^ rotl8 147 3 ^^^ rotl8 147 6 ^^^ 5 = 90 from by decide!]
  exact gf.invByte90
theorem sboxRT35 : invSboxByte (sboxByte 35) = 35 := by
  rw [sboxV35]
  simp only [invSboxByte]
  rw [show rotl8 38 1 ^^^ rotl8 38 3 ^^^ rotl8 38 6 ^^^ 5 = 241 from by decide!]
  exact gf.invByte241
theorem sboxRT36 : invSboxByte (sboxByte 36) = 36 := by
  rw [sboxV36]
  simp only [invSboxByte]
  rw [show rotl8 54 1 ^^^ rotl8 54 3 ^^^ rotl8 54 6 ^^^ 5 = 85 from by decide!]
  exact gf.invByte85
theorem sboxRT37 : invSboxByte (sboxByte 37) = 37 := by
  rw [sboxV37]
  simp only [invSboxByte]
  rw [show rotl8 63 1 ^^^ rotl8 63 3 ^^^ rotl8 63 6 ^^^ 5 = 77 from by decide!]
  exact gf.invByte77
theorem sboxRT38 : invSboxByte (sboxByte 38) = 38 := by
  rw [sboxV38]
  simp only [invSboxByte]
  rw [show rotl8 247 1 ^^^ rotl8 247 3 ^^^ rotl8 247 6 ^^^ 5 = 168 from by decide!]
  exact gf.invByte168
theorem sboxRT39 : invSboxByte (sboxByte 39) = 39 := by
  rw [sboxV39]
  simp only [invSboxByte]
  rw [show rotl8 204 1 ^^^ rotl8 204 3 ^^^ rotl8 204 6 ^^^ 5 = 201 from by decide!]
  exact gf.invByte201
theorem sboxRT40 : invSboxByte (sboxByte 40) = 40 := by
  rw [sboxV40]
  simp only [invSboxByte]
  rw [show rotl8 52 1 ^^^ rotl8 52 3 ^^^ rotl8 52 6 ^^^ 5 = 193 from by decide!]
  exact gf.invByte193
theorem sboxRT41 : invSboxByte (sboxByte 41) = 41 := by
  rw [sboxV41]
  simp only [invSboxByte]
  rw [show rotl8 165 1 ^^^ rotl8 165 3 ^^^ rotl8 165 6 ^^^ 5 = 10 from by decide!]
  exact gf.invByte10
theorem sboxRT42 : invSboxByte (sboxByte 42) = 42 := by
  rw [sboxV42]
  simp only [invSboxByte]
  rw [show rotl8 229 1 ^^^ rotl8 229 3 ^^^ rotl8 229 6 ^^^ 5 = 152 from by decide!]
  exact gf.invByte152
theorem sboxRT43 : invSboxByte (sboxByte 43) = 43 := by
  rw [sboxV43]
  simp only [invSboxByte]
  rw [show rotl8 241 1 ^^^ rotl8 241 3 ^^^ rotl8 241 6 ^^^ 5 = 21 from by decide!]
  exact gf.invByte21
theorem sboxRT44 : invSboxByte (sboxByte 44) = 44 := by
  rw [sboxV44]
  simp only [invSboxByte]
  rw [show rotl8 113 1 ^^^ rotl8 113 3 ^^^ rotl8 113 6 ^^^ 5 = 48 from by decide!]
  exact gf.invByte48
theorem sboxRT45 : invSboxByte (sboxByte 45) = 45 := by
  rw [sboxV45]
  simp only [invSboxByte]
  rw [show rotl8 216 1 ^^^ rotl8 216 3 ^^^ rotl8 216 6 ^^^ 5 = 68 from by decide!]
  exact gf.invByte68
theorem sboxRT46 : invSboxByte (sboxByte 46) = 46 := by
  rw [sboxV46]
  simp only [invSboxByte]
  rw [show rotl8 49 1 ^^^ rotl8 49 3 ^^^ rotl8 49 6 ^^^ 5 = 162 from by decide!]
  exact gf.invByte162
theorem sboxRT47 : invSboxByte (sboxByte 47) = 47 := by
  rw [sboxV47]
  simp only [invSboxByte]
  rw [show rotl8 21 1 ^^^ rotl8 21 3 ^^^ rotl8 21 6 ^^^ 5 = 194 from by decide!]
  exact gf.invByte194
theorem sboxRT48 : invSboxByte (sboxByte 48) = 48 := by
  rw [sboxV48]
  simp only [invSboxByte]
  rw [show rotl8 4 1 ^^^ rotl8 4 3 ^^^ rotl8 4 6 ^^^ 5 = 44 from by decide!]
  exact gf.invByte44
theorem sboxRT49 : invSboxByte (sboxByte 49) = 49 := by
  rw [sboxV49]
  simp only [invSboxByte]
  rw [show rotl8 199 1 ^^^ rotl8 199 3 ^^^ rotl8 199 6 ^^^ 5 = 69 from by decide!]
  exact gf.invByte69
theorem sboxRT50 : invSboxByte (sboxByte 50) = 50 := by
  rw [sboxV50]
  simp only [invSboxByte]
  rw [show rotl8 35 1 ^^^ rotl8 35 3 ^^^ rotl8 35 6 ^^^ 5 = 146 from by decide!]
  exact gf.invByte146
theorem sboxRT51 : invSboxByte (sboxByte 51) = 51 := by
  rw [sboxV51]
  simp only [invSboxByte]
  rw [show rotl8 195 1 ^^^ rotl8 195 3 ^^^ rotl8 195 6 ^^^ 5 = 108 from by decide!]
  exact gf.invByte108
theorem sboxRT52 : invSboxByte (sboxByte 52) = 52 := by
  rw [sboxV52]
  simp only [invSboxByte]
  rw [show rotl8 24 1 ^^^ rotl8 24 3 ^^^ rotl8 24 6 ^^^ 5 = 243 from by decide!]
  exact gf.invByte243
theorem sboxRT53 : invSboxByte (sboxByte 53) = 53 := by
  rw [sboxV53]
  simp only [invSboxByte]
  rw [show rotl8 150 1 ^^^ rotl8 150 3 ^^^ rotl8 150 6 ^^^ 5 = 57 from by decide!]
  exact gf.invByte57
theorem sboxRT54 : invSboxByte (sboxByte 54) = 54 := by
  rw [sboxV54]
  simp only [invSboxByte]
  rw [show rotl8 5 1 ^^^ rotl8 5 3 ^^^ rotl8 5 6 ^^^ 5 = 102 from by decide!]
  exact gf.invByte102
theorem sboxRT55 : invSboxByte (sboxByte 55) = 55 := by
  rw [sboxV55]
  simp only [invSboxByte]
  rw [show rotl8 154 1 ^^^ rotl8 154 3 ^^^ rotl8 154 6 ^^^ 5 = 66 from by decide!]
  exact gf.invByte66
theorem sboxRT56 : invSboxByte (sboxByte 56) = 56 := by
  rw [sboxV56]
  simp only [invSboxByte]
  rw [show rotl8 7 1 ^^^ rotl8 7 3 ^^^ rotl8 7 6 ^^^ 5 = 242 from by decide!]
  exact gf.invByte242
theorem sboxRT57 : invSboxByte (sboxByte 57) = 57 := by
  rw [sboxV57]
  simp only [invSboxByte]
  rw [show rotl8 18 1 ^^^ rotl8 18 3 ^^^ rotl8 18 6 ^^^ 5 = 53 from by decide!]
  exact gf.invByte53
theorem sboxRT58 : invSboxByte (sboxByte 58) = 58 := by
  rw [sboxV58]
  simp only [invSboxByte]
  rw [show rotl8 128 1 ^^^ rotl8 128 3 ^^^ rotl8 128 6 ^^^ 5 = 32 from by decide!]
  exact gf.invByte32
theorem sboxRT59 : invSboxByte (sboxByte 59) = 59 := by
  rw [sboxV59]
  simp only [invSboxByte]
  rw [show rotl8 226 1 ^^^ rotl8 226 3 ^^^ rotl8 226 6 ^^^ 5 = 111 from by decide!]
  exact gf.invByte111
theorem sboxRT60 : invSboxByte (sboxByte 60) = 60 := by
  rw [sboxV60]
  simp only [invSboxByte]
  rw [show rotl8 235 1 ^^^ rotl8 235 3 ^^^ rotl8 235 6 ^^^ 5 = 119 from by decide!]
  exact gf.invByte119
theorem sboxRT61 : invSboxByte (sboxByte 61) = 61 := by
  rw [sboxV61]
  simp only [invSboxByte]
  rw [show rotl8 39 1 ^^^ rotl8 39 3 ^^^ rotl8 39 6 ^^^ 5 = 187 from by decide!]
  exact gf.invByte187
theorem sboxRT62 : invSboxByte (sboxByte 62) = 62 := by
  rw [sboxV62]
  simp only [invSboxByte]
  rw [show rotl8 178 1 ^^^ rotl8 178 3 ^^^ rotl8 178 6 ^^^ 5 = 89 from by decide!]
  exact gf.invByte89
theorem sboxRT63 : invSboxByte (sboxByte 63) = 63 := by
  rw [sboxV63]
  simp only [invSboxByte]
  rw [show rotl8 117 1 ^^^ rotl8 117 3 ^^^ rotl8 117 6 ^^^ 5 = 25 from by decide!]
  exact gf.invByte25
theorem sboxRT64 : invSboxByte (sboxByte 64) = 64 := by
  rw [sboxV64]
  simp only [invSboxByte]
  rw [show rotl8 9 1 ^^^ rotl8 9 3 ^^^ rotl8 9 6 ^^^ 5 = 29 from by decide!]
  exact gf.invByte29
theorem sboxRT65 : invSboxByte (sboxByte 65) = 65 := by
  rw [sboxV65]
  simp only [invSboxByte]
  rw [show rotl8 131 1 ^^^ rotl8 131 3 ^^^ rotl8 131 6 ^^^ 5 = 254 from by decide!]
  exact gf.invByte254
theorem sboxRT66 : invSboxByte (sboxByte 66) = 66 := by
  rw [sboxV66]
  simp only [invSboxByte]
  rw [show rotl8 44 1 ^^^ rotl8 44 3 ^^^ rotl8 44 6 ^^^ 5 = 55 from by decide!]
  exact gf.invByte55
theorem sboxRT67 : invSboxByte (sboxByte 67) = 67 := by
  rw [sboxV67]
  simp only [invSboxByte]
  rw [show rotl8 26 1 ^^^ rotl8 26 3 ^^^ rotl8 26 6 ^^^ 5 = 103 from by decide!]
  exact gf.invByte103
theorem sboxRT68 : invSboxByte (sboxByte 68) = 68 := by
  rw [sboxV68]
  simp only [invSboxByte]
  rw [show rotl8 27 1 ^^^ rotl8 27 3 ^^^ rotl8 27 6 ^^^ 5 = 45 from by decide!]
  exact gf.invByte45
theorem sboxRT69 : invSboxByte (sboxByte 69) = 69 := by
  rw [sboxV69]
  simp only [invSboxByte]
  rw [show rotl8 110 1 ^^^ rotl8 110 3 ^^^ rotl8 110 6 ^^^ 5 = 49 from by decide!]
  exact gf.invByte49
theorem sboxRT70 : invSboxByte (sboxByte 70) = 70 := by
  rw [sboxV70]
  simp only [invSboxByte]
  rw [show rotl8 90 1 ^^^ rotl8 90 3 ^^^ rotl8 90 6 ^^^ 5 = 245 from by decide!]
  exact gf.invByte245
theorem sboxRT71 : invSboxByte (sboxByte 71) = 71 := by
  rw [sboxV71]
  simp only [invSboxByte]
  rw [show rotl8 160 1 ^^^ rotl8 160 3 ^^^ rotl8 160 6 ^^^ 5 = 105 from by decide!]
  exact gf.invByte105
theorem sboxRT72 : invSboxByte (sboxByte 72) = 72 := by
  rw [sboxV72]
  simp only [invSboxByte]
  rw [show rotl8 82 1 ^^^ rotl8 82 3 ^^^ rotl8 82 6 ^^^ 5 = 167 from by decide!]
  exact gf.invByte167
theorem sboxRT73 : invSboxByte (sboxByte 73) = 73 := by
  rw [sboxV73]
  simp only [invSboxByte]
  rw [show rotl8 59 1 ^^^ rotl8 59 3 ^^^ rotl8 59 6 ^^^ 5 = 100 from by decide!]
  exact gf.invByte100
theorem sboxRT74 : invSboxByte (sboxByte 74) = 74 := by
  rw [sboxV74]
  simp only [invSboxByte]
  rw [show rotl8 214 1 ^^^ rotl8 214 3 ^^^ rotl8 214 6 ^^^ 5 = 171 from by decide!]
  exact gf.invByte171
theorem sboxRT75 : invSboxByte (sboxByte 75) = 75 := by
  rw [sboxV75]
  simp only [invSboxByte]
  rw [show rotl8 179 1 ^^^ rotl8 179 3 ^^^ rotl8 179 6 ^^^ 5 = 19 from by decide!]
  exact gf.invByte19
theorem sboxRT76 : invSboxByte (sboxByte 76) = 76 := by
  rw [sboxV76]
  simp only [invSboxByte]
  rw [show rotl8 41 1 ^^^ rotl8 41 3 ^^^ rotl8 41 6 ^^^ 5 = 84 from by decide!]
  exact gf.invByte84
theorem sboxRT77 : invSboxByte (sboxByte 77) = 77 := by
  rw [sboxV77]
  simp only [invSboxByte]
  rw [show rotl8 227 1 ^^^ rotl8 227 3 ^^^ rotl8 227 6 ^^^ 5 = 37 from by decide!]
  exact gf.invByte37
theorem sboxRT78 : invSboxByte (sboxByte 78) = 78 := by
  rw [sboxV78]
  simp only [invSboxByte]
  rw [show rotl8 47 1 ^^^ rotl8 47 3 ^^^ rotl8 47 6 ^^^ 5 = 233 from by decide!]
  exact gf.invByte233
theorem sboxRT79 : invSboxByte (sboxByte 79) = 79 := by
  rw [sboxV79]
  simp only [invSboxByte]
  rw [show rotl8 132 1 ^^^ rotl8 132 3 ^^^ rotl8 132 6 ^^^ 5 = 9 from by decide!]
  exact gf.invByte9
theorem sboxRT80 : invSboxByte (sboxByte 80) = 80 := by
  rw [sboxV80]
  simp only [invSboxByte]
  rw [show rotl8 83 1 ^^^ rotl8 83 3 ^^^ rotl8 83 6 ^^^ 5 = 237 from by decide!]
  exact gf.invByte237
theorem sboxRT81 : invSboxByte (sboxByte 81) = 81 := by
  rw [sboxV81]
  simp only [invSboxByte]
  rw [show rotl8 209 1 ^^^ rotl8 209 3 ^^^ rotl8 209 6 ^^^ 5 = 92 from by decide!]
  exact gf.invByte92
theorem sboxRT82 : invSboxByte (sboxByte 82) = 82 := by
  rw [sboxV82]
  simp only [invSboxByte]
  rw [show rotl8 0 1 ^^^ rotl8 0 3 ^^^ rotl8 0 6 ^^^ 5 = 5 from by decide!]
  exact gf.invByte5
theorem sboxRT83 : invSboxByte (sboxByte 83) = 83 := by
  rw [sboxV83]
  simp only [invSboxByte]
  rw [show rotl8 237 1 ^^^ rotl8 237 3 ^^^ rotl8 237 6 ^^^ 5 = 202 from by decide!]
  exact gf.invByte202
theorem sboxRT84 : invSboxByte (sboxByte 84) = 84 := by
  rw [sboxV84]
  simp only [invSboxByte]
  rw [show rotl8 32 1 ^^^ rotl8 32 3 ^^^ rotl8 32 6 ^^^ 5 = 76 from by decide!]
  exact gf.invByte76
theorem sboxRT85 : invSboxByte (sboxByte 85) = 85 := by
  rw [sboxV85]
  simp only [invSboxByte]
  rw [show rotl8 252 1 ^^^ rotl8 252 3 ^^^ rotl8 252 6 ^^^ 5 = 36 from by decide!]
  exact gf.invByte36
theorem sboxRT86 : invSboxByte (sboxByte 86) = 86 := by
  rw [sboxV86]
  simp only [invSboxByte]
  rw [show rotl8 177 1 ^^^ rotl8 177 3 ^^^ rotl8 177 6 ^^^ 5 = 135 from by decide!]
  exact gf.invByte135
theorem sboxRT87 : invSboxByte (sboxByte 87) = 87 := by
  rw [sboxV87]
  simp only [invSboxByte]
  rw [show rotl8 91 1 ^^^ rotl8 91 3 ^^^ rotl8 91 6 ^^^ 5 = 191 from by decide!]
  exact gf.invByte191
theorem sboxRT88 : invSboxByte (sboxByte 88) = 88 := by
  rw [sboxV88]
  simp only [invSboxByte]
  rw [show rotl8 106 1 ^^^ rotl8 106 3 ^^^ rotl8 106 6 ^^^ 5 = 24 from by decide!]
  exact gf.invByte24
theorem sboxRT89 : invSboxByte (sboxByte 89) = 89 := by
  rw [sboxV89]
  simp only [invSboxByte]
  rw [show rotl8 203 1 ^^^ rotl8 203 3 ^^^ rotl8 203 6 ^^^ 5 = 62 from by decide!]
  exact gf.invByte62
theorem sboxRT90 : invSboxByte (sboxByte 90) = 90 := by
  rw [sboxV90]
  simp only [invSboxByte]
  rw [show rotl8 190 1 ^^^ rotl8 190 3 ^^^ rotl8 190 6 ^^^ 5 = 34 from by decide!]
  exact gf.invByte34
theorem sboxRT91 : invSboxByte (sboxByte 91) = 91 := by
  rw [sboxV91]
  simp only [invSboxByte]
  rw [show rotl8 57 1 ^^^ rotl8 57 3 ^^^ rotl8 57 6 ^^^ 5 = 240 from by decide!]
  exact gf.invByte240
theorem sboxRT92 : invSboxByte (sboxByte 92) = 92 := by
  rw [sboxV92]
  simp only [invSboxByte]
  rw [show rotl8 74 1 ^^^ rotl8 74 3 ^^^ rotl8 74 6 ^^^ 5 = 81 from by decide!]
  exact gf.invByte81
theorem sboxRT93 : invSboxByte (sboxByte 93) = 93 := by
  rw [sboxV93]
  simp only [invSboxByte]
  rw [show rotl8 76 1 ^^^ rotl8 76 3 ^^^ rotl8 76 6 ^^^ 5 = 236 from by decide!]
  exact gf.invByte236
theorem sboxRT94 : invSboxByte (sboxByte 94) = 94 := by
  rw [sboxV94]
  simp only [invSboxByte]
  rw [show rotl8 88 1 ^^^ rotl8 88 3 ^^^ rotl8 88 6 ^^^ 5 = 97 from by decide!]
  exact gf.invByte97
theorem sboxRT95 : invSboxByte (sboxByte 95) = 95 := by
  rw [sboxV95]
  simp only [invSboxByte]
  rw [show rotl8 207 1 ^^^ rotl8 207 3 ^^^ rotl8 207 6 ^^^ 5 = 23 from by decide!]
  exact gf.invByte23
theorem sboxRT96 : invSboxByte (sboxByte 96) = 96 := by
  rw [sboxV96]
  simp only [invSboxByte]
  rw [show rotl8 208 1 ^^^ rotl8 208 3 ^^^ rotl8 208 6 ^^^ 5 = 22 from by decide!]
  exact gf.invByte22
theorem sboxRT97 : invSboxByte (sboxByte 97) = 97 := by
  rw [sboxV97]
  simp only [invSboxByte]
  rw [show rotl8 239 1 ^^^ rotl8 239 3 ^^^ rotl8 239 6 ^^^ 5 = 94 from by decide!]
  exact gf.invByte94
theorem sboxRT98 : invSboxByte (sboxByte 98) = 98 := by
  rw [sboxV98]
  simp only [invSboxByte]
  rw [show rotl8 170 1 ^^^ rotl8 170 3 ^^^ rotl8 170 6 ^^^ 5 = 175 from by decide!]
  exact gf.invByte175
theorem sboxRT99 : invSboxByte (sboxByte 99) = 99 := by
  rw [sboxV99]
  simp only [invSboxByte]
  rw [show rotl8 251 1 ^^^ rotl8 251 3 ^^^ rotl8 251 6 ^^^ 5 = 211 from by decide!]
  exact gf.invByte211
theorem sboxRT100 : invSboxByte (sboxByte 100) = 100 := by
  rw [sboxV100]
  simp only [invSboxByte]
  rw [show rotl8 67 1 ^^^ rotl8 67 3 ^^^ rotl8 67 6 ^^^ 5 = 73 from by decide!]
  exact gf.invByte73
theorem sboxRT101 : invSboxByte (sboxByte 101) = 101 := by
  rw [sboxV101]
  simp only [invSboxByte]
  rw [show rotl8 77 1 ^^^ rotl8 77 3 ^^^ rotl8 77 6 ^^^ 5 = 166 from by decide!]
  exact gf.invByte166
theorem sboxRT102 : invSboxByte (sboxByte 102) = 102 := by
  rw [sboxV102]
  simp only [invSboxByte]
  rw [show rotl8 51 1 ^^^ rotl8 51 3 ^^^ rotl8 51 6 ^^^ 5 = 54 from by decide!]
  exact gf.invByte54
theorem sboxRT103 : invSboxByte (sboxByte 103) = 103 := by
  rw [sboxV103]
  simp only [invSboxByte]
  rw [show rotl8 133 1 ^^^ rotl8 133 3 ^^^ rotl8 133 6 ^^^ 5 = 67 from by decide!]
  exact gf.invByte67
theorem sboxRT104 : invSboxByte (sboxByte 104) = 104 := by
  rw [sboxV104]
  simp only [invSboxByte]
  rw [show rotl8 69 1 ^^^ rotl8 69 3 ^^^ rotl8 69 6 ^^^ 5 = 244 from by decide!]
  exact gf.invByte244
theorem sboxRT105 : invSboxByte (sboxByte 105) = 105 := by
  rw [sboxV105]
  simp only [invSboxByte]
  rw [show rotl8 249 1 ^^^ rotl8 249 3 ^^^ rotl8 249 6 ^^^ 5 = 71 from by decide!]
  exact gf.invByte71
theorem sboxRT106 : invSboxByte (sboxByte 106) = 106 := by
  rw [sboxV106]
  simp only [invSboxByte]
  rw [show rotl8 2 1 ^^^ rotl8 2 3 ^^^ rotl8 2 6 ^^^ 5 = 145 from by decide!]
  exact gf.invByte145
theorem sboxRT107 : invSboxByte (sboxByte 107) = 107 := by
  rw [sboxV107]
  simp only [invSboxByte]
  rw [show rotl8 127 1 ^^^ rotl8 127 3 ^^^ rotl8 127 6 ^^^ 5 = 223 from by decide!]
  exact gf.invByte223
theorem sboxRT108 : invSboxByte (sboxByte 108) = 108 := by
  rw [sboxV108]
  simp only [invSboxByte]
  rw [show rotl8 80 1 ^^^ rotl8 80 3 ^^^ rotl8 80 6 ^^^ 5 = 51 from by decide!]
  exact gf.invByte51
theorem sboxRT109 : invSboxByte (sboxByte 109) = 109 := by
  rw [sboxV109]
  simp only [invSboxByte]
  rw [show rotl8 60 1 ^^^ rotl8 60 3 ^^^ rotl8 60 6 ^^^ 5 = 147 from by decide!]
  exact gf.invByte147
theorem sboxRT110 : invSboxByte (sboxByte 110) = 110 := by
  rw [sboxV110]
  simp only [invSboxByte]
  rw [show rotl8 159 1 ^^^ rotl8 159 3 ^^^ rotl8 159 6 ^^^ 5 = 33 from by decide!]
  exact gf.invByte33
theorem sboxRT111 : invSboxByte (sboxByte 111) = 111 := by
  rw [sboxV111]
  simp only [invSboxByte]
  rw [show rotl8 168 1 ^^^ rotl8 168 3 ^^^ rotl8 168 6 ^^^ 5 = 59 from by decide!]
  exact gf.invByte59
theorem sboxRT112 : invSboxByte (sboxByte 112) = 112 := by
  rw [sboxV112]
  simp only [invSboxByte]
  rw [show rotl8 81 1 ^^^ rotl8 81 3 ^^^ rotl8 81 6 ^^^ 5 = 121 from by decide!]
  exact gf.invByte121
theorem sboxRT113 : invSboxByte (sboxByte 113) = 113 := by
  rw [sboxV113]
  simp only [invSboxByte]
  rw [show rotl8 163 1 ^^^ rotl8 163 3 ^^^ rotl8 163 6 ^^^ 5 = 183 from by decide!]
  exact gf.invByte183
theorem sboxRT114 : invSboxByte (sboxByte 114) = 114 := by
  rw [sboxV114]
  simp only [invSboxByte]
  rw [show rotl8 64 1 ^^^ rotl8 64 3 ^^^ rotl8 64 6 ^^^ 5 = 151 from by decide!]
  exact gf.invByte151
theorem sboxRT115 : invSboxByte (sboxByte 115) = 115 := by
  rw [sboxV115]
  simp only [invSboxByte]
  rw [show rotl8 143 1 ^^^ rotl8 143 3 ^^^ rotl8 143 6 ^^^ 5 = 133 from by decide!]
  exact gf.invByte133
theorem sboxRT116 : invSboxByte (sboxByte 116) = 116 := by
  rw [sboxV116]
  simp only [invSboxByte]
  rw [show rotl8 146 1 ^^^ rotl8 146 3 ^^^ rotl8 146 6 ^^^ 5 = 16 from by decide!]
  exact gf.invByte16
theorem sboxRT117 : invSboxByte (sboxByte 117) = 117 := by
  rw [sboxV117]
  simp only [invSboxByte]
  rw [show rotl8 157 1 ^^^ rotl8 157 3 ^^^ rotl8 157 6 ^^^ 5 = 181 from by decide!]
  exact gf.invByte181
theorem sboxRT118 : invSboxByte (sboxByte 118) = 118 := by
  rw [sboxV118]
  simp only [invSboxByte]
  rw [show rotl8 56 1 ^^^ rotl8 56 3 ^^^ rotl8 56 6 ^^^ 5 = 186 from by decide!]
  exact gf.invByte186
theorem sboxRT119 : invSboxByte (sboxByte 119) = 119 := by
  rw [sboxV119]
  simp only [invSboxByte]
  rw [show rotl8 245 1 ^^^ rotl8 245 3 ^^^ rotl8 245 6 ^^^ 5 = 60 from by decide!]
  exact gf.invByte60
theorem sboxRT120 : invSboxByte (sboxByte 120) = 120 := by
  rw [sboxV120]
  simp only [invSboxByte]
  rw [show rotl8 188 1 ^^^ rotl8 188 3 ^^^ rotl8 188 6 ^^^ 5 = 182 from by decide!]
  exact gf.invByte182
theorem sboxRT121 : invSboxByte (sboxByte 121) = 121 := by
  rw [sboxV121]
  simp only [invSboxByte]
  rw [show rotl8 182 1 ^^^ rotl8 182 3 ^^^ rotl8 182 6 ^^^ 5 = 112 from by decide!]
  exact gf.invByte112
theorem sboxRT122 : invSboxByte (sboxByte 122) = 122 := by
  rw [sboxV122]
  simp only [invSboxByte]
  rw [show rotl8 218 1 ^^^ rotl8 218 3 ^^^ rotl8 218 6 ^^^ 5 = 208 from by decide!]
  exact gf.invByte208
theorem sboxRT123 : invSboxByte (sboxByte 123) = 123 := by
  rw [sboxV123]
  simp only [invSboxByte]
  rw [show rotl8 33 1 ^^^ rotl8 33 3 ^^^ rotl8 33 6 ^^^ 5 = 6 from by decide!]
  exact gf.invByte6
theorem sboxRT124 : invSboxByte (sboxByte 124) = 124 := by
  rw [sboxV124]
  simp only [invSboxByte]
  rw [show rotl8 16 1 ^^^ rotl8 16 3 ^^^ rotl8 16 6 ^^^ 5 = 161 from by decide!]
  exact gf.invByte161
theorem sboxRT125 : invSboxByte (sboxByte 125) = 125 := by
  rw [sboxV125]
  simp only [invSboxByte]
  rw [show rotl8 255 1 ^^^ rotl8 255 3 ^^^ rotl8 255 6 ^^^ 5 = 250 from by decide!]
  exact gf.invByte250
theorem sboxRT126 : invSboxByte (sboxByte 126) = 126 := by
  rw [sboxV126]
  simp only [invSboxByte]
  rw [show rotl8 243 1 ^^^ rotl8 243 3 ^^^ rotl8 243 6 ^^^ 5 = 129 from by decide!]
  exact gf.invByte129
theorem sboxRT127 : invSboxByte (sboxByte 127) = 127 := by
  rw [sboxV127]
  simp only [invSboxByte]
  rw [show rotl8 210 1 ^^^ rotl8 210 3 ^^^ rotl8 210 6 ^^^ 5 = 130 from by decide!]
  exact gf.invByte130
theorem sboxRT128 : invSboxByte (sboxByte 128) = 128 := by
  rw [sboxV128]
  simp only [invSboxByte]
  rw [show rotl8 205 1 ^^^ rotl8 205 3 ^^^ rotl8 205 6 ^^^ 5 = 131 from by decide!]
  exact gf.invByte131
theorem sboxRT129 : invSboxByte (sboxByte 129) = 129 := by
  rw [sboxV129]
  simp only [invSboxByte]
  rw [show rotl8 12 1 ^^^ rotl8 12 3 ^^^ rotl8 12 6 ^^^ 5 = 126 from by decide!]
  exact gf.invByte126
theorem sboxRT130 : invSboxByte (sboxByte 130) = 130 := by
  rw [sboxV130]
  simp only [invSboxByte]
  rw [show rotl8 19 1 ^^^ rotl8 19 3 ^^^ rotl8 19 6 ^^^ 5 = 127 from by decide!]
  exact gf.invByte127
theorem sboxRT131 : invSboxByte (sboxByte 131) = 131 := by
  rw [sboxV131]
  simp only [invSboxByte]
  rw [show rotl8 236 1 ^^^ rotl8 236 3 ^^^ rotl8 236 6 ^^^ 5 = 128 from by decide!]
  exact gf.invByte128
theorem sboxRT132 : invSboxByte (sboxByte 132) = 132 := by
  rw [sboxV132]
  simp only [invSboxByte]
  rw [show rotl8 95 1 ^^^ rotl8 95 3 ^^^ rotl8 95 6 ^^^ 5 = 150 from by decide!]
  exact gf.invByte150
theorem sboxRT133 : invSboxByte (sboxByte 133) = 133 := by
  rw [sboxV133]
  simp only [invSboxByte]
  rw [show rotl8 151 1 ^^^ rotl8 151 3 ^^^ rotl8 151 6 ^^^ 5 = 115 from by decide!]
  exact gf.invByte115
theorem sboxRT134 : invSboxByte (sboxByte 134) = 134 := by
  rw [sboxV134]
  simp only [invSboxByte]
  rw [show rotl8 68 1 ^^^ rotl8 68 3 ^^^ rotl8 68 6 ^^^ 5 = 190 from by decide!]
  exact gf.invByte190
theorem sboxRT135 : invSboxByte (sboxByte 135) = 135 := by
  rw [sboxV135]
  simp only [invSboxByte]
  rw [show rotl8 23 1 ^^^ rotl8 23 3 ^^^ rotl8 23 6 ^^^ 5 = 86 from by decide!]
  exact gf.invByte86
theorem sboxRT136 : invSboxByte (sboxByte 136) = 136 := by
  rw [sboxV136]
  simp only [invSboxByte]
  rw [show rotl8 196 1 ^^^ rotl8 196 3 ^^^ rotl8 196 6 ^^^ 5 = 155 from by decide!]
  exact gf.invByte155
theorem sboxRT137 : invSboxByte (sboxByte 137) = 137 := by
  rw [sboxV137]
  simp only [invSboxByte]
  rw [show rotl8 167 1 ^^^ rotl8 167 3 ^^^ rotl8 167 6 ^^^ 5 = 158 from by decide!]
  exact gf.invByte158
theorem sboxRT138 : invSboxByte (sboxByte 138) = 138 := by
  rw [sboxV138]
  simp only [invSboxByte]
  rw [show rotl8 126 1 ^^^ rotl8 126 3 ^^^ rotl8 126 6 ^^^ 5 = 149 from by decide!]
  exact gf.invByte149
theorem sboxRT139 : invSboxByte (sboxByte 139) = 139 := by
  rw [sboxV139]
  simp only [invSboxByte]
  rw [show rotl8 61 1 ^^^ rotl8 61 3 ^^^ rotl8 61 6 ^^^ 5 = 217 from by decide!]
  exact gf.invByte217
theorem sboxRT140 : invSboxByte (sboxByte 140) = 140 := by
  rw [sboxV140]
  simp only [invSboxByte]
  rw [show rotl8 100 1 ^^^ rotl8 100 3 ^^^ rotl8 100 6 ^^^ 5 = 247 from by decide!]
  exact gf.invByte247
theorem sboxRT141 : invSboxByte (sboxByte 141) = 141 := by
  rw [sboxV141]
  simp only [invSboxByte]
  rw [show rotl8 93 1 ^^^ rotl8 93 3 ^^^ rotl8 93 6 ^^^ 5 = 2 from by decide!]
  exact gf.invByte2
theorem sboxRT142 : invSboxByte (sboxByte 142) = 142 := by
  rw [sboxV142]
  simp only [invSboxByte]
  rw [show rotl8 25 1 ^^^ rotl8 25 3 ^^^ rotl8 25 6 ^^^ 5 = 185 from by decide!]
  exact gf.invByte185
theorem sboxRT143 : invSboxByte (sboxByte 143) = 143 := by
  rw [sboxV143]
  simp only [invSboxByte]
  rw [show rotl8 115 1 ^^^ rotl8 115 3 ^^^ rotl8 115 6 ^^^ 5 = 164 from by decide!]
  exact gf.invByte164
theorem sboxRT144 : invSboxByte (sboxByte 144) = 144 := by
  rw [sboxV144]
  simp only [invSboxByte]
  rw [show rotl8 96 1 ^^^ rotl8 96 3 ^^^ rotl8 96 6 ^^^ 5 = 222 from by decide!]
  exact gf.invByte222
theorem sboxRT145 : invSboxByte (sboxByte 145) = 145 := by
  rw [sboxV145]
  simp only [invSboxByte]
  rw [show rotl8 129 1 ^^^ rotl8 129 3 ^^^ rotl8 129 6 ^^^ 5 = 106 from by decide!]
  exact gf.invByte106
theorem sboxRT146 : invSboxByte (sboxByte 146) = 146 := by
  rw [sboxV146]
  simp only [invSboxByte]
  rw [show rotl8 79 1 ^^^ rotl8 79 3 ^^^ rotl8 79 6 ^^^ 5 = 50 from by decide!]
  exact gf.invByte50
theorem sboxRT147 : invSboxByte (sboxByte 147) = 147 := by
  rw [sboxV147]
  simp only [invSboxByte]
  rw [show rotl8 220 1 ^^^ rotl8 220 3 ^^^ rotl8 220 6 ^^^ 5 = 109 from by decide!]
  exact gf.invByte109
theorem sboxRT148 : invSboxByte (sboxByte 148) = 148 := by
  rw [sboxV148]
  simp only [invSboxByte]
  rw [show rotl8 34 1 ^^^ rotl8 34 3 ^^^ rotl8 34 6 ^^^ 5 = 216 from by decide!]
  exact gf.invByte216
theorem sboxRT149 : invSboxByte (sboxByte 149) = 149 := by
  rw [sboxV149]
  simp only [invSboxByte]
  rw [show rotl8 42 1 ^^^ rotl8 42 3 ^^^ rotl8 42 6 ^^^ 5 = 138 from by decide!]
  exact gf.invByte138
theorem sboxRT150 : invSboxByte (sboxByte 150) = 150 := by
  rw [sboxV150]
  simp only [invSboxByte]
  rw [show rotl8 144 1 ^^^ rotl8 144 3 ^^^ rotl8 144 6 ^^^ 5 = 132 from by decide!]
  exact gf.invByte132
theorem sboxRT151 : invSboxByte (sboxByte 151) = 151 := by
  rw [sboxV151]
  simp only [invSboxByte]
  rw [show rotl8 136 1 ^^^ rotl8 136 3 ^^^ rotl8 136 6 ^^^ 5 = 114 from by decide!]
  exact gf.invByte114
theorem sboxRT152 : invSboxByte (sboxByte 152) = 152 := by
  rw [sboxV152]
  simp only [invSboxByte]
  rw [show rotl8 70 1 ^^^ rotl8 70 3 ^^^ rotl8 70 6 ^^^ 5 = 42 from by decide!]
  exact gf.invByte42
theorem sboxRT153 : invSboxByte (sboxByte 153) = 153 := by
  rw [sboxV153]
  simp only [invSboxByte]
  rw [show rotl8 238 1 ^^^ rotl8 238 3 ^^^ rotl8 238 6 ^^^ 5 = 20 from by decide!]
  exact gf.invByte20
theorem sboxRT154 : invSboxByte (sboxByte 154) = 154 := by
  rw [sboxV154]
  simp only [invSboxByte]
  rw [show rotl8 184 1 ^^^ rotl8 184 3 ^^^ rotl8 184 6 ^^^ 5 = 159 from by decide!]
  exact gf.invByte159
theorem sboxRT155 : invSboxByte (sboxByte 155) = 155 := by
  rw [sboxV155]
  simp only [invSboxByte]
  rw [show rotl8 20 1 ^^^ rotl8 20 3 ^^^ rotl8 20 6 ^^^ 5 = 136 from by decide!]
  exact gf.invByte136
theorem sboxRT156 : invSboxByte (sboxByte 156) = 156 := by
  rw [sboxV156]
  simp only [invSboxByte]
  rw [show rotl8 222 1 ^^^ rotl8 222 3 ^^^ rotl8 222 6 ^^^ 5 = 249 from by decide!]
  exact gf.invByte249
theorem sboxRT157 : invSboxByte (sboxByte 157) = 157 := by
  rw [sboxV157]
  simp only [invSboxByte]
  rw [show rotl8 94 1 ^^^ rotl8 94 3 ^^^ rotl8 94 6 ^^^ 5 = 220 from by decide!]
  exact gf.invByte220
theorem sboxRT158 : invSboxByte (sboxByte 158) = 158 := by
  rw [sboxV158]
  simp only [invSboxByte]
  rw [show rotl8 11 1 ^^^ rotl8 11 3 ^^^ rotl8 11 6 ^^^ 5 = 137 from by decide!]
  exact gf.invByte137
theorem sboxRT159 : invSboxByte (sboxByte 159) = 159 := by
  rw [sboxV159]
  simp only [invSboxByte]
  rw [show rotl8 219 1 ^^^ rotl8 219 3 ^^^ rotl8 219 6 ^^^ 5 = 154 from by decide!]
  exact gf.invByte154
theorem sboxRT160 : invSboxByte (sboxByte 160) = 160 := by
  rw [sboxV160]
  simp only [invSboxByte]
  rw [show rotl8 224 1 ^^^ rotl8 224 3 ^^^ rotl8 224 6 ^^^ 5 = 251 from by decide!]
  exact gf.invByte251
theorem sboxRT161 : invSboxByte (sboxByte 161) = 161 := by
  rw [sboxV161]
  simp only [invSboxByte]
  rw [show rotl8 50 1 ^^^ rotl8 50 3 ^^^ rotl8 50 6 ^^^ 5 = 124 from by decide!]
  exact gf.invByte124
theorem sboxRT162 : invSboxByte (sboxByte 162) = 162 := by
  rw [sboxV162]
  simp only [invSboxByte]
  rw [show rotl8 58 1 ^^^ rotl8 58 3 ^^^ rotl8 58 6 ^^^ 5 = 46 from by decide!]
  exact gf.invByte46
theorem sboxRT163 : invSboxByte (sboxByte 163) = 163 := by
  rw [sboxV163]
  simp only [invSboxByte]
  rw [show rotl8 10 1 ^^^ rotl8 10 3 ^^^ rotl8 10 6 ^^^ 5 = 195 from by decide!]
  exact gf.invByte195
theorem sboxRT164 : invSboxByte (sboxByte 164) = 164 := by
  rw [sboxV164]
  simp only [invSboxByte]
  rw [show rotl8 73 1 ^^^ rotl8 73 3 ^^^ rotl8 73 6 ^^^ 5 = 143 from by decide!]
  exact gf.invByte143
theorem sboxRT165 : invSboxByte (sboxByte 165) = 165 := by
  rw [sboxV165]
  simp only [invSboxByte]
  rw [show rotl8 6 1 ^^^ rotl8 6 3 ^^^ rotl8 6 6 ^^^ 5 = 184 from by decide!]
  exact gf.invByte184
theorem sboxRT166 : invSboxByte (sboxByte 166) = 166 := by
  rw [sboxV166]
  simp only [invSboxByte]
  rw [show rotl8 36 1 ^^^ rotl8 36 3 ^^^ rotl8 36 6 ^^^ 5 = 101 from by decide!]
  exact gf.invByte101
theorem sboxRT167 : invSboxByte (sboxByte 167) = 167 := by
  rw [sboxV167]
  simp only [invSboxByte]
  rw [show rotl8 92 1 ^^^ rotl8 92 3 ^^^ rotl8 92 6 ^^^ 5 = 72 from by decide!]
  exact gf.invByte72
theorem sboxRT168 : invSboxByte (sboxByte 168) = 168 := by
  rw [sboxV168]
  simp only [invSboxByte]
  rw [show rotl8 194 1 ^^^ rotl8 194 3 ^^^ rotl8 194 6 ^^^ 5 = 38 from by decide!]
  exact gf.invByte38
theorem sboxRT169 : invSboxByte (sboxByte 169) = 169 := by
  rw [sboxV169]
  simp only [invSboxByte]
  rw [show rotl8 211 1 ^^^ rotl8 211 3 ^^^ rotl8 211 6 ^^^ 5 = 200 from by decide!]
  exact gf.invByte200
theorem sboxRT170 : invSboxByte (sboxByte 170) = 170 := by
  rw [sboxV170]
  simp only [invSboxByte]
  rw [show rotl8 172 1 ^^^ rotl8 172 3 ^^^ rotl8 172 6 ^^^ 5 = 18 from by decide!]
  exact gf.invByte18
theorem sboxRT171 : invSboxByte (sboxByte 171) = 171 := by
  rw [sboxV171]
  simp only [invSboxByte]
  rw [show rotl8 98 1 ^^^ rotl8 98 3 ^^^ rotl8 98 6 ^^^ 5 = 74 from by decide!]
  exact gf.invByte74
theorem sboxRT172 : invSboxByte (sboxByte 172) = 172 := by
  rw [sboxV172]
  simp only [invSboxByte]
  rw [show rotl8 145 1 ^^^ rotl8 145 3 ^^^ rotl8 145 6 ^^^ 5 = 206 from by decide!]
  exact gf.invByte206
theorem sboxRT173 : invSboxByte (sboxByte 173) = 173 := by
  rw [sboxV173]
  simp only [invSboxByte]
  rw [show rotl8 149 1 ^^^ rotl8 149 3 ^^^ rotl8 149 6 ^^^ 5 = 231 from by decide!]
  exact gf.invByte231
theorem sboxRT174 : invSboxByte (sboxByte 174) = 174 := by
  rw [sboxV174]
  simp only [invSboxByte]
  rw [show rotl8 228 1 ^^^ rotl8 228 3 ^^^ rotl8 228 6 ^^^ 5 = 210 from by decide!]
  exact gf.invByte210
theorem sboxRT175 : invSboxByte (sboxByte 175) = 175 := by
  rw [sboxV175]
  simp only [invSboxByte]
  rw [show rotl8 121 1 ^^^ rotl8 121 3 ^^^ rotl8 121 6 ^^^ 5 = 98 from by decide!]
  exact gf.invByte98
theorem sboxRT176 : invSboxByte (sboxByte 176) = 176 := by
  rw [sboxV176]
  simp only [invSboxByte]
  rw [show rotl8 231 1 ^^^ rotl8 231 3 ^^^ rotl8 231 6 ^^^ 5 = 12 from by decide!]
  exact gf.invByte12
theorem sboxRT177 : invSboxByte (sboxByte 177) = 177 := by
  rw [sboxV177]
  simp only [invSboxByte]
  rw [show rotl8 200 1 ^^^ rotl8 200 3 ^^^ rotl8 200 6 ^^^ 5 = 224 from by decide!]
  exact gf.invByte224
theorem sboxRT178 : invSboxByte (sboxByte 178) = 178 := by
  rw [sboxV178]
  simp only [invSboxByte]
  rw [show rotl8 55 1 ^^^ rotl8 55 3 ^^^ rotl8 55 6 ^^^ 5 = 31 from by decide!]
  exact gf.invByte31
theorem sboxRT179 : invSboxByte (sboxByte 179) = 179 := by
  rw [sboxV179]
  simp only [invSboxByte]
  rw [show rotl8 109 1 ^^^ rotl8 109 3 ^^^ rotl8 109 6 ^^^ 5 = 239 from by decide!]
  exact gf.invByte239
theorem sboxRT180 : invSboxByte (sboxByte 180) = 180 := by
  rw [sboxV180]
  simp only [invSboxByte]
  rw [show rotl8 141 1 ^^^ rotl8 141 3 ^^^ rotl8 141 6 ^^^ 5 = 17 from by decide!]
  exact gf.invByte17
theorem sboxRT181 : invSboxByte (sboxByte 181) = 181 := by
  rw [sboxV181]
  simp only [invSboxByte]
  rw [show rotl8 213 1 ^^^ rotl8 213 3 ^^^ rotl8 213 6 ^^^ 5 = 117 from by decide!]
  exact gf.invByte117
theorem sboxRT182 : invSboxByte (sboxByte 182) = 182 := by
  rw [sboxV182]
  simp only [invSboxByte]
  rw [show rotl8 78 1 ^^^ rotl8 78 3 ^^^ rotl8 78 6 ^^^ 5 = 120 from by decide!]
  exact gf.invByte120
theorem sboxRT183 : invSboxByte (sboxByte 183) = 183 := by
  rw [sboxV183]
  simp only [invSboxByte]
  rw [show rotl8 169 1 ^^^ rotl8 169 3 ^^^ rotl8 169 6 ^^^ 5 = 113 from by decide!]
  exact gf.invByte113
theorem sboxRT184 : invSboxByte (sboxByte 184) = 184 := by
  rw [sboxV184]
  simp only [invSboxByte]
  rw [show rotl8 108 1 ^^^ rotl8 108 3 ^^^ rotl8 108 6 ^^^ 5 = 165 from by decide!]
  exact gf.invByte165
theorem sboxRT185 : invSboxByte (sboxByte 185) = 185 := by
  rw [sboxV185]
  simp only [invSboxByte]
  rw [show rotl8 86 1 ^^^ rotl8 86 3 ^^^ rotl8 86 6 ^^^ 5 = 142 from by decide!]
  exact gf.invByte142
theorem sboxRT186 : invSboxByte (sboxByte 186) = 186 := by
  rw [sboxV186]
  simp only [invSboxByte]
  rw [show rotl8 244 1 ^^^ rotl8 244 3 ^^^ rotl8 244 6 ^^^ 5 = 118 from by decide!]
  exact gf.invByte118
theorem sboxRT187 : invSboxByte (sboxByte 187) = 187 := by
  rw [sboxV187]
  simp only [invSboxByte]
  rw [show rotl8 234 1 ^^^ rotl8 234 3 ^^^ rotl8 234 6 ^^^ 5 = 61 from by decide!]
  exact gf.invByte61
theorem sboxRT188 : invSboxByte (sboxByte 188) = 188 := by
  rw [sboxV188]
  simp only [invSboxByte]
  rw [show rotl8 101 1 ^^^ rotl8 101 3 ^^^ rotl8 101 6 ^^^ 5 = 189 from by decide!]
  exact gf.invByte189
theorem sboxRT189 : invSboxByte (sboxByte 189) = 189 := by
  rw [sboxV189]
  simp only [invSboxByte]
  rw [show rotl8 122 1 ^^^ rotl8 122 3 ^^^ rotl8 122 6 ^^^ 5 = 188 from by decide!]
  exact gf.invByte188
theorem sboxRT190 : invSboxByte (sboxByte 190) = 190 := by
  rw [sboxV190]
  simp only [invSboxByte]
  rw [show rotl8 174 1 ^^^ rotl8 174 3 ^^^ rotl8 174 6 ^^^ 5 = 134 from by decide!]
  exact gf.invByte134
theorem sboxRT191 : invSboxByte (sboxByte 191) = 191 := by
  rw [sboxV191]
  simp only [invSboxByte]
  rw [show rotl8 8 1 ^^^ rotl8 8 3 ^^^ rotl8 8 6 ^^^ 5 = 87 from by decide!]
  exact gf.invByte87
theorem sboxRT192 : invSboxByte (sboxByte 192) = 192 := by
  rw [sboxV192]
  simp only [invSboxByte]
  rw [show rotl8 186 1 ^^^ rotl8 186 3 ^^^ rotl8 186 6 ^^^ 5 = 11 from by decide!]
  exact gf.invByte11
theorem sboxRT193 : invSboxByte (sboxByte 193) = 193 := by
  rw [sboxV193]
  simp only [invSboxByte]
  rw [show rotl8 120 1 ^^^ rotl8 120 3 ^^^ rotl8 120 6 ^^^ 5 = 40 from by decide!]
  exact gf.invByte40
theorem sboxRT194 : invSboxByte (sboxByte 194) = 194 := by
  rw [sboxV194]
  simp only [invSboxByte]
  rw [show rotl8 37 1 ^^^ rotl8 37 3 ^^^ rotl8 37 6 ^^^ 5 = 47 from by decide!]
  exact gf.invByte47
theorem sboxRT195 : invSboxByte (sboxByte 195) = 195 := by
  rw [sboxV195]
  simp only [invSboxByte]
  rw [show rotl8 46 1 ^^^ rotl8 46 3 ^^^ rotl8 46 6 ^^^ 5 = 163 from by decide!]
  exact gf.invByte163
theorem sboxRT196 : invSboxByte (sboxByte 196) = 196 := by
  rw [sboxV196]
  simp only [invSboxByte]
  rw [show rotl8 28 1 ^^^ rotl8 28 3 ^^^ rotl8 28 6 ^^^ 5 = 218 from by decide!]
  exact gf.invByte218
theorem sboxRT197 : invSboxByte (sboxByte 197) = 197 := by
  rw [sboxV197]
  simp only [invSboxByte]
  rw [show rotl8 166 1 ^^^ rotl8 166 3 ^^^ rotl8 166 6 ^^^ 5 = 212 from by decide!]
  exact gf.invByte212
theorem sboxRT198 : invSboxByte (sboxByte 198) = 198 := by
  rw [sboxV198]
  simp only [invSboxByte]
  rw [show rotl8 180 1 ^^^ rotl8 180 3 ^^^ rotl8 180 6 ^^^ 5 = 228 from by decide!]
  exact gf.invByte228
theorem sboxRT199 : invSboxByte (sboxByte 199) = 199 := by
  rw [sboxV199]
  simp only [invSboxByte]
  rw [show rotl8 198 1 ^^^ rotl8 198 3 ^^^ rotl8 198 6 ^^^ 5 = 15 from by decide!]
  exact gf.invByte15
theorem sboxRT200 : invSboxByte (sboxByte 200) = 200 := by
  rw [sboxV200]
  simp only [invSboxByte]
  rw [show rotl8 232 1 ^^^ rotl8 232 3 ^^^ rotl8 232 6 ^^^ 5 = 169 from by decide!]
  exact gf.invByte169
theorem sboxRT201 : invSboxByte (sboxByte 201) = 201 := by
  rw [sboxV201]
  simp only [invSboxByte]
  rw [show rotl8 221 1 ^^^ rotl8 221 3 ^^^ rotl8 221 6 ^^^ 5 = 39 from by decide!]
  exact gf.invByte39
theorem sboxRT202 : invSboxByte (sboxByte 202) = 202 := by
  rw [sboxV202]
  simp only [invSboxByte]
  rw [show rotl8 116 1 ^^^ rotl8 116 3 ^^^ rotl8 116 6 ^^^ 5 = 83 from by decide!]
  exact gf.invByte83
theorem sboxRT203 : invSboxByte (sboxByte 203) = 203 := by
  rw [sboxV203]
  simp only [invSboxByte]
  rw [show rotl8 31 1 ^^^ rotl8 31 3 ^^^ rotl8 31 6 ^^^ 5 = 4 from by decide!]
  exact gf.invByte4
theorem sboxRT204 : invSboxByte (sboxByte 204) = 204 := by
  rw [sboxV204]
  simp only [invSboxByte]
  rw [show rotl8 75 1 ^^^ rotl8 75 3 ^^^ rotl8 75 6 ^^^ 5 = 27 from by decide!]
  exact gf.invByte27
theorem sboxRT205 : invSboxByte (sboxByte 205) = 205 := by
  rw [sboxV205]
  simp only [invSboxByte]
  rw [show rotl8 189 1 ^^^ rotl8 189 3 ^^^ rotl8 189 6 ^^^ 5 = 252 from by decide!]
  exact gf.invByte252
theorem sboxRT206 : invSboxByte (sboxByte 206) = 206 := by
  rw [sboxV206]
  simp only [invSboxByte]
  rw [show rotl8 139 1 ^^^ rotl8 139 3 ^^^ rotl8 139 6 ^^^ 5 = 172 from by decide!]
  exact gf.invByte172
theorem sboxRT207 : invSboxByte (sboxByte 207) = 207 := by
  rw [sboxV207]
  simp only [invSboxByte]
  rw [show rotl8 138 1 ^^^ rotl8 138 3 ^^^ rotl8 138 6 ^^^ 5 = 230 from by decide!]
  exact gf.invByte230
theorem sboxRT208 : invSboxByte (sboxByte 208) = 208 := by
  rw [sboxV208]
  simp only [invSboxByte]
  rw [show rotl8 112 1 ^^^ rotl8 112 3 ^^^ rotl8 112 6 ^^^ 5 = 122 from by decide!]
  exact gf.invByte122
theorem sboxRT209 : invSboxByte (sboxByte 209) = 209 := by
  rw [sboxV209]
  simp only [invSboxByte]
  rw [show rotl8 62 1 ^^^ rotl8 62 3 ^^^ rotl8 62 6 ^^^ 5 = 7 from by decide!]
  exact gf.invByte7
theorem sboxRT210 : invSboxByte (sboxByte 210) = 210 := by
  rw [sboxV210]
  simp only [invSboxByte]
  rw [show rotl8 181 1 ^^^ rotl8 181 3 ^^^ rotl8 181 6 ^^^ 5 = 174 from by decide!]
  exact gf.invByte174
theorem sboxRT211 : invSboxByte (sboxByte 211) = 211 := by
  rw [sboxV211]
  simp only [invSboxByte]
  rw [show rotl8 102 1 ^^^ rotl8 102 3 ^^^ rotl8 102 6 ^^^ 5 = 99 from by decide!]
  exact gf.invByte99
theorem sboxRT212 : invSboxByte (sboxByte 212) = 212 := by
  rw [sboxV212]
  simp only [invSboxByte]
  rw [show rotl8 72 1 ^^^ rotl8 72 3 ^^^ rotl8 72 6 ^^^ 5 = 197 from by decide!]
  exact gf.invByte197
theorem sboxRT213 : invSboxByte (sboxByte 213) = 213 := by
  rw [sboxV213]
  simp only [invSboxByte]
  rw [show rotl8 3 1 ^^^ rotl8 3 3 ^^^ rotl8 3 6 ^^^ 5 = 219 from by decide!]
  exact gf.invByte219
theorem sboxRT214 : invSboxByte (sboxByte 214) = 214 := by
  rw [sboxV214]
  simp only [invSboxByte]
  rw [show rotl8 246 1 ^^^ rotl8 246 3 ^^^ rotl8 246 6 ^^^ 5 = 226 from by decide!]
  exact gf.invByte226
theorem sboxRT215 : invSboxByte (sboxByte 215) = 215 := by
  rw [sboxV215]
  simp only [invSboxByte]
  rw [show rotl8 14 1 ^^^ rotl8 14 3 ^^^ rotl8 14 6 ^^^ 5 = 234 from by decide!]
  exact gf.invByte234
theorem sboxRT216 : invSboxByte (sboxByte 216) = 216 := by
  rw [sboxV216]
  simp only [invSboxByte]
  rw [show rotl8 97 1 ^^^ rotl8 97 3 ^^^ rotl8 97 6 ^^^ 5 = 148 from by decide!]
  exact gf.invByte148
theorem sboxRT217 : invSboxByte (sboxByte 217) = 217 := by
  rw [sboxV217]
  simp only [invSboxByte]
  rw [show rotl8 53 1 ^^^ rotl8 53 3 ^^^ rotl8 53 6 ^^^ 5 = 139 from by decide!]
  exact gf.invByte139
theorem sboxRT218 : invSboxByte (sboxByte 218) = 218 := by
  rw [sboxV218]
  simp only [invSboxByte]
  rw [show rotl8 87 1 ^^^ rotl8 87 3 ^^^ rotl8 87 6 ^^^ 5 = 196 from by decide!]
  exact gf.invByte196
theorem sboxRT219 : invSboxByte (sboxByte 219) = 219 := by
  rw [sboxV219]
  simp only [invSboxByte]
  rw [show rotl8 185 1 ^^^ rotl8 185 3 ^^^ rotl8 185 6 ^^^ 5 = 213 from by decide!]
  exact gf.invByte213
theorem sboxRT220 : invSboxByte (sboxByte 220) = 220 := by
  rw [sboxV220]
  simp only [invSboxByte]
  rw [show rotl8 134 1 ^^^ rotl8 134 3 ^^^ rotl8 134 6 ^^^ 5 = 157 from by decide!]
  exact gf.invByte157
theorem sboxRT221 : invSboxByte (sboxByte 221) = 221 := by
  rw [sboxV221]
  simp only [invSboxByte]
  rw [show rotl8 193 1 ^^^ rotl8 193 3 ^^^ rotl8 193 6 ^^^ 5 = 248 from by decide!]
  exact gf.invByte248
theorem sboxRT222 : invSboxByte (sboxByte 222) = 222 := by
  rw [sboxV222]
  simp only [invSboxByte]
  rw [show rotl8 29 1 ^^^ rotl8 29 3 ^^^ rotl8 29 6 ^^^ 5 = 144 from by decide!]
  exact gf.invByte144
theorem sboxRT223 : invSboxByte (sboxByte 223) = 223 := by
  rw [sboxV223]
  simp only [invSboxByte]
  rw [show rotl8 158 1 ^^^ rotl8 158 3 ^^^ rotl8 158 6 ^^^ 5 = 107 from by decide!]
  exact gf.invByte107
theorem sboxRT224 : invSboxByte (sboxByte 224) = 224 := by
  rw [sboxV224]
  simp only [invSboxByte]
  rw [show rotl8 225 1 ^^^ rotl8 225 3 ^^^ rotl8 225 6 ^^^ 5 = 177 from by decide!]
  exact gf.invByte177
theorem sboxRT225 : invSboxByte (sboxByte 225) = 225 := by
  rw [sboxV225]
  simp only [invSboxByte]
  rw [show rotl8 248 1 ^^^ rotl8 248 3 ^^^ rotl8 248 6 ^^^ 5 = 13 from by decide!]
  exact gf.invByte13
theorem sboxRT226 : invSboxByte (sboxByte 226) = 226 := by
  rw [sboxV226]
  simp only [invSboxByte]
  rw [show rotl8 152 1 ^^^ rotl8 152 3 ^^^ rotl8 152 6 ^^^ 5 = 214 from by decide!]
  exact gf.invByte214
theorem sboxRT227 : invSboxByte (sboxByte 227) = 227 := by
  rw [sboxV227]
  simp only [invSboxByte]
  rw [show rotl8 17 1 ^^^ rotl8 17 3 ^^^ rotl8 17 6 ^^^ 5 = 235 from by decide!]
  exact gf.invByte235
theorem sboxRT228 : invSboxByte (sboxByte 228) = 228 := by
  rw [sboxV228]
  simp only [invSboxByte]
  rw [show rotl8 105 1 ^^^ rotl8 105 3 ^^^ rotl8 105 6 ^^^ 5 = 198 from by decide!]
  exact gf.invByte198
theorem sboxRT229 : invSboxByte (sboxByte 229) = 229 := by
  rw [sboxV229]
  simp only [invSboxByte]
  rw [show rotl8 217 1 ^^^ rotl8 217 3 ^^^ rotl8 217 6 ^^^ 5 = 14 from by decide!]
  exact gf.invByte14
theorem sboxRT230 : invSboxByte (sboxByte 230) = 230 := by
  rw [sboxV230]
  simp only [invSboxByte]
  rw [show rotl8 142 1 ^^^ rotl8 142 3 ^^^ rotl8 142 6 ^^^ 5 = 207 from by decide!]
  exact gf.invByte207
theorem sboxRT231 : invSboxByte (sboxByte 231) = 231 := by
  rw [sboxV231]
  simp only [invSboxByte]
  rw [show rotl8 148 1 ^^^ rotl8 148 3 ^^^ rotl8 148 6 ^^^ 5 = 173 from by decide!]
  exact gf.invByte173
theorem sboxRT232 : invSboxByte (sboxByte 232) = 232 := by
  rw [sboxV232]
  simp only [invSboxByte]
  rw [show rotl8 155 1 ^^^ rotl8 155 3 ^^^ rotl8 155 6 ^^^ 5 = 8 from by decide!]
  exact gf.invByte8
theorem sboxRT233 : invSboxByte (sboxByte 233) = 233 := by
  rw [sboxV233]
  simp only [invSboxByte]
  rw [show rotl8 30 1 ^^^ rotl8 30 3 ^^^ rotl8 30 6 ^^^ 5 = 78 from by decide!]
  exact gf.invByte78
theorem sboxRT234 : invSboxByte (sboxByte 234) = 234 := by
  rw [sboxV234]
  simp only [invSboxByte]
  rw [show rotl8 135 1 ^^^ rotl8 135 3 ^^^ rotl8 135 6 ^^^ 5 = 215 from by decide!]
  exact gf.invByte215
theorem sboxRT235 : invSboxByte (sboxByte 235) = 235 := by
  rw [sboxV235]
  simp only [invSboxByte]
  rw [show rotl8 233 1 ^^^ rotl8 233 3 ^^^ rotl8 233 6 ^^^ 5 = 227 from by decide!]
  exact gf.invByte227
theorem sboxRT236 : invSboxByte (sboxByte 236) = 236 := by
  rw [sboxV236]
  simp only [invSboxByte]
  rw [show rotl8 206 1 ^^^ rotl8 206 3 ^^^ rotl8 206 6 ^^^ 5 = 93 from by decide!]
  exact gf.invByte93
theorem sboxRT237 : invSboxByte (sboxByte 237) = 237 := by
  rw [sboxV237]
  simp only [invSboxByte]
  rw [show rotl8 85 1 ^^^ rotl8 85 3 ^^^ rotl8 85 6 ^^^ 5 = 80 from by decide!]
  exact gf.invByte80
theorem sboxRT238 : invSboxByte (sboxByte 238) = 238 := by
  rw [sboxV238]
  simp only [invSboxByte]
  rw [show rotl8 40 1 ^^^ rotl8 40 3 ^^^ rotl8 40 6 ^^^ 5 = 30 from by decide!]
  exact gf.invByte30
theorem sboxRT239 : invSboxByte (sboxByte 239) = 239 := by
  rw [sboxV239]
  simp only [invSboxByte]
  rw [show rotl8 223 1 ^^^ rotl8 223 3 ^^^ rotl8 223 6 ^^^ 5 = 179 from by decide!]
  exact gf.invByte179
theorem sboxRT240 : invSboxByte (sboxByte 240) = 240 := by
  rw [sboxV240]
  simp only [invSboxByte]
  rw [show rotl8 140 1 ^^^ rotl8 140 3 ^^^ rotl8 140 6 ^^^ 5 = 91 from by decide!]
  exact gf.invByte91
theorem sboxRT241 : invSboxByte (sboxByte 241) = 241 := by
  rw [sboxV241]
  simp only [invSboxByte]
  rw [show rotl8 161 1 ^^^ rotl8 161 3 ^^^ rotl8 161 6 ^^^ 5 = 35 from by decide!]
  exact gf.invByte35
theorem sboxRT242 : invSboxByte (sboxByte 242) = 242 := by
  rw [sboxV242]
  simp only [invSboxByte]
  rw [show rotl8 137 1 ^^^ rotl8 137 3 ^^^ rotl8 137 6 ^^^ 5 = 56 from by decide!]
  exact gf.invByte56
theorem sboxRT243 : invSboxByte (sboxByte 243) = 243 := by
  rw [sboxV243]
  simp only [invSboxByte]
  rw [show rotl8 13 1 ^^^ rotl8 13 3 ^^^ rotl8 13 6 ^^^ 5 = 52 from by decide!]
  exact gf.invByte52
theorem sboxRT244 : invSboxByte (sboxByte 244) = 244 := by
  rw [sboxV244]
  simp only [invSboxByte]
  rw [show rotl8 191 1 ^^^ rotl8 191 3 ^^^ rotl8 191 6 ^^^ 5 = 104 from by decide!]
  exact gf.invByte104
theorem sboxRT245 : invSboxByte (sboxByte 245) = 245 := by
  rw [sboxV245]
  simp only [invSboxByte]
  rw [show rotl8 230 1 ^^^ rotl8 230 3 ^^^ rotl8 230 6 ^^^ 5 = 70 from by decide!]
  exact gf.invByte70
theorem sboxRT246 : invSboxByte (sboxByte 246) = 246 := by
  rw [sboxV246]
  simp only [invSboxByte]
  rw [show rotl8 66 1 ^^^ rotl8 66 3 ^^^ rotl8 66 6 ^^^ 5 = 3 from by decide!]
  exact gf.invByte3
theorem sboxRT247 : invSboxByte (sboxByte 247) = 247 := by
  rw [sboxV247]
  simp only [invSboxByte]
  rw [show rotl8 104 1 ^^^ rotl8 104 3 ^^^ rotl8 104 6 ^^^ 5 = 140 from by decide!]
  exact gf.invByte140
theorem sboxRT248 : invSboxByte (sboxByte 248) = 248 := by
  rw [sboxV248]
  simp only [invSboxByte]
  rw [show rotl8 65 1 ^^^ rotl8 65 3 ^^^ rotl8 65 6 ^^^ 5 = 221 from by decide!]
  exact gf.invByte221
theorem sboxRT249 : invSboxByte (sboxByte 249) = 249 := by
  rw [sboxV249]
  simp only [invSboxByte]
  rw [show rotl8 153 1 ^^^ rotl8 153 3 ^^^ rotl8 153 6 ^^^ 5 = 156 from by decide!]
  exact gf.invByte156
theorem sboxRT250 : invSboxByte (sboxByte 250) = 250 := by
  rw [sboxV250]
  simp only [invSboxByte]
  rw [show rotl8 45 1 ^^^ rotl8 45 3 ^^^ rotl8 45 6 ^^^ 5 = 125 from by decide!]
  exact gf.invByte125
theorem sboxRT251 : invSboxByte (sboxByte 251) = 251 := by
  rw [sboxV251]
  simp only [invSboxByte]
  rw [show rotl8 15 1 ^^^ rotl8 15 3 ^^^ rotl8 15 6 ^^^ 5 = 160 from by decide!]
  exact gf.invByte160
theorem sboxRT252 : invSboxByte (sboxByte 252) = 252 := by
  rw [sboxV252]
  simp only [invSboxByte]
  rw [show rotl8 176 1 ^^^ rotl8 176 3 ^^^ rotl8 176 6 ^^^ 5 = 205 from by decide!]
  exact gf.invByte205
theorem sboxRT253 : invSboxByte (sboxByte 253) = 253 := by
  rw [sboxV253]
  simp only [invSboxByte]
  rw [show rotl8 84 1 ^^^ rotl8 84 3 ^^^ rotl8 84 6 ^^^ 5 = 26 from by decide!]
  exact gf.invByte26
theorem sboxRT254 : invSboxByte (sboxByte 254) = 254 := by
  rw [sboxV254]
  simp only [invSboxByte]
  rw [show rotl8 187 1 ^^^ rotl8 187 3 ^^^ rotl8 187 6 ^^^ 5 = 65 from by decide!]
  exact gf.invByte65
theorem sboxRT255 : invSboxByte (sboxByte 255) = 255 := by
  rw [sboxV255]
  simp only [invSboxByte]
  rw [show rotl8 22 1 ^^^ rotl8 22 3 ^^^ rotl8 22 6 ^^^ 5 = 28 from by decide!]
  exact gf.invByte28

set_option maxRecDepth 100000 in
set_option maxHeartbeats 2000000 in
theorem sbox_roundTrip {b : Nat} (hb : b < 256) : invSboxByte (sboxByte b) = b := by
  rcases Nat.lt_or_ge b 128 with h1 | h1
  ·
    rcases Nat.lt_or_ge b 64 with h2 | h2
    ·
      rcases Nat.lt_or_ge b 32 with h3 | h3
      ·
        rcases Nat.lt_or_ge b 16 with h4 | h4
        ·
          rcases Nat.lt_or_ge b 8 with h5 | h5
          ·
            rcases Nat.lt_or_ge b 4 with h6 | h6
            ·
              rcases Nat.lt_or_ge b 2 with h7 | h7
              ·
                rcases Nat.lt_or_ge b 1 with h8 | h8
                ·
                  have e : b = 0 := by omega
                  rw [e]
                  exact sboxRT0
                ·
                  have e : b = 1 := by omega
                  rw [e]
                  exact sboxRT1
              ·
                rcases Nat.lt_or_ge b 3 with h8 | h8
                ·
                  have e : b = 2 := by omega
                  rw [e]
                  exact sboxRT2
                ·
                  have e : b = 3 := by omega
                  rw [e]
                  exact sboxRT3
            ·
              rcases Nat.lt_or_ge b 6 with h7 | h7
              ·
                rcases Nat.lt_or_ge b 5 with h8 | h8
                ·
                  have e : b = 4 := by omega
                  rw [e]
                  exact sboxRT4
                ·
                  have e : b = 5 := by omega
                  rw [e]
                  exact sboxRT5
              ·
                rcases Nat.lt_or_ge b 7 with h8 | h8
                ·
                  have e : b = 6 := by omega
                  rw [e]
                  exact sboxRT6
                ·
                  have e : b = 7 := by omega
                  rw [e]
                  exact sboxRT7
          ·
            rcases Nat.lt_or_ge b 12 with h6 | h6
            ·
              rcases Nat.lt_or_ge b 10 with h7 | h7
              ·
                rcases Nat.lt_or_ge b 9 with h8 | h8
                ·
                  have e : b = 8 := by omega
                  rw [e]
                  exact sboxRT8
                ·
                  have e : b = 9 := by omega
                  rw [e]
                  exact sboxRT9
              ·
                rcases Nat.lt_or_ge b 11 with h8 | h8
                ·
                  have e : b = 10 := by omega
                  rw [e]
                  exact sboxRT10
                ·
                  have e : b = 11 := by omega
                  rw [e]
                  exact sboxRT11
            ·
              rcases Nat.lt_or_ge b 14 with h7 | h7
              ·
                rcases Nat.lt_or_ge b 13 with h8 | h8
                ·
                  have e : b = 12 := by omega
                  rw [e]
                  exact sboxRT12
                ·
                  have e : b = 13 := by omega
                  rw [e]
                  exact sboxRT13
              ·
                rcases Nat.lt_or_ge b 15 with h8 | h8
                ·
                  have e : b = 14 := by omega
                  rw [e]
                  exact sboxRT14
                ·
                  have e : b = 15 := by omega
                  rw [e]
                  exact sboxRT15
        ·
          rcases Nat.lt_or_ge b 24 with h5 | h5
          ·
            rcases Nat.lt_or_ge b 20 with h6 | h6
            ·
              rcases Nat.lt_or_ge b 18 with h7 | h7
              ·
                rcases Nat.lt_or_ge b 17 with h8 | h8
                ·
                  have e : b = 16 := by omega
                  rw [e]
                  exact sboxRT16
                ·
                  have e : b = 17 := by omega
                  rw [e]
                  exact sboxRT17
              ·
                rcases Nat.lt_or_ge b 19 with h8 | h8
                ·
                  have e : b = 18 := by omega
                  rw [e]
                  exact sboxRT18
                ·
                  have e : b = 19 := by omega
                  rw [e]
                  exact sboxRT19
            ·
              rcases Nat.lt_or_ge b 22 with h7 | h7
              ·
                rcases Nat.lt_or_ge b 21 with h8 | h8
                ·
                  have e : b = 20 := by omega
                  rw [e]
                  exact sboxRT20
                ·
                  have e : b = 21 := by omega
                  rw [e]
                  exact sboxRT21
              ·
                rcases Nat.lt_or_ge b 23 with h8 | h8
                ·
                  have e : b = 22 := by omega
                  rw [e]
                  exact sboxRT22
                ·
                  have e : b = 23 := by omega
                  rw [e]
                  exact sboxRT23
          ·
            rcases Nat.lt_or_ge b 28 with h6 | h6
            ·
              rcases Nat.lt_or_ge b 26 with h7 | h7
              ·
                rcases Nat.lt_or_ge b 25 with h8 | h8
                ·
                  have e : b = 24 := by omega
                  rw [e]
                  exact sboxRT24
                ·
                  have e : b = 25 := by omega
                  rw [e]
                  exact sboxRT25
              ·
                rcases Nat.lt_or_ge b 27 with h8 | h8
                ·
                  have e : b = 26 := by omega
                  rw [e]
                  exact sboxRT26
                ·
                  have e : b = 27 := by omega
                  rw [e]
                  exact sboxRT27
            ·
              rcases Nat.lt_or_ge b 30 with h7 | h7
              ·
                rcases Nat.lt_or_ge b 29 with h8 | h8
                ·
                  have e : b = 28 := by omega
                  rw [e]
                  exact sboxRT28
                ·
                  have e : b = 29 := by omega
                  rw [e]
                  exact sboxRT29
              ·
                rcases Nat.lt_or_ge b 31 with h8 | h8
                ·
                  have e : b = 30 := by omega
                  rw [e]
                  exact sboxRT30
                ·
                  have e : b = 31 := by omega
                  rw [e]
                  exact sboxRT31
      ·
        rcases Nat.lt_or_ge b 48 with h4 | h4
        ·
          rcases Nat.lt_or_ge b 40 with h5 | h5
          ·
            rcases Nat.lt_or_ge b 36 with h6 | h6
            ·
              rcases Nat.lt_or_ge b 34 with h7 | h7
              ·
                rcases Nat.lt_or_ge b 33 with h8 | h8
                ·
                  have e : b = 32 := by omega
                  rw [e]
                  exact sboxRT32
                ·
                  have e : b = 33 := by omega
                  rw [e]
                  exact sboxRT33
              ·
                rcases Nat.lt_or_ge b 35 with h8 | h8
                ·
                  have e : b = 34 := by omega
                  rw [e]
                  exact sboxRT34
                ·
                  have e : b = 35 := by omega
                  rw [e]
                  exact sboxRT35
            ·
              rcases Nat.lt_or_ge b 38 with h7 | h7
              ·
                rcases Nat.lt_or_ge b 37 with h8 | h8
                ·
                  have e : b = 36 := by omega
                  rw [e]
                  exact sboxRT36
                ·
                  have e : b = 37 := by omega
                  rw [e]
                  exact sboxRT37
              ·
                rcases Nat.lt_or_ge b 39 with h8 | h8
                ·
                  have e : b = 38 := by omega
                  rw [e]
                  exact sboxRT38
                ·
                  have e : b = 39 := by omega
                  rw [e]
                  exact sboxRT39
          ·
            rcases Nat.lt_or_ge b 44 with h6 | h6
            ·
              rcases Nat.lt_or_ge b 42 with h7 | h7
              ·
                rcases Nat.lt_or_ge b 41 with h8 | h8
                ·
                  have e : b = 40 := by omega
                  rw [e]
                  exact sboxRT40
                ·
                  have e : b = 41 := by omega
                  rw [e]
                  exact sboxRT41
              ·
                rcases Nat.lt_or_ge b 43 with h8 | h8
                ·
                  have e : b = 42 := by omega
                  rw [e]
                  exact sboxRT42
                ·
                  have e : b = 43 := by omega
                  rw [e]
                  exact sboxRT43
            ·
              rcases Nat.lt_or_ge b 46 with h7 | h7
              ·
                rcases Nat.lt_or_ge b 45 with h8 | h8
                ·
                  have e : b = 44 := by omega
                  rw [e]
                  exact sboxRT44
                ·
                  have e : b = 45 := by omega
                  rw [e]
                  exact sboxRT45
              ·
                rcases Nat.lt_or_ge b 47 with h8 | h8
                ·
                  have e : b = 46 := by omega
                  rw [e]
                  exact sboxRT46
                ·
                  have e : b = 47 := by omega
                  rw [e]
                  exact sboxRT47
        ·
          rcases Nat.lt_or_ge b 56 with h5 | h5
          ·
            rcases Nat.lt_or_ge b 52 with h6 | h6
            ·
              rcases Nat.lt_or_ge b 50 with h7 | h7
              ·
                rcases Nat.lt_or_ge b 49 with h8 | h8
                ·
                  have e : b = 48 := by omega
                  rw [e]
                  exact sboxRT48
                ·
                  have e : b = 49 := by omega
                  rw [e]
                  exact sboxRT49
              ·
                rcases Nat.lt_or_ge b 51 with h8 | h8
                ·
                  have e : b = 50 := by omega
                  rw [e]
                  exact sboxRT50
                ·
                  have e : b = 51 := by omega
                  rw [e]
                  exact sboxRT51
            ·
              rcases Nat.lt_or_ge b 54 with h7 | h7
              ·
                rcases Nat.lt_or_ge b 53 with h8 | h8
                ·
                  have e : b = 52 := by omega
                  rw [e]
                  exact sboxRT52
                ·
                  have e : b = 53 := by omega
                  rw [e]
                  exact sboxRT53
              ·
                rcases Nat.lt_or_ge b 55 with h8 | h8
                ·
                  have e : b = 54 := by omega
                  rw [e]
                  exact sboxRT54
                ·
                  have e : b = 55 := by omega
                  rw [e]
                  exact sboxRT55
          ·
            rcases Nat.lt_or_ge b 60 with h6 | h6
            ·
              rcases Nat.lt_or_ge b 58 with h7 | h7
              ·
                rcases Nat.lt_or_ge b 57 with h8 | h8
                ·
                  have e : b = 56 := by omega
                  rw [e]
                  exact sboxRT56
                ·
                  have e : b = 57 := by omega
                  rw [e]
                  exact sboxRT57
              ·
                rcases Nat.lt_or_ge b 59 with h8 | h8
                ·
                  have e : b = 58 := by omega
                  rw [e]
                  exact sboxRT58
                ·
                  have e : b = 59 := by omega
                  rw [e]
                  exact sboxRT59
            ·
              rcases Nat.lt_or_ge b 62 with h7 | h7
              ·
                rcases Nat.lt_or_ge b 61 with h8 | h8
                ·
                  have e : b = 60 := by omega
                  rw [e]
                  exact sboxRT60
                ·
                  have e : b = 61 := by omega
                  rw [e]
                  exact sboxRT61
              ·
                rcases Nat.lt_or_ge b 63 with h8 | h8
                ·
                  have e : b = 62 := by omega
                  rw [e]
                  exact sboxRT62
                ·
                  have e : b = 63 := by omega
                  rw [e]
                  exact sboxRT63
    ·
      rcases Nat.lt_or_ge b 96 with h3 | h3
      ·
        rcases Nat.lt_or_ge b 80 with h4 | h4
        ·
          rcases Nat.lt_or_ge b 72 with h5 | h5
          ·
            rcases Nat.lt_or_ge b 68 with h6 | h6
            ·
              rcases Nat.lt_or_ge b 66 with h7 | h7
              ·
                rcases Nat.lt_or_ge b 65 with h8 | h8
                ·
                  have e : b = 64 := by omega
                  rw [e]
                  exact sboxRT64
                ·
                  have e : b = 65 := by omega
                  rw [e]
                  exact sboxRT65
              ·
                rcases Nat.lt_or_ge b 67 with h8 | h8
                ·
                  have e : b = 66 := by omega
                  rw [e]
                  exact sboxRT66
                ·
                  have e : b = 67 := by omega
                  rw [e]
                  exact sboxRT67
            ·
              rcases Nat.lt_or_ge b 70 with h7 | h7
              ·
                rcases Nat.lt_or_ge b 69 with h8 | h8
                ·
                  have e : b = 68 := by omega
                  rw [e]
                  exact sboxRT68
                ·
                  have e : b = 69 := by omega
                  rw [e]
                  exact sboxRT69
              ·
                rcases Nat.lt_or_ge b 71 with h8 | h8
                ·
                  have e : b = 70 := by omega
                  rw [e]
                  exact sboxRT70
                ·
                  have e : b = 71 := by omega
                  rw [e]
                  exact sboxRT71
          ·
            rcases Nat.lt_or_ge b 76 with h6 | h6
            ·
              rcases Nat.lt_or_ge b 74 with h7 | h7
              ·
                rcases Nat.lt_or_ge b 73 with h8 | h8
                ·
                  have e : b = 72 := by omega
                  rw [e]
                  exact sboxRT72
                ·
                  have e : b = 73 := by omega
                  rw [e]
                  exact sboxRT73
              ·
                rcases Nat.lt_or_ge b 75 with h8 | h8
                ·
                  have e : b = 74 := by omega
                  rw [e]
                  exact sboxRT74
                ·
                  have e : b = 75 := by omega
                  rw [e]
                  exact sboxRT75
            ·
              rcases Nat.lt_or_ge b 78 with h7 | h7
              ·
                rcases Nat.lt_or_ge b 77 with h8 | h8
                ·
                  have e : b = 76 := by omega
                  rw [e]
                  exact sboxRT76
                ·
                  have e : b = 77 := by omega
                  rw [e]
                  exact sboxRT77
              ·
                rcases Nat.lt_or_ge b 79 with h8 | h8
                ·
                  have e : b = 78 := by omega
                  rw [e]
                  exact sboxRT78
                ·
                  have e : b = 79 := by omega
                  rw [e]
                  exact sboxRT79
        ·
          rcases Nat.lt_or_ge b 88 with h5 | h5
          ·
            rcases Nat.lt_or_ge b 84 with h6 | h6
            ·
              rcases Nat.lt_or_ge b 82 with h7 | h7
              ·
                rcases Nat.lt_or_ge b 81 with h8 | h8
                ·
                  have e : b = 80 := by omega
                  rw [e]
                  exact sboxRT80
                ·
                  have e : b = 81 := by omega
                  rw [e]
                  exact sboxRT81
              ·
                rcases Nat.lt_or_ge b 83 with h8 | h8
                ·
                  have e : b = 82 := by omega
                  rw [e]
                  exact sboxRT82
                ·
                  have e : b = 83 := by omega
                  rw [e]
                  exact sboxRT83
            ·
              rcases Nat.lt_or_ge b 86 with h7 | h7
              ·
                rcases Nat.lt_or_ge b 85 with h8 | h8
                ·
                  have e : b = 84 := by omega
                  rw [e]
                  exact sboxRT84
                ·
                  have e : b = 85 := by omega
                  rw [e]
                  exact sboxRT85
              ·
                rcases Nat.lt_or_ge b 87 with h8 | h8
                ·
                  have e : b = 86 := by omega
                  rw [e]
                  exact sboxRT86
                ·
                  have e : b = 87 := by omega
                  rw [e]
                  exact sboxRT87
          ·
            rcases Nat.lt_or_ge b 92 with h6 | h6
            ·
              rcases Nat.lt_or_ge b 90 with h7 | h7
              ·
                rcases Nat.lt_or_ge b 89 with h8 | h8
                ·
                  have e : b = 88 := by omega
                  rw [e]
                  exact sboxRT88
                ·
                  have e : b = 89 := by omega
                  rw [e]
                  exact sboxRT89
              ·
                rcases Nat.lt_or_ge b 91 with h8 | h8
                ·
                  have e : b = 90 := by omega
                  rw [e]
                  exact sboxRT90
                ·
                  have e : b = 91 := by omega
                  rw [e]
                  exact sboxRT91
            ·
              rcases Nat.lt_or_ge b 94 with h7 | h7
              ·
                rcases Nat.lt_or_ge b 93 with h8 | h8
                ·
                  have e : b = 92 := by omega
                  rw [e]
                  exact sboxRT92
                ·
                  have e : b = 93 := by omega
                  rw [e]
                  exact sboxRT93
              ·
                rcases Nat.lt_or_ge b 95 with h8 | h8
                ·
                  have e : b = 94 := by omega
                  rw [e]
                  exact sboxRT94
                ·
                  have e : b = 95 := by omega
                  rw [e]
                  exact sboxRT95
      ·
        rcases Nat.lt_or_ge b 112 with h4 | h4
        ·
          rcases Nat.lt_or_ge b 104 with h5 | h5
          ·
            rcases Nat.lt_or_ge b 100 with h6 | h6
            ·
              rcases Nat.lt_or_ge b 98 with h7 | h7
              ·
                rcases Nat.lt_or_ge b 97 with h8 | h8
                ·
                  have e : b = 96 := by omega
                  rw [e]
                  exact sboxRT96
                ·
                  have e : b = 97 := by omega
                  rw [e]
                  exact sboxRT97
              ·
                rcases Nat.lt_or_ge b 99 with h8 | h8
                ·
                  have e : b = 98 := by omega
                  rw [e]
                  exact sboxRT98
                ·
                  have e : b = 99 := by omega
                  rw [e]
                  exact sboxRT99
            ·
              rcases Nat.lt_or_ge b 102 with h7 | h7
              ·
                rcases Nat.lt_or_ge b 101 with h8 | h8
                ·
                  have e : b = 100 := by omega
                  rw [e]
                  exact sboxRT100
                ·
                  have e : b = 101 := by omega
                  rw [e]
                  exact sboxRT101
              ·
                rcases Nat.lt_or_ge b 103 with h8 | h8
                ·
                  have e : b = 102 := by omega
                  rw [e]
                  exact sboxRT102
                ·
                  have e : b = 103 := by omega
                  rw [e]
                  exact sboxRT103
          ·
            rcases Nat.lt_or_ge b 108 with h6 | h6
            ·
              rcases Nat.lt_or_ge b 106 with h7 | h7
              ·
                rcases Nat.lt_or_ge b 105 with h8 | h8
                ·
                  have e : b = 104 := by omega
                  rw [e]
                  exact sboxRT104
                ·
                  have e : b = 105 := by omega
                  rw [e]
                  exact sboxRT105
              ·
                rcases Nat.lt_or_ge b 107 with h8 | h8
                ·
                  have e : b = 106 := by omega
                  rw [e]
                  exact sboxRT106
                ·
                  have e : b = 107 := by omega
                  rw [e]
                  exact sboxRT107
            ·
              rcases Nat.lt_or_ge b 110 with h7 | h7
              ·
                rcases Nat.lt_or_ge b 109 with h8 | h8
                ·
                  have e : b = 108 := by omega
                  rw [e]
                  exact sboxRT108
                ·
                  have e : b = 109 := by omega
                  rw [e]
                  exact sboxRT109
              ·
                rcases Nat.lt_or_ge b 111 with h8 | h8
                ·
                  have e : b = 110 := by omega
                  rw [e]
                  exact sboxRT110
                ·
                  have e : b = 111 := by omega
                  rw [e]
                  exact sboxRT111
        ·
          rcases Nat.lt_or_ge b 120 with h5 | h5
          ·
            rcases Nat.lt_or_ge b 116 with h6 | h6
            ·
              rcases Nat.lt_or_ge b 114 with h7 | h7
              ·
                rcases Nat.lt_or_ge b 113 with h8 | h8
                ·
                  have e : b = 112 := by omega
                  rw [e]
                  exact sboxRT112
                ·
                  have e : b = 113 := by omega
                  rw [e]
                  exact sboxRT113
              ·
                rcases Nat.lt_or_ge b 115 with h8 | h8
                ·
                  have e : b = 114 := by omega
                  rw [e]
                  exact sboxRT114
                ·
                  have e : b = 115 := by omega
                  rw [e]
                  exact sboxRT115
            ·
              rcases Nat.lt_or_ge b 118 with h7 | h7
              ·
                rcases Nat.lt_or_ge b 117 with h8 | h8
                ·
                  have e : b = 116 := by omega
                  rw [e]
                  exact sboxRT116
                ·
                  have e : b = 117 := by omega
                  rw [e]
                  exact sboxRT117
              ·
                rcases Nat.lt_or_ge b 119 with h8 | h8
                ·
                  have e : b = 118 := by omega
                  rw [e]
                  exact sboxRT118
                ·
                  have e : b = 119 := by omega
                  rw [e]
                  exact sboxRT119
          ·
            rcases Nat.lt_or_ge b 124 with h6 | h6
            ·
              rcases Nat.lt_or_ge b 122 with h7 | h7
              ·
                rcases Nat.lt_or_ge b 121 with h8 | h8
                ·
                  have e : b = 120 := by omega
                  rw [e]
                  exact sboxRT120
                ·
                  have e : b = 121 := by omega
                  rw [e]
                  exact sboxRT121
              ·
                rcases Nat.lt_or_ge b 123 with h8 | h8
                ·
                  have e : b = 122 := by omega
                  rw [e]
                  exact sboxRT122
                ·
                  have e : b = 123 := by omega
                  rw [e]
                  exact sboxRT123
            ·
              rcases Nat.lt_or_ge b 126 with h7 | h7
              ·
                rcases Nat.lt_or_ge b 125 with h8 | h8
                ·
                  have e : b = 124 := by omega
                  rw [e]
                  exact sboxRT124
                ·
                  have e : b = 125 := by omega
                  rw [e]
                  exact sboxRT125
              ·
                rcases Nat.lt_or_ge b 127 with h8 | h8
                ·
                  have e : b = 126 := by omega
                  rw [e]
                  exact sboxRT126
                ·
                  have e : b = 127 := by omega
                  rw [e]
                  exact sboxRT127
  ·
    rcases Nat.lt_or_ge b 192 with h2 | h2
    ·
      rcases Nat.lt_or_ge b 160 with h3 | h3
      ·
        rcases Nat.lt_or_ge b 144 with h4 | h4
        ·
          rcases Nat.lt_or_ge b 136 with h5 | h5
          ·
            rcases Nat.lt_or_ge b 132 with h6 | h6
            ·
              rcases Nat.lt_or_ge b 130 with h7 | h7
              ·
                rcases Nat.lt_or_ge b 129 with h8 | h8
                ·
                  have e : b = 128 := by omega
                  rw [e]
                  exact sboxRT128
                ·
                  have e : b = 129 := by omega
                  rw [e]
                  exact sboxRT129
              ·
                rcases Nat.lt_or_ge b 131 with h8 | h8
                ·
                  have e : b = 130 := by omega
                  rw [e]
                  exact sboxRT130
                ·
                  have e : b = 131 := by omega
                  rw [e]
                  exact sboxRT131
            ·
              rcases Nat.lt_or_ge b 134 with h7 | h7
              ·
                rcases Nat.lt_or_ge b 133 with h8 | h8
                ·
                  have e : b = 132 := by omega
                  rw [e]
                  exact sboxRT132
                ·
                  have e : b = 133 := by omega
                  rw [e]
                  exact sboxRT133
              ·
                rcases Nat.lt_or_ge b 135 with h8 | h8
                ·
                  have e : b = 134 := by omega
                  rw [e]
                  exact sboxRT134
                ·
                  have e : b = 135 := by omega
                  rw [e]
                  exact sboxRT135
          ·
            rcases Nat.lt_or_ge b 140 with h6 | h6
            ·
              rcases Nat.lt_or_ge b 138 with h7 | h7
              ·
                rcases Nat.lt_or_ge b 137 with h8 | h8
                ·
                  have e : b = 136 := by omega
                  rw [e]
                  exact sboxRT136
                ·
                  have e : b = 137 := by omega
                  rw [e]
                  exact sboxRT137
              ·
                rcases Nat.lt_or_ge b 139 with h8 | h8
                ·
                  have e : b = 138 := by omega
                  rw [e]
                  exact sboxRT138
                ·
                  have e : b = 139 := by omega
                  rw [e]
                  exact sboxRT139
            ·
              rcases Nat.lt_or_ge b 142 with h7 | h7
              ·
                rcases Nat.lt_or_ge b 141 with h8 | h8
                ·
                  have e : b = 140 := by omega
                  rw [e]
                  exact sboxRT140
                ·
                  have e : b = 141 := by omega
                  rw [e]
                  exact sboxRT141
              ·
                rcases Nat.lt_or_ge b 143 with h8 | h8
                ·
                  have e : b = 142 := by omega
                  rw [e]
                  exact sboxRT142
                ·
                  have e : b = 143 := by omega
                  rw [e]
                  exact sboxRT143
        ·
          rcases Nat.lt_or_ge b 152 with h5 | h5
          ·
            rcases Nat.lt_or_ge b 148 with h6 | h6
            ·
              rcases Nat.lt_or_ge b 146 with h7 | h7
              ·
                rcases Nat.lt_or_ge b 145 with h8 | h8
                ·
                  have e : b = 144 := by omega
                  rw [e]
                  exact sboxRT144
                ·
                  have e : b = 145 := by omega
                  rw [e]
                  exact sboxRT145
              ·
                rcases Nat.lt_or_ge b 147 with h8 | h8
                ·
                  have e : b = 146 := by omega
                  rw [e]
                  exact sboxRT146
                ·
                  have e : b = 147 := by omega
                  rw [e]
                  exact sboxRT147
            ·
              rcases Nat.lt_or_ge b 150 with h7 | h7
              ·
                rcases Nat.lt_or_ge b 149 with h8 | h8
                ·
                  have e : b = 148 := by omega
                  rw [e]
                  exact sboxRT148
                ·
                  have e : b = 149 := by omega
                  rw [e]
                  exact sboxRT149
              ·
                rcases Nat.lt_or_ge b 151 with h8 | h8
                ·
                  have e : b = 150 := by omega
                  rw [e]
                  exact sboxRT150
                ·
                  have e : b = 151 := by omega
                  rw [e]
                  exact sboxRT151
          ·
            rcases Nat.lt_or_ge b 156 with h6 | h6
            ·
              rcases Nat.lt_or_ge b 154 with h7 | h7
              ·
                rcases Nat.lt_or_ge b 153 with h8 | h8
                ·
                  have e : b = 152 := by omega
                  rw [e]
                  exact sboxRT152
                ·
                  have e : b = 153 := by omega
                  rw [e]
                  exact sboxRT153
              ·
                rcases Nat.lt_or_ge b 155 with h8 | h8
                ·
                  have e : b = 154 := by omega
                  rw [e]
                  exact sboxRT154
                ·
                  have e : b = 155 := by omega
                  rw [e]
                  exact sboxRT155
            ·
              rcases Nat.lt_or_ge b 158 with h7 | h7
              ·
                rcases Nat.lt_or_ge b 157 with h8 | h8
                ·
                  have e : b = 156 := by omega
                  rw [e]
                  exact sboxRT156
                ·
                  have e : b = 157 := by omega
                  rw [e]
                  exact sboxRT157
              ·
                rcases Nat.lt_or_ge b 159 with h8 | h8
                ·
                  have e : b = 158 := by omega
                  rw [e]
                  exact sboxRT158
                ·
                  have e : b = 159 := by omega
                  rw [e]
                  exact sboxRT159
      ·
        rcases Nat.lt_or_ge b 176 with h4 | h4
        ·
          rcases Nat.lt_or_ge b 168 with h5 | h5
          ·
            rcases Nat.lt_or_ge b 164 with h6 | h6
            ·
              rcases Nat.lt_or_ge b 162 with h7 | h7
              ·
                rcases Nat.lt_or_ge b 161 with h8 | h8
                ·
                  have e : b = 160 := by omega
                  rw [e]
                  exact sboxRT160
                ·
                  have e : b = 161 := by omega
                  rw [e]
                  exact sboxRT161
              ·
                rcases Nat.lt_or_ge b 163 with h8 | h8
                ·
                  have e : b = 162 := by omega
                  rw [e]
                  exact sboxRT162
                ·
                  have e : b = 163 := by omega
                  rw [e]
                  exact sboxRT163
            ·
              rcases Nat.lt_or_ge b 166 with h7 | h7
              ·
                rcases Nat.lt_or_ge b 165 with h8 | h8
                ·
                  have e : b = 164 := by omega
                  rw [e]
                  exact sboxRT164
                ·
                  have e : b = 165 := by omega
                  rw [e]
                  exact sboxRT165
              ·
                rcases Nat.lt_or_ge b 167 with h8 | h8
                ·
                  have e : b = 166 := by omega
                  rw [e]
                  exact sboxRT166
                ·
                  have e : b = 167 := by omega
                  rw [e]
                  exact sboxRT167
          ·
            rcases Nat.lt_or_ge b 172 with h6 | h6
            ·
              rcases Nat.lt_or_ge b 170 with h7 | h7
              ·
                rcases Nat.lt_or_ge b 169 with h8 | h8
                ·
                  have e : b = 168 := by omega
                  rw [e]
                  exact sboxRT168
                ·
                  have e : b = 169 := by omega
                  rw [e]
                  exact sboxRT169
              ·
                rcases Nat.lt_or_ge b 171 with h8 | h8
                ·
                  have e : b = 170 := by omega
                  rw [e]
                  exact sboxRT170
                ·
                  have e : b = 171 := by omega
                  rw [e]
                  exact sboxRT171
            ·
              rcases Nat.lt_or_ge b 174 with h7 | h7
              ·
                rcases Nat.lt_or_ge b 173 with h8 | h8
                ·
                  have e : b = 172 := by omega
                  rw [e]
                  exact sboxRT172
                ·
                  have e : b = 173 := by omega
                  rw [e]
                  exact sboxRT173
              ·
                rcases Nat.lt_or_ge b 175 with h8 | h8
                ·
                  have e : b = 174 := by omega
                  rw [e]
                  exact sboxRT174
                ·
                  have e : b = 175 := by omega
                  rw [e]
                  exact sboxRT175
        ·
          rcases Nat.lt_or_ge b 184 with h5 | h5
          ·
            rcases Nat.lt_or_ge b 180 with h6 | h6
            ·
              rcases Nat.lt_or_ge b 178 with h7 | h7
              ·
                rcases Nat.lt_or_ge b 177 with h8 | h8
                ·
                  have e : b = 176 := by omega
                  rw [e]
                  exact sboxRT176
                ·
                  have e : b = 177 := by omega
                  rw [e]
                  exact sboxRT177
              ·
                rcases Nat.lt_or_ge b 179 with h8 | h8
                ·
                  have e : b = 178 := by omega
                  rw [e]
                  exact sboxRT178
                ·
                  have e : b = 179 := by omega
                  rw [e]
                  exact sboxRT179
            ·
              rcases Nat.lt_or_ge b 182 with h7 | h7
              ·
                rcases Nat.lt_or_ge b 181 with h8 | h8
                ·
                  have e : b = 180 := by omega
                  rw [e]
                  exact sboxRT180
                ·
                  have e : b = 181 := by omega
                  rw [e]
                  exact sboxRT181
              ·
                rcases Nat.lt_or_ge b 183 with h8 | h8
                ·
                  have e : b = 182 := by omega
                  rw [e]
                  exact sboxRT182
                ·
                  have e : b = 183 := by omega
                  rw [e]
                  exact sboxRT183
          ·
            rcases Nat.lt_or_ge b 188 with h6 | h6
            ·
              rcases Nat.lt_or_ge b 186 with h7 | h7
              ·
                rcases Nat.lt_or_ge b 185 with h8 | h8
                ·
                  have e : b = 184 := by omega
                  rw [e]
                  exact sboxRT184
                ·
                  have e : b = 185 := by omega
                  rw [e]
                  exact sboxRT185
              ·
                rcases Nat.lt_or_ge b 187 with h8 | h8
                ·
                  have e : b = 186 := by omega
                  rw [e]
                  exact sboxRT186
                ·
                  have e : b = 187 := by omega
                  rw [e]
                  exact sboxRT187
            ·
              rcases Nat.lt_or_ge b 190 with h7 | h7
              ·
                rcases Nat.lt_or_ge b 189 with h8 | h8
                ·
                  have e : b = 188 := by omega
                  rw [e]
                  exact sboxRT188
                ·
                  have e : b = 189 := by omega
                  rw [e]
                  exact sboxRT189
              ·
                rcases Nat.lt_or_ge b 191 with h8 | h8
                ·
                  have e : b = 190 := by omega
                  rw [e]
                  exact sboxRT190
                ·
                  have e : b = 191 := by omega
                  rw [e]
                  exact sboxRT191
    ·
      rcases Nat.lt_or_ge b 224 with h3 | h3
      ·
        rcases Nat.lt_or_ge b 208 with h4 | h4
        ·
          rcases Nat.lt_or_ge b 200 with h5 | h5
          ·
            rcases Nat.lt_or_ge b 196 with h6 | h6
            ·
              rcases Nat.lt_or_ge b 194 with h7 | h7
              ·
                rcases Nat.lt_or_ge b 193 with h8 | h8
                ·
                  have e : b = 192 := by omega
                  rw [e]
                  exact sboxRT192
                ·
                  have e : b = 193 := by omega
                  rw [e]
                  exact sboxRT193
              ·
                rcases Nat.lt_or_ge b 195 with h8 | h8
                ·
                  have e : b = 194 := by omega
                  rw [e]
                  exact sboxRT194
                ·
                  have e : b = 195 := by omega
                  rw [e]
                  exact sboxRT195
            ·
              rcases Nat.lt_or_ge b 198 with h7 | h7
              ·
                rcases Nat.lt_or_ge b 197 with h8 | h8
                ·
                  have e : b = 196 := by omega
                  rw [e]
                  exact sboxRT196
                ·
                  have e : b = 197 := by omega
                  rw [e]
                  exact sboxRT197
              ·
                rcases Nat.lt_or_ge b 199 with h8 | h8
                ·
                  have e : b = 198 := by omega
                  rw [e]
                  exact sboxRT198
                ·
                  have e : b = 199 := by omega
                  rw [e]
                  exact sboxRT199
          ·
            rcases Nat.lt_or_ge b 204 with h6 | h6
            ·
              rcases Nat.lt_or_ge b 202 with h7 | h7
              ·
                rcases Nat.lt_or_ge b 201 with h8 | h8
                ·
                  have e : b = 200 := by omega
                  rw [e]
                  exact sboxRT200
                ·
                  have e : b = 201 := by omega
                  rw [e]
                  exact sboxRT201
              ·
                rcases Nat.lt_or_ge b 203 with h8 | h8
                ·
                  have e : b = 202 := by omega
                  rw [e]
                  exact sboxRT202
                ·
                  have e : b = 203 := by omega
                  rw [e]
                  exact sboxRT203
            ·
              rcases Nat.lt_or_ge b 206 with h7 | h7
              ·
                rcases Nat.lt_or_ge b 205 with h8 | h8
                ·
                  have e : b = 204 := by omega
                  rw [e]
                  exact sboxRT204
                ·
                  have e : b = 205 := by omega
                  rw [e]
                  exact sboxRT205
              ·
                rcases Nat.lt_or_ge b 207 with h8 | h8
                ·
                  have e : b = 206 := by omega
                  rw [e]
                  exact sboxRT206
                ·
                  have e : b = 207 := by omega
                  rw [e]
                  exact sboxRT207
        ·
          rcases Nat.lt_or_ge b 216 with h5 | h5
          ·
            rcases Nat.lt_or_ge b 212 with h6 | h6
            ·
              rcases Nat.lt_or_ge b 210 with h7 | h7
              ·
                rcases Nat.lt_or_ge b 209 with h8 | h8
                ·
                  have e : b = 208 := by omega
                  rw [e]
                  exact sboxRT208
                ·
                  have e : b = 209 := by omega
                  rw [e]
                  exact sboxRT209
              ·
                rcases Nat.lt_or_ge b 211 with h8 | h8
                ·
                  have e : b = 210 := by omega
                  rw [e]
                  exact sboxRT210
                ·
                  have e : b = 211 := by omega
                  rw [e]
                  exact sboxRT211
            ·
              rcases Nat.lt_or_ge b 214 with h7 | h7
              ·
                rcases Nat.lt_or_ge b 213 with h8 | h8
                ·
                  have e : b = 212 := by omega
                  rw [e]
                  exact sboxRT212
                ·
                  have e : b = 213 := by omega
                  rw [e]
                  exact sboxRT213
              ·
                rcases Nat.lt_or_ge b 215 with h8 | h8
                ·
                  have e : b = 214 := by omega
                  rw [e]
                  exact sboxRT214
                ·
                  have e : b = 215 := by omega
                  rw [e]
                  exact sboxRT215
          ·
            rcases Nat.lt_or_ge b 220 with h6 | h6
            ·
              rcases Nat.lt_or_ge b 218 with h7 | h7
              ·
                rcases Nat.lt_or_ge b 217 with h8 | h8
                ·
                  have e : b = 216 := by omega
                  rw [e]
                  exact sboxRT216
                ·
                  have e : b = 217 := by omega
                  rw [e]
                  exact sboxRT217
              ·
                rcases Nat.lt_or_ge b 219 with h8 | h8
                ·
                  have e : b = 218 := by omega
                  rw [e]
                  exact sboxRT218
                ·
                  have e : b = 219 := by omega
                  rw [e]
                  exact sboxRT219
            ·
              rcases Nat.lt_or_ge b 222 with h7 | h7
              ·
                rcases Nat.lt_or_ge b 221 with h8 | h8
                ·
                  have e : b = 220 := by omega
                  rw [e]
                  exact sboxRT220
                ·
                  have e : b = 221 := by omega
                  rw [e]
                  exact sboxRT221
              ·
                rcases Nat.lt_or_ge b 223 with h8 | h8
                ·
                  have e : b = 222 := by omega
                  rw [e]
                  exact sboxRT222
                ·
                  have e : b = 223 := by omega
                  rw [e]
                  exact sboxRT223
      ·
        rcases Nat.lt_or_ge b 240 with h4 | h4
        ·
          rcases Nat.lt_or_ge b 232 with h5 | h5
          ·
            rcases Nat.lt_or_ge b 228 with h6 | h6
            ·
              rcases Nat.lt_or_ge b 226 with h7 | h7
              ·
                rcases Nat.lt_or_ge b 225 with h8 | h8
                ·
                  have e : b = 224 := by omega
                  rw [e]
                  exact sboxRT224
                ·
                  have e : b = 225 := by omega
                  rw [e]
                  exact sboxRT225
              ·
                rcases Nat.lt_or_ge b 227 with h8 | h8
                ·
                  have e : b = 226 := by omega
                  rw [e]
                  exact sboxRT226
                ·
                  have e : b = 227 := by omega
                  rw [e]
                  exact sboxRT227
            ·
              rcases Nat.lt_or_ge b 230 with h7 | h7
              ·
                rcases Nat.lt_or_ge b 229 with h8 | h8
                ·
                  have e : b = 228 := by omega
                  rw [e]
                  exact sboxRT228
                ·
                  have e : b = 229 := by omega
                  rw [e]
                  exact sboxRT229
              ·
                rcases Nat.lt_or_ge b 231 with h8 | h8
                ·
                  have e : b = 230 := by omega
                  rw [e]
                  exact sboxRT230
                ·
                  have e : b = 231 := by omega
                  rw [e]
                  exact sboxRT231
          ·
            rcases Nat.lt_or_ge b 236 with h6 | h6
            ·
              rcases Nat.lt_or_ge b 234 with h7 | h7
              ·
                rcases Nat.lt_or_ge b 233 with h8 | h8
                ·
                  have e : b = 232 := by omega
                  rw [e]
                  exact sboxRT232
                ·
                  have e : b = 233 := by omega
                  rw [e]
                  exact sboxRT233
              ·
                rcases Nat.lt_or_ge b 235 with h8 | h8
                ·
                  have e : b = 234 := by omega
                  rw [e]
                  exact sboxRT234
                ·
                  have e : b = 235 := by omega
                  rw [e]
                  exact sboxRT235
            ·
              rcases Nat.lt_or_ge b 238 with h7 | h7
              ·
                rcases Nat.lt_or_ge b 237 with h8 | h8
                ·
                  have e : b = 236 := by omega
                  rw [e]
                  exact sboxRT236
                ·
                  have e : b = 237 := by omega
                  rw [e]
                  exact sboxRT237
              ·
                rcases Nat.lt_or_ge b 239 with h8 | h8
                ·
                  have e : b = 238 := by omega
                  rw [e]
                  exact sboxRT238
                ·
                  have e : b = 239 := by omega
                  rw [e]
                  exact sboxRT239
        ·
          rcases Nat.lt_or_ge b 248 with h5 | h5
          ·
            rcases Nat.lt_or_ge b 244 with h6 | h6
            ·
              rcases Nat.lt_or_ge b 242 with h7 | h7
              ·
                rcases Nat.lt_or_ge b 241 with h8 | h8
                ·
                  have e : b = 240 := by omega
                  rw [e]
                  exact sboxRT240
                ·
                  have e : b = 241 := by omega
                  rw [e]
                  exact sboxRT241
              ·
                rcases Nat.lt_or_ge b 243 with h8 | h8
                ·
                  have e : b = 242 := by omega
                  rw [e]
                  exact sboxRT242
                ·
                  have e : b = 243 := by omega
                  rw [e]
                  exact sboxRT243
            ·
              rcases Nat.lt_or_ge b 246 with h7 | h7
              ·
                rcases Nat.lt_or_ge b 245 with h8 | h8
                ·
                  have e : b = 244 := by omega
                  rw [e]
                  exact sboxRT244
                ·
                  have e : b = 245 := by omega
                  rw [e]
                  exact sboxRT245
              ·
                rcases Nat.lt_or_ge b 247 with h8 | h8
                ·
                  have e : b = 246 := by omega
                  rw [e]
                  exact sboxRT246
                ·
                  have e : b = 247 := by omega
                  rw [e]
                  exact sboxRT247
          ·
            rcases Nat.lt_or_ge b 252 with h6 | h6
            ·
              rcases Nat.lt_or_ge b 250 with h7 | h7
              ·
                rcases Nat.lt_or_ge b 249 with h8 | h8
                ·
                  have e : b = 248 := by omega
                  rw [e]
                  exact sboxRT248
                ·
                  have e : b = 249 := by omega
                  rw [e]
                  exact sboxRT249
              ·
                rcases Nat.lt_or_ge b 251 with h8 | h8
                ·
                  have e : b = 250 := by omega
                  rw [e]
                  exact sboxRT250
                ·
                  have e : b = 251 := by omega
                  rw [e]
                  exact sboxRT251
            ·
              rcases Nat.lt_or_ge b 254 with h7 | h7
              ·
                rcases Nat.lt_or_ge b 253 with h8 | h8
                ·
                  have e : b = 252 := by omega
                  rw [e]
                  exact sboxRT252
                ·
                  have e : b = 253 := by omega
                  rw [e]
                  exact sboxRT253
              ·
                rcases Nat.lt_or_ge b 255 with h8 | h8
                ·
                  have e : b = 254 := by omega
                  rw [e]
                  exact sboxRT254
                ·
                  have e : b = 255 := by omega
                  rw [e]
                  exact sboxRT255

set_option maxRecDepth 100000 in
/-- Brute-force check of one per-byte linear map used to show that InvMixColumns
undoes MixColumns (the identity diagonal map). -/
theorem mixBasis0 :
    ((List.range 256).all fun x => gf.mult 0xe (gf.mult 0x2 x) ^^^ gf.mult 0xb x ^^^ gf.mult 0xd x ^^^ gf.mult 0x9 (gf.mult 0x3 x) == x) = true := by
  decide!

set_option maxRecDepth 100000 in
/-- Brute-force check of one per-byte linear map used to show that InvMixColumns
undoes MixColumns (the first zero off-diagonal map). -/
theorem mixBasis1 :
    ((List.range 256).all fun x => gf.mult 0xe (gf.mult 0x3 x) ^^^ gf.mult 0xb (gf.mult 0x2 x) ^^^ gf.mult 0xd x ^^^ gf.mult 0x9 x == 0) = true := by
  decide!

set_option maxRecDepth 100000 in
/-- Brute-force check of one per-byte linear map used to show that InvMixColumns
undoes MixColumns (the second zero off-diagonal map). -/
theorem mixBasis2 :
    ((List.range 256).all fun x => gf.mult 0xe x ^^^ gf.mult 0xb (gf.mult 0x3 x) ^^^ gf.mult 0xd (gf.mult 0x2 x) ^^^ gf.mult 0x9 x == 0) = true := by
  decide!

set_option maxRecDepth 100000 in
/-- Brute-force check of one per-byte linear map used to show that InvMixColumns
undoes MixColumns (the third zero off-diagonal map). -/
theorem mixBasis3 :
    ((List.range 256).all fun x => gf.mult 0xe x ^^^ gf.mult 0xb x ^^^ gf.mult 0xd (gf.mult 0x3 x) ^^^ gf.mult 0x9 (gf.mult 0x2 x) == 0) = true := by
  decide!

theorem mixI {x : Nat} (hx : x < 256) :
    gf.mult 0xe (gf.mult 0x2 x) ^^^ gf.mult 0xb x ^^^ gf.mult 0xd x ^^^ gf.mult 0x9 (gf.mult 0x3 x) = x := by
  have h := List.all_eq_true.mp mixBasis0 x (List.mem_range.mpr hx)
  simpa using h

theorem mixZ1 {x : Nat} (hx : x < 256) :
    gf.mult 0xe (gf.mult 0x3 x) ^^^ gf.mult 0xb (gf.mult 0x2 x) ^^^ gf.mult 0xd x ^^^ gf.mult 0x9 x = 0 := by
  have h := List.all_eq_true.mp mixBasis1 x (List.mem_range.mpr hx)
  simpa using h

theorem mixZ2 {x : Nat} (hx : x < 256) :
    gf.mult 0xe x ^^^ gf.mult 0xb (gf.mult 0x3 x) ^^^ gf.mult 0xd (gf.mult 0x2 x) ^^^ gf.mult 0x9 x = 0 := by
  have h := List.all_eq_true.mp mixBasis2 x (List.mem_range.mpr hx)
  simpa using h

theorem mixZ3 {x : Nat} (hx : x < 256) :
    gf.mult 0xe x ^^^ gf.mult 0xb x ^^^ gf.mult 0xd (gf.mult 0x3 x) ^^^ gf.mult 0x9 (gf.mult 0x2 x) = 0 := by
  have h := List.all_eq_true.mp mixBasis3 x (List.mem_range.mpr hx)
  simpa using h

end aes

attribute [irreducible] aes.gf.mult

/-! Helper lemmas about blocks and the per-block cipher. -/

namespace aes

theorem getD_lt_256 {l : List Nat} (h : ∀ b ∈ l, b < 256) (i : Nat) : l.getD i 0 < 256 := by
  rcases Nat.lt_or_ge i l.length with hi | hi
  · rw [List.getD_eq_getElem l 0 hi]
    exact h _ (List.getElem_mem hi)
  · rw [List.getD_eq_default l 0 hi]
    norm_num

theorem Block.wf_ofList {l : List Nat} (h : ∀ b ∈ l, b < 256) : (Block.ofList l).wf :=
  ⟨getD_lt_256 h 0, getD_lt_256 h 1, getD_lt_256 h 2, getD_lt_256 h 3,
   getD_lt_256 h 4, getD_lt_256 h 5, getD_lt_256 h 6, getD_lt_256 h 7,
   getD_lt_256 h 8, getD_lt_256 h 9, getD_lt_256 h 10, getD_lt_256 h 11,
   getD_lt_256 h 12, getD_lt_256 h 13, getD_lt_256 h 14, getD_lt_256 h 15⟩

theorem Block.wf_SubBytes (B : Block) : (Block.SubBytes B).wf :=
  ⟨sboxByte_lt _, sboxByte_lt _, sboxByte_lt _, sboxByte_lt _,
   sboxByte_lt _, sboxByte_lt _, sboxByte_lt _, sboxByte_lt _,
   sboxByte_lt _, sboxByte_lt _, sboxByte_lt _, sboxByte_lt _,
   sboxByte_lt _, sboxByte_lt _, sboxByte_lt _, sboxByte_lt _⟩

theorem Block.wf_ShiftRows {B : Block} (h : B.wf) : (Block.ShiftRows B).wf := by
  obtain ⟨h0,h1,h2,h3,h4,h5,h6,h7,h8,h9,h10,h11,h12,h13,h14,h15⟩ := h
  exact ⟨h0,h5,h10,h15,h4,h9,h14,h3,h8,h13,h2,h7,h12,h1,h6,h11⟩

theorem Block.wf_MixColumns {B : Block} (h : B.wf) : (Block.MixColumns B).wf := by
  obtain ⟨h0,h1,h2,h3,h4,h5,h6,h7,h8,h9,h10,h11,h12,h13,h14,h15⟩ := h
  refine ⟨?_,?_,?_,?_,?_,?_,?_,?_,?_,?_,?_,?_,?_,?_,?_,?_⟩ <;>
    (repeat apply xor_lt_256) <;>
    first
      | exact gf.mult_lt _ (by norm_num)
      | assumption

theorem Block.wf_AddRoundKey {B : Block} (h : B.wf) (r : Nat) (w : List Nat) :
    (Block.AddRoundKey r w B).wf := by
  obtain ⟨h0,h1,h2,h3,h4,h5,h6,h7,h8,h9,h10,h11,h12,h13,h14,h15⟩ := h
  refine ⟨?_,?_,?_,?_,?_,?_,?_,?_,?_,?_,?_,?_,?_,?_,?_,?_⟩ <;>
    exact xor_lt_256 (by assumption) (and_255_lt _)

theorem Block.wf_cipherLoop (w : List Nat) :
    ∀ (n x : Nat) {B : Block}, B.wf → (cipherLoop w x n B).wf
  | 0, _, _, h => h
  | n+1, x, _, _ =>
    Block.wf_cipherLoop w n (x+1)
      (Block.wf_AddRoundKey (Block.wf_MixColumns (Block.wf_ShiftRows (Block.wf_SubBytes _))) _ _)

theorem Block.isr_sr (B : Block) : Block.InvShiftRows (Block.ShiftRows B) = B := rfl

theorem Block.ark_ark (r : Nat) (w : List Nat) (B : Block) :
    Block.AddRoundKey r w (Block.AddRoundKey r w B) = B := by
  simp [Block.AddRoundKey, Nat.xor_cancel_right]

theorem Block.isb_sb {B : Block} (h : B.wf) :
    Block.InvSubBytes (Block.SubBytes B) = B := by
  obtain ⟨h0,h1,h2,h3,h4,h5,h6,h7,h8,h9,h10,h11,h12,h13,h14,h15⟩ := h
  simp only [Block.SubBytes, Block.InvSubBytes]
  rw [sbox_roundTrip h0, sbox_roundTrip h1, sbox_roundTrip h2, sbox_roundTrip h3,
      sbox_roundTrip h4, sbox_roundTrip h5, sbox_roundTrip h6, sbox_roundTrip h7,
      sbox_roundTrip h8, sbox_roundTrip h9, sbox_roundTrip h10, sbox_roundTrip h11,
      sbox_roundTrip h12, sbox_roundTrip h13, sbox_roundTrip h14, sbox_roundTrip h15]

theorem mixColInv0 {x0 x1 x2 x3 : Nat}
    (h0 : x0 < 256) (h1 : x1 < 256) (h2 : x2 < 256) (h3 : x3 < 256) :
    gf.mult 0xe (gf.mult 0x2 x0 ^^^ gf.mult 0x3 x1 ^^^ x2 ^^^ x3) ^^^
    gf.mult 0xb (x0 ^^^ gf.mult 0x2 x1 ^^^ gf.mult 0x3 x2 ^^^ x3) ^^^
    gf.mult 0xd (x0 ^^^ x1 ^^^ gf.mult 0x2 x2 ^^^ gf.mult 0x3 x3) ^^^
    gf.mult 0x9 (gf.mult 0x3 x0 ^^^ x1 ^^^ x2 ^^^ gf.mult 0x2 x3) = x0 := by
  calc gf.mult 0xe (gf.mult 0x2 x0 ^^^ gf.mult 0x3 x1 ^^^ x2 ^^^ x3) ^^^
    gf.mult 0xb (x0 ^^^ gf.mult 0x2 x1 ^^^ gf.mult 0x3 x2 ^^^ x3) ^^^
    gf.mult 0xd (x0 ^^^ x1 ^^^ gf.mult 0x2 x2 ^^^ gf.mult 0x3 x3) ^^^
    gf.mult 0x9 (gf.mult 0x3 x0 ^^^ x1 ^^^ x2 ^^^ gf.mult 0x2 x3)
      = (gf.mult 0xe (gf.mult 0x2 x0) ^^^ gf.mult 0xb x0 ^^^ gf.mult 0xd x0 ^^^ gf.mult 0x9 (gf.mult 0x3 x0)) ^^^
        ((gf.mult 0xe (gf.mult 0x3 x1) ^^^ gf.mult 0xb (gf.mult 0x2 x1) ^^^ gf.mult 0xd x1 ^^^ gf.mult 0x9 x1) ^^^
         ((gf.mult 0xe x2 ^^^ gf.mult 0xb (gf.mult 0x3 x2) ^^^ gf.mult 0xd (gf.mult 0x2 x2) ^^^ gf.mult 0x9 x2) ^^^
          (gf.mult 0xe x3 ^^^ gf.mult 0xb x3 ^^^ gf.mult 0xd (gf.mult 0x3 x3) ^^^ gf.mult 0x9 (gf.mult 0x2 x3)))) := by
        simp only [gf.mult_xor]
        ac_rfl
    _ = x0 ^^^ (0 ^^^ (0 ^^^ 0)) := by rw [mixI h0, mixZ1 h1, mixZ2 h2, mixZ3 h3]
    _ = x0 := by simp

theorem mixColInv1 {x0 x1 x2 x3 : Nat}
    (h0 : x0 < 256) (h1 : x1 < 256) (h2 : x2 < 256) (h3 : x3 < 256) :
    gf.mult 0x9 (gf.mult 0x2 x0 ^^^ gf.mult 0x3 x1 ^^^ x2 ^^^ x3) ^^^
    gf.mult 0xe (x0 ^^^ gf.mult 0x2 x1 ^^^ gf.mult 0x3 x2 ^^^ x3) ^^^
    gf.mult 0xb (x0 ^^^ x1 ^^^ gf.mult 0x2 x2 ^^^ gf.mult 0x3 x3) ^^^
    gf.mult 0xd (gf.mult 0x3 x0 ^^^ x1 ^^^ x2 ^^^ gf.mult 0x2 x3) = x1 := by
  calc gf.mult 0x9 (gf.mult 0x2 x0 ^^^ gf.mult 0x3 x1 ^^^ x2 ^^^ x3) ^^^
    gf.mult 0xe (x0 ^^^ gf.mult 0x2 x1 ^^^ gf.mult 0x3 x2 ^^^ x3) ^^^
    gf.mult 0xb (x0 ^^^ x1 ^^^ gf.mult 0x2 x2 ^^^ gf.mult 0x3 x3) ^^^
    gf.mult 0xd (gf.mult 0x3 x0 ^^^ x1 ^^^ x2 ^^^ gf.mult 0x2 x3)
      = (gf.mult 0xe (gf.mult 0x2 x1) ^^^ gf.mult 0xb x1 ^^^ gf.mult 0xd x1 ^^^ gf.mult 0x9 (gf.mult 0x3 x1)) ^^^
        ((gf.mult 0xe x0 ^^^ gf.mult 0xb x0 ^^^ gf.mult 0xd (gf.mult 0x3 x0) ^^^ gf.mult 0x9 (gf.mult 0x2 x0)) ^^^
         ((gf.mult 0xe (gf.mult 0x3 x2) ^^^ gf.mult 0xb (gf.mult 0x2 x2) ^^^ gf.mult 0xd x2 ^^^ gf.mult 0x9 x2) ^^^
          (gf.mult 0xe x3 ^^^ gf.mult 0xb (gf.mult 0x3 x3) ^^^ gf.mult 0xd (gf.mult 0x2 x3) ^^^ gf.mult 0x9 x3))) := by
        simp only [gf.mult_xor]
        ac_rfl
    _ = x1 ^^^ (0 ^^^ (0 ^^^ 0)) := by rw [mixI h1, mixZ3 h0, mixZ1 h2, mixZ2 h3]
    _ = x1 := by simp

theorem mixColInv2 {x0 x1 x2 x3 : Nat}
    (h0 : x0 < 256) (h1 : x1 < 256) (h2 : x2 < 256) (h3 : x3 < 256) :
    gf.mult 0xd (gf.mult 0x2 x0 ^^^ gf.mult 0x3 x1 ^^^ x2 ^^^ x3) ^^^
    gf.mult 0x9 (x0 ^^^ gf.mult 0x2 x1 ^^^ gf.mult 0x3 x2 ^^^ x3) ^^^
    gf.mult 0xe (x0 ^^^ x1 ^^^ gf.mult 0x2 x2 ^^^ gf.mult 0x3 x3) ^^^
    gf.mult 0xb (gf.mult 0x3 x0 ^^^ x1 ^^^ x2 ^^^ gf.mult 0x2 x3) = x2 := by
  calc gf.mult 0xd (gf.mult 0x2 x0 ^^^ gf.mult 0x3 x1 ^^^ x2 ^^^ x3) ^^^
    gf.mult 0x9 (x0 ^^^ gf.mult 0x2 x1 ^^^ gf.mult 0x3 x2 ^^^ x3) ^^^
    gf.mult 0xe (x0 ^^^ x1 ^^^ gf.mult 0x2 x2 ^^^ gf.mult 0x3 x3) ^^^
    gf.mult 0xb (gf.mult 0x3 x0 ^^^ x1 ^^^ x2 ^^^ gf.mult 0x2 x3)
      = (gf.mult 0xe (gf.mult 0x2 x2) ^^^ gf.mult 0xb x2 ^^^ gf.mult 0xd x2 ^^^ gf.mult 0x9 (gf.mult 0x3 x2)) ^^^
        ((gf.mult 0xe x0 ^^^ gf.mult 0xb (gf.mult 0x3 x0) ^^^ gf.mult 0xd (gf.mult 0x2 x0) ^^^ gf.mult 0x9 x0) ^^^
         ((gf.mult 0xe x1 ^^^ gf.mult 0xb x1 ^^^ gf.mult 0xd (gf.mult 0x3 x1) ^^^ gf.mult 0x9 (gf.mult 0x2 x1)) ^^^
          (gf.mult 0xe (gf.mult 0x3 x3) ^^^ gf.mult 0xb (gf.mult 0x2 x3) ^^^ gf.mult 0xd x3 ^^^ gf.mult 0x9 x3))) := by
        simp only [gf.mult_xor]
        ac_rfl
    _ = x2 ^^^ (0 ^^^ (0 ^^^ 0)) := by rw [mixI h2, mixZ2 h0, mixZ3 h1, mixZ1 h3]
    _ = x2 := by simp

theorem mixColInv3 {x0 x1 x2 x3 : Nat}
    (h0 : x0 < 256) (h1 : x1 < 256) (h2 : x2 < 256) (h3 : x3 < 256) :
    gf.mult 0xb (gf.mult 0x2 x0 ^^^ gf.mult 0x3 x1 ^^^ x2 ^^^ x3) ^^^
    gf.mult 0xd (x0 ^^^ gf.mult 0x2 x1 ^^^ gf.mult 0x3 x2 ^^^ x3) ^^^
    gf.mult 0x9 (x0 ^^^ x1 ^^^ gf.mult 0x2 x2 ^^^ gf.mult 0x3 x3) ^^^
    gf.mult 0xe (gf.mult 0x3 x0 ^^^ x1 ^^^ x2 ^^^ gf.mult 0x2 x3) = x3 := by
  calc gf.mult 0xb (gf.mult 0x2 x0 ^^^ gf.mult 0x3 x1 ^^^ x2 ^^^ x3) ^^^
    gf.mult 0xd (x0 ^^^ gf.mult 0x2 x1 ^^^ gf.mult 0x3 x2 ^^^ x3) ^^^
    gf.mult 0x9 (x0 ^^^ x1 ^^^ gf.mult 0x2 x2 ^^^ gf.mult 0x3 x3) ^^^
    gf.mult 0xe (gf.mult 0x3 x0 ^^^ x1 ^^^ x2 ^^^ gf.mult 0x2 x3)
      = (gf.mult 0xe (gf.mult 0x2 x3) ^^^ gf.mult 0xb x3 ^^^ gf.mult 0xd x3 ^^^ gf.mult 0x9 (gf.mult 0x3 x3)) ^^^
        ((gf.mult 0xe (gf.mult 0x3 x0) ^^^ gf.mult 0xb (gf.mult 0x2 x0) ^^^ gf.mult 0xd x0 ^^^ gf.mult 0x9 x0) ^^^
         ((gf.mult 0xe x1 ^^^ gf.mult 0xb (gf.mult 0x3 x1) ^^^ gf.mult 0xd (gf.mult 0x2 x1) ^^^ gf.mult 0x9 x1) ^^^
          (gf.mult 0xe x2 ^^^ gf.mult 0xb x2 ^^^ gf.mult 0xd (gf.mult 0x3 x2) ^^^ gf.mult 0x9 (gf.mult 0x2 x2)))) := by
        simp only [gf.mult_xor]
        ac_rfl
    _ = x3 ^^^ (0 ^^^ (0 ^^^ 0)) := by rw [mixI h3, mixZ1 h0, mixZ2 h1, mixZ3 h2]
    _ = x3 := by simp

theorem Block.imc_mc {B : Block} (h : B.wf) :
    Block.InvMixColumns (Block.MixColumns B) = B := by
  rcases B with ⟨b0,b1,b2,b3,b4,b5,b6,b7,b8,b9,b10,b11,b12,b13,b14,b15⟩
  obtain ⟨h0,h1,h2,h3,h4,h5,h6,h7,h8,h9,h10,h11,h12,h13,h14,h15⟩ := h
  simp only [Block.MixColumns, Block.InvMixColumns]
  congr 1
  · exact mixColInv0 h0 h1 h2 h3
  · exact mixColInv1 h0 h1 h2 h3
  · exact mixColInv2 h0 h1 h2 h3
  · exact mixColInv3 h0 h1 h2 h3
  · exact mixColInv0 h4 h5 h6 h7
  · exact mixColInv1 h4 h5 h6 h7
  · exact mixColInv2 h4 h5 h6 h7
  · exact mixColInv3 h4 h5 h6 h7
  · exact mixColInv0 h8 h9 h10 h11
  · exact mixColInv1 h8 h9 h10 h11
  · exact mixColInv2 h8 h9 h10 h11
  · exact mixColInv3 h8 h9 h10 h11
  · exact mixColInv0 h12 h13 h14 h15
  · exact mixColInv1 h12 h13 h14 h15
  · exact mixColInv2 h12 h13 h14 h15
  · exact mixColInv3 h12 h13 h14 h15

end aes

namespace aes

theorem cipherLoop_succ (w : List Nat) (n : Nat) :
    ∀ (x : Nat) (B : Block), cipherLoop w x (n+1) B =
      Block.AddRoundKey (x+n+1) w
        (Block.MixColumns (Block.ShiftRows (Block.SubBytes (cipherLoop w x n B)))) := by
  induction n with
  | zero => intro x B; rfl
  | succ n ih =>
    intro x B
    show cipherLoop w (x+1) (n+1)
        (Block.AddRoundKey (x+1) w (Block.MixColumns (Block.ShiftRows (Block.SubBytes B)))) = _
    rw [ih (x+1)]
    have hx : x + 1 + n + 1 = x + (n + 1) + 1 := by omega
    rw [hx]
    rfl

theorem invLoop_cipherLoop (w : List Nat) :
    ∀ (n : Nat) {B : Block}, B.wf →
      invCipherLoop w n (Block.ShiftRows (Block.SubBytes (cipherLoop w 0 n B))) =
        Block.ShiftRows (Block.SubBytes B) := by
  intro n
  induction n with
  | zero => intro B _; rfl
  | succ n ih =>
    intro B h
    rw [cipherLoop_succ w n 0]
    simp only [Nat.zero_add]
    show invCipherLoop w n
        (Block.InvMixColumns (Block.AddRoundKey (n+1) w (Block.InvSubBytes (Block.InvShiftRows
          (Block.ShiftRows (Block.SubBytes (Block.AddRoundKey (n+1) w
            (Block.MixColumns (Block.ShiftRows (Block.SubBytes (cipherLoop w 0 n B))))))))))) = _
    rw [Block.isr_sr]
    rw [Block.isb_sb (Block.wf_AddRoundKey
      (Block.wf_MixColumns (Block.wf_ShiftRows (Block.wf_SubBytes _))) _ _)]
    rw [Block.ark_ark]
    rw [Block.imc_mc (Block.wf_ShiftRows (Block.wf_SubBytes _))]
    exact ih h

/-- On wellformed blocks, the source InvCipher round structure undoes the source
Cipher round structure for any key schedule and round count. -/
theorem invCipherBlock_cipherBlock (w : List Nat) (Nr : Nat) {B : Block} (h : B.wf) :
    invCipherBlock w Nr (cipherBlock w Nr B) = B := by
  simp only [cipherBlock, invCipherBlock]
  rw [Block.ark_ark]
  rw [invLoop_cipherLoop w (Nr-1) (Block.wf_AddRoundKey h 0 w)]
  rw [Block.isr_sr, Block.isb_sb (Block.wf_AddRoundKey h 0 w), Block.ark_ark]

theorem length_lt_16_of_not_chunk (l : List Nat)
    (h : ∀ (a0 a1 a2 a3 a4 a5 a6 a7 a8 a9 a10 a11 a12 a13 a14 a15 : Nat) (rest : List Nat),
      l = a0 :: a1 :: a2 :: a3 :: a4 :: a5 :: a6 :: a7 :: a8 :: a9 :: a10 :: a11 :: a12 ::
            a13 :: a14 :: a15 :: rest → False) :
    l.length < 16 := by
  by_contra hcon
  push_neg at hcon
  rcases l with _|⟨a0,_|⟨a1,_|⟨a2,_|⟨a3,_|⟨a4,_|⟨a5,_|⟨a6,_|⟨a7,_|⟨a8,_|⟨a9,_|⟨a10,
    _|⟨a11,_|⟨a12,_|⟨a13,_|⟨a14,_|⟨a15,rest⟩⟩⟩⟩⟩⟩⟩⟩⟩⟩⟩⟩⟩⟩⟩⟩ <;>
    first
      | (exact h _ _ _ _ _ _ _ _ _ _ _ _ _ _ _ _ _ rfl)
      | (simp only [List.length_nil, List.length_cons] at hcon; omega)

theorem toBlocks_eq_single {l : List Nat} (hne : l ≠ []) (hlen : l.length < 16) :
    toBlocks l = [Block.ofList l] := by
  rw [toBlocks.eq_def]
  split
  · exact absurd rfl hne
  · simp only [List.length_cons] at hlen
    omega
  · rfl

theorem serialize_ofList : ∀ (l : List Nat), l.length ≤ 16 →
    (Block.ofList l).serialize = l ++ List.replicate (16 - l.length) 0
  | [], _ => rfl
  | [a0], _ => rfl
  | [a0,a1], _ => rfl
  | [a0,a1,a2], _ => rfl
  | [a0,a1,a2,a3], _ => rfl
  | [a0,a1,a2,a3,a4], _ => rfl
  | [a0,a1,a2,a3,a4,a5], _ => rfl
  | [a0,a1,a2,a3,a4,a5,a6], _ => rfl
  | [a0,a1,a2,a3,a4,a5,a6,a7], _ => rfl
  | [a0,a1,a2,a3,a4,a5,a6,a7,a8], _ => rfl
  | [a0,a1,a2,a3,a4,a5,a6,a7,a8,a9], _ => rfl
  | [a0,a1,a2,a3,a4,a5,a6,a7,a8,a9,a10], _ => rfl
  | [a0,a1,a2,a3,a4,a5,a6,a7,a8,a9,a10,a11], _ => rfl
  | [a0,a1,a2,a3,a4,a5,a6,a7,a8,a9,a10,a11,a12], _ => rfl
  | [a0,a1,a2,a3,a4,a5,a6,a7,a8,a9,a10,a11,a12,a13], _ => rfl
  | [a0,a1,a2,a3,a4,a5,a6,a7,a8,a9,a10,a11,a12,a13,a14], _ => rfl
  | [a0,a1,a2,a3,a4,a5,a6,a7,a8,a9,a10,a11,a12,a13,a14,a15], _ => rfl
  | a0::a1::a2::a3::a4::a5::a6::a7::a8::a9::a10::a11::a12::a13::a14::a15::a16::rest, h => by
    simp only [List.length_cons] at h
    omega

theorem flatten_toBlocks (l : List Nat) :
    ((toBlocks l).map Block.serialize).flatten = zeroPad l := by
  induction l using toBlocks.induct with
  | case1 => rfl
  | case2 a0 a1 a2 a3 a4 a5 a6 a7 a8 a9 a10 a11 a12 a13 a14 a15 rest ih =>
    simp only [toBlocks, List.map_cons, List.flatten_cons, ih]
    simp only [zeroPad, List.length_cons]
    have hc : (rest.length + 1 + 1 + 1 + 1 + 1 + 1 + 1 + 1 + 1 + 1 + 1 + 1 + 1 + 1 + 1 + 1) % 16 =
        rest.length % 16 := by omega
    rw [hc]
    rfl
  | case3 l h1 h2 =>
    have hlen : l.length < 16 := length_lt_16_of_not_chunk l h2
    have hne : l ≠ [] := fun he => h1 he
    have hpos : 0 < l.length := List.length_pos.mpr hne
    rw [toBlocks_eq_single hne hlen]
    simp only [List.map_cons, List.map_nil, List.flatten_cons, List.flatten_nil, List.append_nil]
    rw [serialize_ofList l (le_of_lt hlen)]
    simp only [zeroPad]
    have : (16 - l.length % 16) % 16 = 16 - l.length := by omega
    rw [this]
end aes

namespace aes

theorem toBlocks_flatten_serialize (bs : List Block) :
    toBlocks ((bs.map Block.serialize).flatten) = bs := by
  induction bs with
  | nil => rfl
  | cons B rest ih =>
    rcases B with ⟨b0,b1,b2,b3,b4,b5,b6,b7,b8,b9,b10,b11,b12,b13,b14,b15⟩
    simp only [List.map_cons, List.flatten_cons, Block.serialize, List.cons_append, toBlocks]
    exact congrArg (List.cons _) ih

theorem toBlocks_append {l : List Nat} (r : List Nat) (h : l.length % 16 = 0) :
    toBlocks (l ++ r) = toBlocks l ++ toBlocks r := by
  induction l using toBlocks.induct with
  | case1 => simp [toBlocks]
  | case2 a0 a1 a2 a3 a4 a5 a6 a7 a8 a9 a10 a11 a12 a13 a14 a15 rest ih =>
    simp only [List.length_cons] at h
    have hr : rest.length % 16 = 0 := by omega
    simp only [List.cons_append, toBlocks]
    exact congrArg (List.cons _) (ih hr)
  | case3 l h1 h2 =>
    have hlen : l.length < 16 := length_lt_16_of_not_chunk l h2
    have : l.length = 0 := by omega
    have hnil : l = [] := List.eq_nil_of_length_eq_zero this
    exact absurd hnil h1

theorem toBlocks_wf {l : List Nat} (h : ∀ b ∈ l, b < 256) :
    ∀ B ∈ toBlocks l, B.wf := by
  induction l using toBlocks.induct with
  | case1 => simp [toBlocks]
  | case2 a0 a1 a2 a3 a4 a5 a6 a7 a8 a9 a10 a11 a12 a13 a14 a15 rest ih =>
    intro B hB
    simp only [toBlocks, List.mem_cons] at hB
    rcases hB with rfl | hB
    · exact ⟨h _ (by simp), h _ (by simp), h _ (by simp), h _ (by simp),
             h _ (by simp), h _ (by simp), h _ (by simp), h _ (by simp),
             h _ (by simp), h _ (by simp), h _ (by simp), h _ (by simp),
             h _ (by simp), h _ (by simp), h _ (by simp), h _ (by simp)⟩
    · exact ih (fun b hb => h b (by simp [hb])) B hB
  | case3 l h1 h2 =>
    intro B hB
    have hlen : l.length < 16 := length_lt_16_of_not_chunk l h2
    rw [toBlocks_eq_single (fun he => h1 he) hlen] at hB
    simp only [List.mem_singleton] at hB
    subst hB
    exact Block.wf_ofList h

theorem flatten_serialize_length (bs : List Block) :
    ((bs.map Block.serialize).flatten).length = 16 * bs.length := by
  induction bs with
  | nil => rfl
  | cons B rest ih =>
    simp only [List.map_cons, List.flatten_cons, List.length_append, ih, Block.serialize]
    simp [List.length_cons]
    omega

theorem zeroPad_of_mod {l : List Nat} (h : l.length % 16 = 0) : zeroPad l = l := by
  simp [zeroPad, h]

/-- Shared round-trip fact for ECB: decrypting an encryption recovers the zero-padded
input, for any schedule validity and byte-valued input. -/
theorem ecb_roundtrip_helper (input : List Nat) (k : Key) (Nr : Nat)
    (hNr : Nr = 10 ∨ Nr = 12 ∨ Nr = 14) (hb : ∀ b ∈ input, b < 256) :
    (Cipher input k Nr).bind (fun c => InvCipher c k Nr) = some (zeroPad input) := by
  obtain ⟨w, hw⟩ : ∃ w, Schedule k Nr = some w := by
    rcases hNr with rfl | rfl | rfl <;> exact ⟨_, rfl⟩
  simp only [Cipher, InvCipher, hw, Option.map_some', Option.some_bind]
  simp only [invCipherString, cipherString]
  rw [toBlocks_flatten_serialize]
  have hmap : (((toBlocks input).map (cipherBlock w Nr)).map (invCipherBlock w Nr)) =
      toBlocks input := by
    rw [List.map_map]
    have hcongr := List.map_congr_left
      (fun B hB => invCipherBlock_cipherBlock w Nr (toBlocks_wf hb B hB) :
        ∀ B ∈ toBlocks input, (invCipherBlock w Nr ∘ cipherBlock w Nr) B = id B)
    simp only [Function.comp_def] at hcongr ⊢
    rw [hcongr]
    simp
  rw [hmap, flatten_toBlocks]

end aes

namespace aes

theorem Block.xor_cancel (B P : Block) : Block.xor (Block.xor B P) P = B := by
  rcases B with ⟨b0,b1,b2,b3,b4,b5,b6,b7,b8,b9,b10,b11,b12,b13,b14,b15⟩
  rcases P with ⟨p0,p1,p2,p3,p4,p5,p6,p7,p8,p9,p10,p11,p12,p13,p14,p15⟩
  simp [Block.xor, Nat.xor_cancel_right]

theorem Block.zero_xor (B : Block) : Block.xor Block.zero B = B := by
  rcases B with ⟨b0,b1,b2,b3,b4,b5,b6,b7,b8,b9,b10,b11,b12,b13,b14,b15⟩
  simp [Block.xor, Block.zero]

theorem Block.xor_self (B : Block) : Block.xor B B = Block.zero := by
  rcases B with ⟨b0,b1,b2,b3,b4,b5,b6,b7,b8,b9,b10,b11,b12,b13,b14,b15⟩
  simp [Block.xor, Block.zero]

theorem ctrGo_ctrGo (w : List Nat) (Nr : Nat) :
    ∀ (bs : List Block) (n : Nat), ctrGo w Nr (ctrGo w Nr bs n) n = bs
  | [], _ => rfl
  | B :: rest, n => by
    simp only [ctrGo]
    rw [Block.xor_cancel, ctrGo_ctrGo w Nr rest _]

/-- Shared round-trip fact for CTR mode: applying Ctr twice with the same key, round
count and starting nonce recovers the zero-padded input. -/
theorem ctr_roundtrip_helper (M : List Nat) (k : Key) (Nr n : Nat)
    (hNr : Nr = 10 ∨ Nr = 12 ∨ Nr = 14) :
    (Ctr M k Nr n).bind (fun c => Ctr c k Nr n) = some (zeroPad M) := by
  obtain ⟨w, hw⟩ : ∃ w, Schedule k Nr = some w := by
    rcases hNr with rfl | rfl | rfl <;> exact ⟨_, rfl⟩
  simp only [Ctr, hw, Option.map_some', Option.some_bind]
  rw [toBlocks_flatten_serialize, ctrGo_ctrGo, flatten_toBlocks]

namespace gcm

theorem shiftR1_zero : shiftR1 Block.zero = Block.zero := rfl

theorem gmultStep_zero (x : Bool) :
    gmultStep x (Block.zero, Block.zero) = (Block.zero, Block.zero) := by
  cases x <;> rfl

theorem gmultByte_zero (b : Nat) :
    gmultByte (Block.zero, Block.zero) b = (Block.zero, Block.zero) := by
  simp [gmultByte, gmultStep_zero]

theorem gmult_zero (X : Block) : gmult X Block.zero = Block.zero := by
  simp [gmult, gmultByte_zero]

theorem ghashGo_zero : ∀ (bs : List Block) (Y : Block),
    ghashGo (gmult Y Block.zero) bs Block.zero = Block.zero
  | [], Y => by
    show gmult Y Block.zero = Block.zero
    rw [gmult_zero]
  | B :: rest, Y => by
    show ghashGo (gmult (Block.xor (gmult Y Block.zero) B) Block.zero) rest Block.zero = _
    rw [gmult_zero]
    have h := ghashGo_zero rest (Block.xor Block.zero B)
    rw [gmult_zero] at h
    simpa using h

theorem GHASH_zero (bs : List Block) : GHASH bs Block.zero = Block.zero := by
  cases bs with
  | nil => rfl
  | cons B rest =>
    show ghashGo (gmult (Block.xor Block.zero B) Block.zero) rest Block.zero = Block.zero
    rw [gmult_zero]
    have h := ghashGo_zero rest Block.zero
    rw [gmult_zero] at h
    exact h

/-- The hash subkey actually used by the source is the all-zero block, for every
schedule and round count: the NUL-escaped string literal collapses to the empty
string, whose encryption is empty, and the state_array constructor zero-fills. -/
theorem gcmH_eq_zero (w : List Nat) (Nr : Nat) : gcmH w Nr = Block.zero := rfl

theorem gctrGo_length (w : List Nat) (Nr : Nat) :
    ∀ (bs : List Block) (icb : Block), (gctrGo w Nr bs icb).length = bs.length
  | [], _ => rfl
  | _ :: rest, icb => by
    simp only [gctrGo, List.length_cons, gctrGo_length w Nr rest (incBlock icb)]

end gcm

end aes

/-! Statements settling the specification claims. -/

namespace aes

theorem Block.serialize_zero : Block.zero.serialize = List.replicate 16 0 := rfl

theorem toBlocks_serialize (B : Block) : toBlocks B.serialize = [B] := by
  rcases B with ⟨b0,b1,b2,b3,b4,b5,b6,b7,b8,b9,b10,b11,b12,b13,b14,b15⟩
  simp [Block.serialize, toBlocks]

/-- Claim C1: the claim states that flipping any single bit of the GCM ciphertext C or
tag T makes gcm::Dec raise AuthenticationFailure and release no plaintext.  The code
violates this for every ciphertext bit: because the hash subkey degenerates to the
all-zero block, the appended tag is always the AES encryption of the zero block,
independent of the message, and gcm::Dec accepts ANY body whose trailing 16 bytes
equal that constant; in particular it decrypts (and releases) every tampered
ciphertext whose tag part is untouched. -/
theorem gcm_accepts_tampered_ciphertext (k : Key) (Nr : Nat)
    (hNr : Nr = 10 ∨ Nr = 12 ∨ Nr = 14) (n : Nat) :
    (∀ M : List Nat, ∃ C : List Nat,
        gcm.Enc M k Nr n = some (C ++ gcm.encTagBytes k Nr) ∧
        C.length = 16 * (toBlocks M).length) ∧
    (∀ C2 : List Nat, C2.length % 16 = 0 →
        ∃ out, gcm.Dec (C2 ++ gcm.encTagBytes k Nr) k Nr n = Except.ok out) := by
  obtain ⟨w, hw⟩ : ∃ w, Schedule k Nr = some w := by
    rcases hNr with rfl | rfl | rfl <;> exact ⟨_, rfl⟩
  have htag : gcm.encTagBytes k Nr =
      (Block.ofList (cipherString w Nr (List.replicate 16 0))).serialize := by
    simp [gcm.encTagBytes, hw]
  constructor
  · intro M
    refine ⟨((gcm.gctrGo w Nr (toBlocks M) (gcm.incBlock Block.zero)).map Block.serialize).flatten,
      ?_, ?_⟩
    · simp only [gcm.Enc, hw, Option.map_some']
      rw [gcm.gcmH_eq_zero]
      simp only [gcm.GHASH_zero]
      simp only [gcm.gctrGo, List.headD_cons]
      rw [Block.serialize_zero, Block.zero_xor]
      rw [htag]
      simp [List.map_append, List.flatten_append]
    · rw [flatten_serialize_length, gcm.gctrGo_length]
  · intro C2 h2
    simp only [gcm.Dec, hw]
    rw [htag, toBlocks_append _ h2, toBlocks_serialize]
    rw [List.getLast?_concat, List.dropLast_concat]
    rw [gcm.gcmH_eq_zero]
    simp only [gcm.GHASH_zero]
    simp only [gcm.gctrGo, List.headD_cons]
    simp only [Block.serialize_zero, Block.xor_self]
    rw [if_neg (fun hcon => hcon rfl)]
    exact ⟨_, rfl⟩

/-- Witness for gcm_accepts_tampered_ciphertext at key (0,0,0,0), Nr = 10, nonce 0. -/
theorem gcm_accepts_tampered_ciphertext_witness :
    (10 = 10 ∨ 10 = 12 ∨ 10 = 14) ∧
    ((∀ M : List Nat, ∃ C : List Nat,
        gcm.Enc M ⟨0,0,0,0⟩ 10 0 = some (C ++ gcm.encTagBytes ⟨0,0,0,0⟩ 10) ∧
        C.length = 16 * (toBlocks M).length) ∧
     (∀ C2 : List Nat, C2.length % 16 = 0 →
        ∃ out, gcm.Dec (C2 ++ gcm.encTagBytes ⟨0,0,0,0⟩ 10) ⟨0,0,0,0⟩ 10 0 = Except.ok out)) :=
  ⟨Or.inl rfl, gcm_accepts_tampered_ciphertext ⟨0,0,0,0⟩ 10 (Or.inl rfl) 0⟩

end aes

namespace aes

theorem key.expandGo_add (Nk b : Nat) :
    ∀ (a i : Nat) (w : List Nat),
      key.expandGo Nk (a + b) i w = key.expandGo Nk b (i + a) (key.expandGo Nk a i w) := by
  intro a
  induction a with
  | zero =>
    intro i w
    rw [Nat.zero_add, Nat.add_zero, show key.expandGo Nk 0 i w = w from rfl]
  | succ a ih =>
    intro i w
    rw [show a + 1 + b = (a + b) + 1 from by omega]
    simp only [key.expandGo]
    rw [ih]
    rw [show i + 1 + a = i + (a + 1) from by omega]

set_option maxRecDepth 100000 in
/-- The key schedule that key.Expansion computes for Nk = 4 at the key ⟨0,0,0,0⟩,
evaluated in eight small fuel stages. -/
theorem key.expansionZero :
    key.Expansion ⟨0,0,0,0⟩ 4 = [0, 0, 0, 0, 1633903459, 1633903459, 1633903459, 1633903459, 2660800652, 4294704111, 2660800652, 4294704111, 2576828314, 1718402165, 4176749817, 118480662, 4278779999, 2573581354, 1636931795, 1721649093, 3567887980, 1305221702, 744325781, 1254344016, 3121608122, 4156813308, 3684593001, 2438834233, 1993205563, 2165180615, 1519412654, 3419262359, 3497029412, 1367238627, 200147533, 3223572442, 3237623966, 2441371517, 2590661936, 1514771178, 4222992160, 1781653597, 4032544109, 0] := by
  have hinit : (List.range 44).map
      (fun i => if i < 4 then (key.keyWords ⟨0,0,0,0⟩).getD i 0 else 0) =
      [0, 0, 0, 0, 0, 0, 0, 0, 0, 0, 0, 0, 0, 0, 0, 0, 0, 0, 0, 0, 0, 0, 0, 0, 0, 0, 0, 0, 0, 0, 0, 0, 0, 0, 0, 0, 0, 0, 0, 0, 0, 0, 0, 0] := by decide!
  have hst1 : key.expandGo 4 5 4 [0, 0, 0, 0, 0, 0, 0, 0, 0, 0, 0, 0, 0, 0, 0, 0, 0, 0, 0, 0, 0, 0, 0, 0, 0, 0, 0, 0, 0, 0, 0, 0, 0, 0, 0, 0, 0, 0, 0, 0, 0, 0, 0, 0] = [0, 0, 0, 0, 1633903459, 1633903459, 1633903459, 1633903459, 2660800652, 0, 0, 0, 0, 0, 0, 0, 0, 0, 0, 0, 0, 0, 0, 0, 0, 0, 0, 0, 0, 0, 0, 0, 0, 0, 0, 0, 0, 0, 0, 0, 0, 0, 0, 0] := by decide!
  have hst2 : key.expandGo 4 5 9 [0, 0, 0, 0, 1633903459, 1633903459, 1633903459, 1633903459, 2660800652, 0, 0, 0, 0, 0, 0, 0, 0, 0, 0, 0, 0, 0, 0, 0, 0, 0, 0, 0, 0, 0, 0, 0, 0, 0, 0, 0, 0, 0, 0, 0, 0, 0, 0, 0] = [0, 0, 0, 0, 1633903459, 1633903459, 1633903459, 1633903459, 2660800652, 4294704111, 2660800652, 4294704111, 2576828314, 1718402165, 0, 0, 0, 0, 0, 0, 0, 0, 0, 0, 0, 0, 0, 0, 0, 0, 0, 0, 0, 0, 0, 0, 0, 0, 0, 0, 0, 0, 0, 0] := by decide!
  have hst3 : key.expandGo 4 5 14 [0, 0, 0, 0, 1633903459, 1633903459, 1633903459, 1633903459, 2660800652, 4294704111, 2660800652, 4294704111, 2576828314, 1718402165, 0, 0, 0, 0, 0, 0, 0, 0, 0, 0, 0, 0, 0, 0, 0, 0, 0, 0, 0, 0, 0, 0, 0, 0, 0, 0, 0, 0, 0, 0] = [0, 0, 0, 0, 1633903459, 1633903459, 1633903459, 1633903459, 2660800652, 4294704111, 2660800652, 4294704111, 2576828314, 1718402165, 4176749817, 118480662, 4278779999, 2573581354, 1636931795, 0, 0, 0, 0, 0, 0, 0, 0, 0, 0, 0, 0, 0, 0, 0, 0, 0, 0, 0, 0, 0, 0, 0, 0, 0] := by decide!
  have hst4 : key.expandGo 4 5 19 [0, 0, 0, 0, 1633903459, 1633903459, 1633903459, 1633903459, 2660800652, 4294704111, 2660800652, 4294704111, 2576828314, 1718402165, 4176749817, 118480662, 4278779999, 2573581354, 1636931795, 0, 0, 0, 0, 0, 0, 0, 0, 0, 0, 0, 0, 0, 0, 0, 0, 0, 0, 0, 0, 0, 0, 0, 0, 0] = [0, 0, 0, 0, 1633903459, 1633903459, 1633903459, 1633903459, 2660800652, 4294704111, 2660800652, 4294704111, 2576828314, 1718402165, 4176749817, 118480662, 4278779999, 2573581354, 1636931795, 1721649093, 3567887980, 1305221702, 744325781, 1254344016, 0, 0, 0, 0, 0, 0, 0, 0, 0, 0, 0, 0, 0, 0, 0, 0, 0, 0, 0, 0] := by decide!
  have hst5 : key.expandGo 4 5 24 [0, 0, 0, 0, 1633903459, 1633903459, 1633903459, 1633903459, 2660800652, 4294704111, 2660800652, 4294704111, 2576828314, 1718402165, 4176749817, 118480662, 4278779999, 2573581354, 1636931795, 1721649093, 3567887980, 1305221702, 744325781, 1254344016, 0, 0, 0, 0, 0, 0, 0, 0, 0, 0, 0, 0, 0, 0, 0, 0, 0, 0, 0, 0] = [0, 0, 0, 0, 1633903459, 1633903459, 1633903459, 1633903459, 2660800652, 4294704111, 2660800652, 4294704111, 2576828314, 1718402165, 4176749817, 118480662, 4278779999, 2573581354, 1636931795, 1721649093, 3567887980, 1305221702, 744325781, 1254344016, 3121608122, 4156813308, 3684593001, 2438834233, 1993205563, 0, 0, 0, 0, 0, 0, 0, 0, 0, 0, 0, 0, 0, 0, 0] := by decide!
  have hst6 : key.expandGo 4 5 29 [0, 0, 0, 0, 1633903459, 1633903459, 1633903459, 1633903459, 2660800652, 4294704111, 2660800652, 4294704111, 2576828314, 1718402165, 4176749817, 118480662, 4278779999, 2573581354, 1636931795, 1721649093, 3567887980, 1305221702, 744325781, 1254344016, 3121608122, 4156813308, 3684593001, 2438834233, 1993205563, 0, 0, 0, 0, 0, 0, 0, 0, 0, 0, 0, 0, 0, 0, 0] = [0, 0, 0, 0, 1633903459, 1633903459, 1633903459, 1633903459, 2660800652, 4294704111, 2660800652, 4294704111, 2576828314, 1718402165, 4176749817, 118480662, 4278779999, 2573581354, 1636931795, 1721649093, 3567887980, 1305221702, 744325781, 1254344016, 3121608122, 4156813308, 3684593001, 2438834233, 1993205563, 2165180615, 1519412654, 3419262359, 3497029412, 1367238627, 0, 0, 0, 0, 0, 0, 0, 0, 0, 0] := by decide!
  have hst7 : key.expandGo 4 5 34 [0, 0, 0, 0, 1633903459, 1633903459, 1633903459, 1633903459, 2660800652, 4294704111, 2660800652, 4294704111, 2576828314, 1718402165, 4176749817, 118480662, 4278779999, 2573581354, 1636931795, 1721649093, 3567887980, 1305221702, 744325781, 1254344016, 3121608122, 4156813308, 3684593001, 2438834233, 1993205563, 2165180615, 1519412654, 3419262359, 3497029412, 1367238627, 0, 0, 0, 0, 0, 0, 0, 0, 0, 0] = [0, 0, 0, 0, 1633903459, 1633903459, 1633903459, 1633903459, 2660800652, 4294704111, 2660800652, 4294704111, 2576828314, 1718402165, 4176749817, 118480662, 4278779999, 2573581354, 1636931795, 1721649093, 3567887980, 1305221702, 744325781, 1254344016, 3121608122, 4156813308, 3684593001, 2438834233, 1993205563, 2165180615, 1519412654, 3419262359, 3497029412, 1367238627, 200147533, 3223572442, 3237623966, 2441371517, 2590661936, 0, 0, 0, 0, 0] := by decide!
  have hst8 : key.expandGo 4 4 39 [0, 0, 0, 0, 1633903459, 1633903459, 1633903459, 1633903459, 2660800652, 4294704111, 2660800652, 4294704111, 2576828314, 1718402165, 4176749817, 118480662, 4278779999, 2573581354, 1636931795, 1721649093, 3567887980, 1305221702, 744325781, 1254344016, 3121608122, 4156813308, 3684593001, 2438834233, 1993205563, 2165180615, 1519412654, 3419262359, 3497029412, 1367238627, 200147533, 3223572442, 3237623966, 2441371517, 2590661936, 0, 0, 0, 0, 0] = [0, 0, 0, 0, 1633903459, 1633903459, 1633903459, 1633903459, 2660800652, 4294704111, 2660800652, 4294704111, 2576828314, 1718402165, 4176749817, 118480662, 4278779999, 2573581354, 1636931795, 1721649093, 3567887980, 1305221702, 744325781, 1254344016, 3121608122, 4156813308, 3684593001, 2438834233, 1993205563, 2165180615, 1519412654, 3419262359, 3497029412, 1367238627, 200147533, 3223572442, 3237623966, 2441371517, 2590661936, 1514771178, 4222992160, 1781653597, 4032544109, 0] := by decide!
  show key.expandGo 4 39 4 ((List.range 44).map
      (fun i => if i < 4 then (key.keyWords ⟨0,0,0,0⟩).getD i 0 else 0)) = [0, 0, 0, 0, 1633903459, 1633903459, 1633903459, 1633903459, 2660800652, 4294704111, 2660800652, 4294704111, 2576828314, 1718402165, 4176749817, 118480662, 4278779999, 2573581354, 1636931795, 1721649093, 3567887980, 1305221702, 744325781, 1254344016, 3121608122, 4156813308, 3684593001, 2438834233, 1993205563, 2165180615, 1519412654, 3419262359, 3497029412, 1367238627, 200147533, 3223572442, 3237623966, 2441371517, 2590661936, 1514771178, 4222992160, 1781653597, 4032544109, 0]
  rw [hinit]
  rw [show (39 : Nat) = 5 + 34 from rfl, key.expandGo_add 4 34 5 4 [0, 0, 0, 0, 0, 0, 0, 0, 0, 0, 0, 0, 0, 0, 0, 0, 0, 0, 0, 0, 0, 0, 0, 0, 0, 0, 0, 0, 0, 0, 0, 0, 0, 0, 0, 0, 0, 0, 0, 0, 0, 0, 0, 0], hst1,
     show (4 + 5 : Nat) = 9 from rfl]
  rw [show (34 : Nat) = 5 + 29 from rfl, key.expandGo_add 4 29 5 9 [0, 0, 0, 0, 1633903459, 1633903459, 1633903459, 1633903459, 2660800652, 0, 0, 0, 0, 0, 0, 0, 0, 0, 0, 0, 0, 0, 0, 0, 0, 0, 0, 0, 0, 0, 0, 0, 0, 0, 0, 0, 0, 0, 0, 0, 0, 0, 0, 0], hst2,
     show (9 + 5 : Nat) = 14 from rfl]
  rw [show (29 : Nat) = 5 + 24 from rfl, key.expandGo_add 4 24 5 14 [0, 0, 0, 0, 1633903459, 1633903459, 1633903459, 1633903459, 2660800652, 4294704111, 2660800652, 4294704111, 2576828314, 1718402165, 0, 0, 0, 0, 0, 0, 0, 0, 0, 0, 0, 0, 0, 0, 0, 0, 0, 0, 0, 0, 0, 0, 0, 0, 0, 0, 0, 0, 0, 0], hst3,
     show (14 + 5 : Nat) = 19 from rfl]
  rw [show (24 : Nat) = 5 + 19 from rfl, key.expandGo_add 4 19 5 19 [0, 0, 0, 0, 1633903459, 1633903459, 1633903459, 1633903459, 2660800652, 4294704111, 2660800652, 4294704111, 2576828314, 1718402165, 4176749817, 118480662, 4278779999, 2573581354, 1636931795, 0, 0, 0, 0, 0, 0, 0, 0, 0, 0, 0, 0, 0, 0, 0, 0, 0, 0, 0, 0, 0, 0, 0, 0, 0], hst4,
     show (19 + 5 : Nat) = 24 from rfl]
  rw [show (19 : Nat) = 5 + 14 from rfl, key.expandGo_add 4 14 5 24 [0, 0, 0, 0, 1633903459, 1633903459, 1633903459, 1633903459, 2660800652, 4294704111, 2660800652, 4294704111, 2576828314, 1718402165, 4176749817, 118480662, 4278779999, 2573581354, 1636931795, 1721649093, 3567887980, 1305221702, 744325781, 1254344016, 0, 0, 0, 0, 0, 0, 0, 0, 0, 0, 0, 0, 0, 0, 0, 0, 0, 0, 0, 0], hst5,
     show (24 + 5 : Nat) = 29 from rfl]
  rw [show (14 : Nat) = 5 + 9 from rfl, key.expandGo_add 4 9 5 29 [0, 0, 0, 0, 1633903459, 1633903459, 1633903459, 1633903459, 2660800652, 4294704111, 2660800652, 4294704111, 2576828314, 1718402165, 4176749817, 118480662, 4278779999, 2573581354, 1636931795, 1721649093, 3567887980, 1305221702, 744325781, 1254344016, 3121608122, 4156813308, 3684593001, 2438834233, 1993205563, 0, 0, 0, 0, 0, 0, 0, 0, 0, 0, 0, 0, 0, 0, 0], hst6,
     show (29 + 5 : Nat) = 34 from rfl]
  rw [show (9 : Nat) = 5 + 4 from rfl, key.expandGo_add 4 4 5 34 [0, 0, 0, 0, 1633903459, 1633903459, 1633903459, 1633903459, 2660800652, 4294704111, 2660800652, 4294704111, 2576828314, 1718402165, 4176749817, 118480662, 4278779999, 2573581354, 1636931795, 1721649093, 3567887980, 1305221702, 744325781, 1254344016, 3121608122, 4156813308, 3684593001, 2438834233, 1993205563, 2165180615, 1519412654, 3419262359, 3497029412, 1367238627, 0, 0, 0, 0, 0, 0, 0, 0, 0, 0], hst7,
     show (34 + 5 : Nat) = 39 from rfl]
  exact hst8

set_option maxRecDepth 100000 in
/-- The key schedule that key.Expansion computes for Nk = 4 at the key ⟨0xa6d2ae2816157e2b, 0x3c4fcf098815f7ab, 0, 0⟩,
evaluated in eight small fuel stages. -/
theorem key.expansionFips :
    key.Expansion ⟨0xa6d2ae2816157e2b, 0x3c4fcf098815f7ab, 0, 0⟩ 4 = [370507307, 2798825000, 2283141035, 1011863305, 2426372032, 911069672, 3193448003, 2182605130, 1686219219, 1389131835, 3969146488, 1854125874, 2150140492, 3538219639, 1047571471, 1358109501, 2642914591, 1331912552, 1897132903, 568387674, 1545343970, 327109770, 1651294189, 1133270967, 2017966840, 1798895218, 156518815, 1255677480, 2570423854, 4060969052, 4216926659, 2978033643, 2384488422, 2083332026, 2272538233, 922026386, 1583098083, 577845081, 2768574752, 2481985714, 3539017535, 4034930790, 1434792262, 0] := by
  have hinit : (List.range 44).map
      (fun i => if i < 4 then (key.keyWords ⟨0xa6d2ae2816157e2b, 0x3c4fcf098815f7ab, 0, 0⟩).getD i 0 else 0) =
      [370507307, 2798825000, 2283141035, 1011863305, 0, 0, 0, 0, 0, 0, 0, 0, 0, 0, 0, 0, 0, 0, 0, 0, 0, 0, 0, 0, 0, 0, 0, 0, 0, 0, 0, 0, 0, 0, 0, 0, 0, 0, 0, 0, 0, 0, 0, 0] := by decide!
  have hst1 : key.expandGo 4 5 4 [370507307, 2798825000, 2283141035, 1011863305, 0, 0, 0, 0, 0, 0, 0, 0, 0, 0, 0, 0, 0, 0, 0, 0, 0, 0, 0, 0, 0, 0, 0, 0, 0, 0, 0, 0, 0, 0, 0, 0, 0, 0, 0, 0, 0, 0, 0, 0] = [370507307, 2798825000, 2283141035, 1011863305, 2426372032, 911069672, 3193448003, 2182605130, 1686219219, 0, 0, 0, 0, 0, 0, 0, 0, 0, 0, 0, 0, 0, 0, 0, 0, 0, 0, 0, 0, 0, 0, 0, 0, 0, 0, 0, 0, 0, 0, 0, 0, 0, 0, 0] := by decide!
  have hst2 : key.expandGo 4 5 9 [370507307, 2798825000, 2283141035, 1011863305, 2426372032, 911069672, 3193448003, 2182605130, 1686219219, 0, 0, 0, 0, 0, 0, 0, 0, 0, 0, 0, 0, 0, 0, 0, 0, 0, 0, 0, 0, 0, 0, 0, 0, 0, 0, 0, 0, 0, 0, 0, 0, 0, 0, 0] = [370507307, 2798825000, 2283141035, 1011863305, 2426372032, 911069672, 3193448003, 2182605130, 1686219219, 1389131835, 3969146488, 1854125874, 2150140492, 3538219639, 0, 0, 0, 0, 0, 0, 0, 0, 0, 0, 0, 0, 0, 0, 0, 0, 0, 0, 0, 0, 0, 0, 0, 0, 0, 0, 0, 0, 0, 0] := by decide!
  have hst3 : key.expandGo 4 5 14 [370507307, 2798825000, 2283141035, 1011863305, 2426372032, 911069672, 3193448003, 2182605130, 1686219219, 1389131835, 3969146488, 1854125874, 2150140492, 3538219639, 0, 0, 0, 0, 0, 0, 0, 0, 0, 0, 0, 0, 0, 0, 0, 0, 0, 0, 0, 0, 0, 0, 0, 0, 0, 0, 0, 0, 0, 0] = [370507307, 2798825000, 2283141035, 1011863305, 2426372032, 911069672, 3193448003, 2182605130, 1686219219, 1389131835, 3969146488, 1854125874, 2150140492, 3538219639, 1047571471, 1358109501, 2642914591, 1331912552, 1897132903, 0, 0, 0, 0, 0, 0, 0, 0, 0, 0, 0, 0, 0, 0, 0, 0, 0, 0, 0, 0, 0, 0, 0, 0, 0] := by decide!
  have hst4 : key.expandGo 4 5 19 [370507307, 2798825000, 2283141035, 1011863305, 2426372032, 911069672, 3193448003, 2182605130, 1686219219, 1389131835, 3969146488, 1854125874, 2150140492, 3538219639, 1047571471, 1358109501, 2642914591, 1331912552, 1897132903, 0, 0, 0, 0, 0, 0, 0, 0, 0, 0, 0, 0, 0, 0, 0, 0, 0, 0, 0, 0, 0, 0, 0, 0, 0] = [370507307, 2798825000, 2283141035, 1011863305, 2426372032, 911069672, 3193448003, 2182605130, 1686219219, 1389131835, 3969146488, 1854125874, 2150140492, 3538219639, 1047571471, 1358109501, 2642914591, 1331912552, 1897132903, 568387674, 1545343970, 327109770, 1651294189, 1133270967, 0, 0, 0, 0, 0, 0, 0, 0, 0, 0, 0, 0, 0, 0, 0, 0, 0, 0, 0, 0] := by decide!
  have hst5 : key.expandGo 4 5 24 [370507307, 2798825000, 2283141035, 1011863305, 2426372032, 911069672, 3193448003, 2182605130, 1686219219, 1389131835, 3969146488, 1854125874, 2150140492, 3538219639, 1047571471, 1358109501, 2642914591, 1331912552, 1897132903, 568387674, 1545343970, 327109770, 1651294189, 1133270967, 0, 0, 0, 0, 0, 0, 0, 0, 0, 0, 0, 0, 0, 0, 0, 0, 0, 0, 0, 0] = [370507307, 2798825000, 2283141035, 1011863305, 2426372032, 911069672, 3193448003, 2182605130, 1686219219, 1389131835, 3969146488, 1854125874, 2150140492, 3538219639, 1047571471, 1358109501, 2642914591, 1331912552, 1897132903, 568387674, 1545343970, 327109770, 1651294189, 1133270967, 2017966840, 1798895218, 156518815, 1255677480, 2570423854, 0, 0, 0, 0, 0, 0, 0, 0, 0, 0, 0, 0, 0, 0, 0] := by decide!
  have hst6 : key.expandGo 4 5 29 [370507307, 2798825000, 2283141035, 1011863305, 2426372032, 911069672, 3193448003, 2182605130, 1686219219, 1389131835, 3969146488, 1854125874, 2150140492, 3538219639, 1047571471, 1358109501, 2642914591, 1331912552, 1897132903, 568387674, 1545343970, 327109770, 1651294189, 1133270967, 2017966840, 1798895218, 156518815, 1255677480, 2570423854, 0, 0, 0, 0, 0, 0, 0, 0, 0, 0, 0, 0, 0, 0, 0] = [370507307, 2798825000, 2283141035, 1011863305, 2426372032, 911069672, 3193448003, 2182605130, 1686219219, 1389131835, 3969146488, 1854125874, 2150140492, 3538219639, 1047571471, 1358109501, 2642914591, 1331912552, 1897132903, 568387674, 1545343970, 327109770, 1651294189, 1133270967, 2017966840, 1798895218, 156518815, 1255677480, 2570423854, 4060969052, 4216926659, 2978033643, 2384488422, 2083332026, 0, 0, 0, 0, 0, 0, 0, 0, 0, 0] := by decide!
  have hst7 : key.expandGo 4 5 34 [370507307, 2798825000, 2283141035, 1011863305, 2426372032, 911069672, 3193448003, 2182605130, 1686219219, 1389131835, 3969146488, 1854125874, 2150140492, 3538219639, 1047571471, 1358109501, 2642914591, 1331912552, 1897132903, 568387674, 1545343970, 327109770, 1651294189, 1133270967, 2017966840, 1798895218, 156518815, 1255677480, 2570423854, 4060969052, 4216926659, 2978033643, 2384488422, 2083332026, 0, 0, 0, 0, 0, 0, 0, 0, 0, 0] = [370507307, 2798825000, 2283141035, 1011863305, 2426372032, 911069672, 3193448003, 2182605130, 1686219219, 1389131835, 3969146488, 1854125874, 2150140492, 3538219639, 1047571471, 1358109501, 2642914591, 1331912552, 1897132903, 568387674, 1545343970, 327109770, 1651294189, 1133270967, 2017966840, 1798895218, 156518815, 1255677480, 2570423854, 4060969052, 4216926659, 2978033643, 2384488422, 2083332026, 2272538233, 922026386, 1583098083, 577845081, 2768574752, 0, 0, 0, 0, 0] := by decide!
  have hst8 : key.expandGo 4 4 39 [370507307, 2798825000, 2283141035, 1011863305, 2426372032, 911069672, 3193448003, 2182605130, 1686219219, 1389131835, 3969146488, 1854125874, 2150140492, 3538219639, 1047571471, 1358109501, 2642914591, 1331912552, 1897132903, 568387674, 1545343970, 327109770, 1651294189, 1133270967, 2017966840, 1798895218, 156518815, 1255677480, 2570423854, 4060969052, 4216926659, 2978033643, 2384488422, 2083332026, 2272538233, 922026386, 1583098083, 577845081, 2768574752, 0, 0, 0, 0, 0] = [370507307, 2798825000, 2283141035, 1011863305, 2426372032, 911069672, 3193448003, 2182605130, 1686219219, 1389131835, 3969146488, 1854125874, 2150140492, 3538219639, 1047571471, 1358109501, 2642914591, 1331912552, 1897132903, 568387674, 1545343970, 327109770, 1651294189, 1133270967, 2017966840, 1798895218, 156518815, 1255677480, 2570423854, 4060969052, 4216926659, 2978033643, 2384488422, 2083332026, 2272538233, 922026386, 1583098083, 577845081, 2768574752, 2481985714, 3539017535, 4034930790, 1434792262, 0] := by decide!
  show key.expandGo 4 39 4 ((List.range 44).map
      (fun i => if i < 4 then (key.keyWords ⟨0xa6d2ae2816157e2b, 0x3c4fcf098815f7ab, 0, 0⟩).getD i 0 else 0)) = [370507307, 2798825000, 2283141035, 1011863305, 2426372032, 911069672, 3193448003, 2182605130, 1686219219, 1389131835, 3969146488, 1854125874, 2150140492, 3538219639, 1047571471, 1358109501, 2642914591, 1331912552, 1897132903, 568387674, 1545343970, 327109770, 1651294189, 1133270967, 2017966840, 1798895218, 156518815, 1255677480, 2570423854, 4060969052, 4216926659, 2978033643, 2384488422, 2083332026, 2272538233, 922026386, 1583098083, 577845081, 2768574752, 2481985714, 3539017535, 4034930790, 1434792262, 0]
  rw [hinit]
  rw [show (39 : Nat) = 5 + 34 from rfl, key.expandGo_add 4 34 5 4 [370507307, 2798825000, 2283141035, 1011863305, 0, 0, 0, 0, 0, 0, 0, 0, 0, 0, 0, 0, 0, 0, 0, 0, 0, 0, 0, 0, 0, 0, 0, 0, 0, 0, 0, 0, 0, 0, 0, 0, 0, 0, 0, 0, 0, 0, 0, 0], hst1,
     show (4 + 5 : Nat) = 9 from rfl]
  rw [show (34 : Nat) = 5 + 29 from rfl, key.expandGo_add 4 29 5 9 [370507307, 2798825000, 2283141035, 1011863305, 2426372032, 911069672, 3193448003, 2182605130, 1686219219, 0, 0, 0, 0, 0, 0, 0, 0, 0, 0, 0, 0, 0, 0, 0, 0, 0, 0, 0, 0, 0, 0, 0, 0, 0, 0, 0, 0, 0, 0, 0, 0, 0, 0, 0], hst2,
     show (9 + 5 : Nat) = 14 from rfl]
  rw [show (29 : Nat) = 5 + 24 from rfl, key.expandGo_add 4 24 5 14 [370507307, 2798825000, 2283141035, 1011863305, 2426372032, 911069672, 3193448003, 2182605130, 1686219219, 1389131835, 3969146488, 1854125874, 2150140492, 3538219639, 0, 0, 0, 0, 0, 0, 0, 0, 0, 0, 0, 0, 0, 0, 0, 0, 0, 0, 0, 0, 0, 0, 0, 0, 0, 0, 0, 0, 0, 0], hst3,
     show (14 + 5 : Nat) = 19 from rfl]
  rw [show (24 : Nat) = 5 + 19 from rfl, key.expandGo_add 4 19 5 19 [370507307, 2798825000, 2283141035, 1011863305, 2426372032, 911069672, 3193448003, 2182605130, 1686219219, 1389131835, 3969146488, 1854125874, 2150140492, 3538219639, 1047571471, 1358109501, 2642914591, 1331912552, 1897132903, 0, 0, 0, 0, 0, 0, 0, 0, 0, 0, 0, 0, 0, 0, 0, 0, 0, 0, 0, 0, 0, 0, 0, 0, 0], hst4,
     show (19 + 5 : Nat) = 24 from rfl]
  rw [show (19 : Nat) = 5 + 14 from rfl, key.expandGo_add 4 14 5 24 [370507307, 2798825000, 2283141035, 1011863305, 2426372032, 911069672, 3193448003, 2182605130, 1686219219, 1389131835, 3969146488, 1854125874, 2150140492, 3538219639, 1047571471, 1358109501, 2642914591, 1331912552, 1897132903, 568387674, 1545343970, 327109770, 1651294189, 1133270967, 0, 0, 0, 0, 0, 0, 0, 0, 0, 0, 0, 0, 0, 0, 0, 0, 0, 0, 0, 0], hst5,
     show (24 + 5 : Nat) = 29 from rfl]
  rw [show (14 : Nat) = 5 + 9 from rfl, key.expandGo_add 4 9 5 29 [370507307, 2798825000, 2283141035, 1011863305, 2426372032, 911069672, 3193448003, 2182605130, 1686219219, 1389131835, 3969146488, 1854125874, 2150140492, 3538219639, 1047571471, 1358109501, 2642914591, 1331912552, 1897132903, 568387674, 1545343970, 327109770, 1651294189, 1133270967, 2017966840, 1798895218, 156518815, 1255677480, 2570423854, 0, 0, 0, 0, 0, 0, 0, 0, 0, 0, 0, 0, 0, 0, 0], hst6,
     show (29 + 5 : Nat) = 34 from rfl]
  rw [show (9 : Nat) = 5 + 4 from rfl, key.expandGo_add 4 4 5 34 [370507307, 2798825000, 2283141035, 1011863305, 2426372032, 911069672, 3193448003, 2182605130, 1686219219, 1389131835, 3969146488, 1854125874, 2150140492, 3538219639, 1047571471, 1358109501, 2642914591, 1331912552, 1897132903, 568387674, 1545343970, 327109770, 1651294189, 1133270967, 2017966840, 1798895218, 156518815, 1255677480, 2570423854, 4060969052, 4216926659, 2978033643, 2384488422, 2083332026, 0, 0, 0, 0, 0, 0, 0, 0, 0, 0], hst7,
     show (34 + 5 : Nat) = 39 from rfl]
  exact hst8

/-- Claim C2: the claim states that the GCM hash subkey H equals the AES encryption of
the all-zero 16-byte block.  In the code H is ALWAYS the all-zero block instead: the
NUL-escaped C string literal converts to an empty std::string, so nothing is encrypted
and the state_array constructor zero-fills H.  At the concrete key (0,0,0,0) with
Nr = 10 the AES encryption of the zero block differs from that zero H. -/
theorem gcm_H_is_zero_block :
    (∀ (w : List Nat) (Nr : Nat), gcm.gcmH w Nr = Block.zero) ∧
    gcm.gcmH (key.Expansion ⟨0,0,0,0⟩ 4) 10 ≠
      Block.ofList (cipherString (key.Expansion ⟨0,0,0,0⟩ 4) 10 (List.replicate 16 0)) := by
  constructor
  · intro w Nr
    rfl
  · have hcs : cipherString [0, 0, 0, 0, 1633903459, 1633903459, 1633903459, 1633903459, 2660800652, 4294704111, 2660800652, 4294704111, 2576828314, 1718402165, 4176749817, 118480662, 4278779999, 2573581354, 1636931795, 1721649093, 3567887980, 1305221702, 744325781, 1254344016, 3121608122, 4156813308, 3684593001, 2438834233, 1993205563, 2165180615, 1519412654, 3419262359, 3497029412, 1367238627, 200147533, 3223572442, 3237623966, 2441371517, 2590661936, 1514771178, 4222992160, 1781653597, 4032544109, 0] 10 (List.replicate 16 0) = [101, 96, 23, 13, 241, 173, 248, 23, 219, 117, 227, 194, 45, 216, 22, 176] := by
      have hz0 : Block.AddRoundKey 0 [0, 0, 0, 0, 1633903459, 1633903459, 1633903459, 1633903459, 2660800652, 4294704111, 2660800652, 4294704111, 2576828314, 1718402165, 4176749817, 118480662, 4278779999, 2573581354, 1636931795, 1721649093, 3567887980, 1305221702, 744325781, 1254344016, 3121608122, 4156813308, 3684593001, 2438834233, 1993205563, 2165180615, 1519412654, 3419262359, 3497029412, 1367238627, 200147533, 3223572442, 3237623966, 2441371517, 2590661936, 1514771178, 4222992160, 1781653597, 4032544109, 0] (⟨0, 0, 0, 0, 0, 0, 0, 0, 0, 0, 0, 0, 0, 0, 0, 0⟩ : Block) = (⟨0, 0, 0, 0, 0, 0, 0, 0, 0, 0, 0, 0, 0, 0, 0, 0⟩ : Block) := by decide!
      have hzu1 : Block.SubBytes (⟨0, 0, 0, 0, 0, 0, 0, 0, 0, 0, 0, 0, 0, 0, 0, 0⟩ : Block) = (⟨99, 99, 99, 99, 99, 99, 99, 99, 99, 99, 99, 99, 99, 99, 99, 99⟩ : Block) := by
        show (⟨sboxByte 0, sboxByte 0, sboxByte 0, sboxByte 0, sboxByte 0, sboxByte 0, sboxByte 0, sboxByte 0, sboxByte 0, sboxByte 0, sboxByte 0, sboxByte 0, sboxByte 0, sboxByte 0, sboxByte 0, sboxByte 0⟩ : Block) = (⟨99, 99, 99, 99, 99, 99, 99, 99, 99, 99, 99, 99, 99, 99, 99, 99⟩ : Block)
        simp only [sboxV0]
      have hza1 : Block.AddRoundKey 1 [0, 0, 0, 0, 1633903459, 1633903459, 1633903459, 1633903459, 2660800652, 4294704111, 2660800652, 4294704111, 2576828314, 1718402165, 4176749817, 118480662, 4278779999, 2573581354, 1636931795, 1721649093, 3567887980, 1305221702, 744325781, 1254344016, 3121608122, 4156813308, 3684593001, 2438834233, 1993205563, 2165180615, 1519412654, 3419262359, 3497029412, 1367238627, 200147533, 3223572442, 3237623966, 2441371517, 2590661936, 1514771178, 4222992160, 1781653597, 4032544109, 0] (Block.MixColumns (Block.ShiftRows (⟨99, 99, 99, 99, 99, 99, 99, 99, 99, 99, 99, 99, 99, 99, 99, 99⟩ : Block))) = (⟨0, 0, 0, 0, 0, 0, 0, 0, 0, 0, 0, 0, 2, 2, 2, 2⟩ : Block) := by decide!
      have hzu2 : Block.SubBytes (⟨0, 0, 0, 0, 0, 0, 0, 0, 0, 0, 0, 0, 2, 2, 2, 2⟩ : Block) = (⟨99, 99, 99, 99, 99, 99, 99, 99, 99, 99, 99, 99, 119, 119, 119, 119⟩ : Block) := by
        show (⟨sboxByte 0, sboxByte 0, sboxByte 0, sboxByte 0, sboxByte 0, sboxByte 0, sboxByte 0, sboxByte 0, sboxByte 0, sboxByte 0, sboxByte 0, sboxByte 0, sboxByte 2, sboxByte 2, sboxByte 2, sboxByte 2⟩ : Block) = (⟨99, 99, 99, 99, 99, 99, 99, 99, 99, 99, 99, 99, 119, 119, 119, 119⟩ : Block)
        simp only [sboxV0, sboxV2]
      have hza2 : Block.AddRoundKey 2 [0, 0, 0, 0, 1633903459, 1633903459, 1633903459, 1633903459, 2660800652, 4294704111, 2660800652, 4294704111, 2576828314, 1718402165, 4176749817, 118480662, 4278779999, 2573581354, 1636931795, 1721649093, 3567887980, 1305221702, 744325781, 1254344016, 3121608122, 4156813308, 3684593001, 2438834233, 1993205563, 2165180615, 1519412654, 3419262359, 3497029412, 1367238627, 200147533, 3223572442, 3237623966, 2441371517, 2590661936, 1514771178, 4222992160, 1781653597, 4032544109, 0] (Block.MixColumns (Block.ShiftRows (⟨99, 99, 99, 99, 99, 99, 99, 99, 99, 99, 99, 99, 119, 119, 119, 119⟩ : Block))) = (⟨251, 152, 211, 164, 239, 164, 211, 140, 199, 176, 239, 140, 213, 136, 233, 160⟩ : Block) := by decide!
      have hzu3 : Block.SubBytes (⟨251, 152, 211, 164, 239, 164, 211, 140, 199, 176, 239, 140, 213, 136, 233, 160⟩ : Block) = (⟨15, 70, 102, 73, 223, 73, 102, 100, 198, 231, 223, 100, 3, 196, 30, 224⟩ : Block) := by
        show (⟨sboxByte 251, sboxByte 152, sboxByte 211, sboxByte 164, sboxByte 239, sboxByte 164, sboxByte 211, sboxByte 140, sboxByte 199, sboxByte 176, sboxByte 239, sboxByte 140, sboxByte 213, sboxByte 136, sboxByte 233, sboxByte 160⟩ : Block) = (⟨15, 70, 102, 73, 223, 73, 102, 100, 198, 231, 223, 100, 3, 196, 30, 224⟩ : Block)
        simp only [sboxV136, sboxV140, sboxV152, sboxV160, sboxV164, sboxV176, sboxV199, sboxV211, sboxV213, sboxV233, sboxV239, sboxV251]
      have hza3 : Block.AddRoundKey 3 [0, 0, 0, 0, 1633903459, 1633903459, 1633903459, 1633903459, 2660800652, 4294704111, 2660800652, 4294704111, 2576828314, 1718402165, 4176749817, 118480662, 4278779999, 2573581354, 1636931795, 1721649093, 3567887980, 1305221702, 744325781, 1254344016, 3121608122, 4156813308, 3684593001, 2438834233, 1993205563, 2165180615, 1519412654, 3419262359, 3497029412, 1367238627, 200147533, 3223572442, 3237623966, 2441371517, 2590661936, 1514771178, 4222992160, 1781653597, 4032544109, 0] (Block.MixColumns (Block.ShiftRows (⟨15, 70, 102, 73, 223, 73, 102, 100, 198, 231, 223, 100, 3, 196, 30, 224⟩ : Block))) = (⟨96, 114, 33, 74, 135, 221, 251, 206, 85, 247, 150, 52, 87, 39, 221, 234⟩ : Block) := by decide!
      have hzu4 : Block.SubBytes (⟨96, 114, 33, 74, 135, 221, 251, 206, 85, 247, 150, 52, 87, 39, 221, 234⟩ : Block) = (⟨208, 64, 253, 214, 23, 193, 15, 139, 252, 104, 144, 24, 91, 204, 193, 135⟩ : Block) := by
        show (⟨sboxByte 96, sboxByte 114, sboxByte 33, sboxByte 74, sboxByte 135, sboxByte 221, sboxByte 251, sboxByte 206, sboxByte 85, sboxByte 247, sboxByte 150, sboxByte 52, sboxByte 87, sboxByte 39, sboxByte 221, sboxByte 234⟩ : Block) = (⟨208, 64, 253, 214, 23, 193, 15, 139, 252, 104, 144, 24, 91, 204, 193, 135⟩ : Block)
        simp only [sboxV33, sboxV39, sboxV52, sboxV74, sboxV85, sboxV87, sboxV96, sboxV114, sboxV135, sboxV150, sboxV206, sboxV221, sboxV234, sboxV247, sboxV251]
      have hza4 : Block.AddRoundKey 4 [0, 0, 0, 0, 1633903459, 1633903459, 1633903459, 1633903459, 2660800652, 4294704111, 2660800652, 4294704111, 2576828314, 1718402165, 4176749817, 118480662, 4278779999, 2573581354, 1636931795, 1721649093, 3567887980, 1305221702, 744325781, 1254344016, 3121608122, 4156813308, 3684593001, 2438834233, 1993205563, 2165180615, 1519412654, 3419262359, 3497029412, 1367238627, 200147533, 3223572442, 3237623966, 2441371517, 2590661936, 1514771178, 4222992160, 1781653597, 4032544109, 0] (Block.MixColumns (Block.ShiftRows (⟨208, 64, 253, 214, 23, 193, 15, 139, 252, 104, 144, 24, 91, 204, 193, 135⟩ : Block))) = (⟨171, 79, 107, 234, 129, 245, 31, 96, 211, 141, 198, 189, 158, 75, 76, 244⟩ : Block) := by decide!
      have hzu5 : Block.SubBytes (⟨171, 79, 107, 234, 129, 245, 31, 96, 211, 141, 198, 189, 158, 75, 76, 244⟩ : Block) = (⟨98, 132, 127, 135, 12, 230, 192, 208, 102, 93, 180, 122, 11, 179, 41, 191⟩ : Block) := by
        show (⟨sboxByte 171, sboxByte 79, sboxByte 107, sboxByte 234, sboxByte 129, sboxByte 245, sboxByte 31, sboxByte 96, sboxByte 211, sboxByte 141, sboxByte 198, sboxByte 189, sboxByte 158, sboxByte 75, sboxByte 76, sboxByte 244⟩ : Block) = (⟨98, 132, 127, 135, 12, 230, 192, 208, 102, 93, 180, 122, 11, 179, 41, 191⟩ : Block)
        simp only [sboxV31, sboxV75, sboxV76, sboxV79, sboxV96, sboxV107, sboxV129, sboxV141, sboxV158, sboxV171, sboxV189, sboxV198, sboxV211, sboxV234, sboxV244, sboxV245]
      have hza5 : Block.AddRoundKey 5 [0, 0, 0, 0, 1633903459, 1633903459, 1633903459, 1633903459, 2660800652, 4294704111, 2660800652, 4294704111, 2576828314, 1718402165, 4176749817, 118480662, 4278779999, 2573581354, 1636931795, 1721649093, 3567887980, 1305221702, 744325781, 1254344016, 3121608122, 4156813308, 3684593001, 2438834233, 1993205563, 2165180615, 1519412654, 3419262359, 3497029412, 1367238627, 200147533, 3223572442, 3237623966, 2441371517, 2590661936, 1514771178, 4222992160, 1781653597, 4032544109, 0] (Block.MixColumns (Block.ShiftRows (⟨98, 132, 127, 135, 12, 230, 192, 208, 102, 93, 180, 122, 11, 179, 41, 191⟩ : Block))) = (⟨146, 139, 184, 193, 247, 80, 19, 176, 4, 134, 29, 30, 239, 116, 182, 231⟩ : Block) := by decide!
      have hzu6 : Block.SubBytes (⟨146, 139, 184, 193, 247, 80, 19, 176, 4, 134, 29, 30, 239, 116, 182, 231⟩ : Block) = (⟨79, 61, 108, 120, 104, 83, 125, 231, 242, 68, 164, 114, 223, 146, 78, 148⟩ : Block) := by
        show (⟨sboxByte 146, sboxByte 139, sboxByte 184, sboxByte 193, sboxByte 247, sboxByte 80, sboxByte 19, sboxByte 176, sboxByte 4, sboxByte 134, sboxByte 29, sboxByte 30, sboxByte 239, sboxByte 116, sboxByte 182, sboxByte 231⟩ : Block) = (⟨79, 61, 108, 120, 104, 83, 125, 231, 242, 68, 164, 114, 223, 146, 78, 148⟩ : Block)
        simp only [sboxV4, sboxV19, sboxV29, sboxV30, sboxV80, sboxV116, sboxV134, sboxV139, sboxV146, sboxV176, sboxV182, sboxV184, sboxV193, sboxV231, sboxV239, sboxV247]
      have hza6 : Block.AddRoundKey 6 [0, 0, 0, 0, 1633903459, 1633903459, 1633903459, 1633903459, 2660800652, 4294704111, 2660800652, 4294704111, 2576828314, 1718402165, 4176749817, 118480662, 4278779999, 2573581354, 1636931795, 1721649093, 3567887980, 1305221702, 744325781, 1254344016, 3121608122, 4156813308, 3684593001, 2438834233, 1993205563, 2165180615, 1519412654, 3419262359, 3497029412, 1367238627, 200147533, 3223572442, 3237623966, 2441371517, 2590661936, 1514771178, 4222992160, 1781653597, 4032544109, 0] (Block.MixColumns (Block.ShiftRows (⟨79, 61, 108, 120, 104, 83, 125, 231, 242, 68, 164, 114, 223, 146, 78, 148⟩ : Block))) = (⟨225, 118, 129, 44, 223, 165, 85, 234, 214, 93, 20, 123, 87, 167, 85, 79⟩ : Block) := by decide!
      have hzu7 : Block.SubBytes (⟨225, 118, 129, 44, 223, 165, 85, 234, 214, 93, 20, 123, 87, 167, 85, 79⟩ : Block) = (⟨248, 56, 12, 113, 158, 6, 252, 135, 246, 76, 250, 33, 91, 92, 252, 132⟩ : Block) := by
        show (⟨sboxByte 225, sboxByte 118, sboxByte 129, sboxByte 44, sboxByte 223, sboxByte 165, sboxByte 85, sboxByte 234, sboxByte 214, sboxByte 93, sboxByte 20, sboxByte 123, sboxByte 87, sboxByte 167, sboxByte 85, sboxByte 79⟩ : Block) = (⟨248, 56, 12, 113, 158, 6, 252, 135, 246, 76, 250, 33, 91, 92, 252, 132⟩ : Block)
        simp only [sboxV20, sboxV44, sboxV79, sboxV85, sboxV87, sboxV93, sboxV118, sboxV123, sboxV129, sboxV165, sboxV167, sboxV214, sboxV223, sboxV225, sboxV234]
      have hza7 : Block.AddRoundKey 7 [0, 0, 0, 0, 1633903459, 1633903459, 1633903459, 1633903459, 2660800652, 4294704111, 2660800652, 4294704111, 2576828314, 1718402165, 4176749817, 118480662, 4278779999, 2573581354, 1636931795, 1721649093, 3567887980, 1305221702, 744325781, 1254344016, 3121608122, 4156813308, 3684593001, 2438834233, 1993205563, 2165180615, 1519412654, 3419262359, 3497029412, 1367238627, 200147533, 3223572442, 3237623966, 2441371517, 2590661936, 1514771178, 4222992160, 1781653597, 4032544109, 0] (Block.MixColumns (Block.ShiftRows (⟨248, 56, 12, 113, 158, 6, 252, 135, 246, 76, 250, 33, 91, 92, 252, 132⟩ : Block))) = (⟨164, 162, 40, 107, 153, 96, 199, 38, 85, 211, 176, 137, 85, 148, 185, 160⟩ : Block) := by decide!
      have hzu8 : Block.SubBytes (⟨164, 162, 40, 107, 153, 96, 199, 38, 85, 211, 176, 137, 85, 148, 185, 160⟩ : Block) = (⟨73, 58, 52, 127, 238, 208, 198, 247, 252, 102, 231, 167, 252, 34, 86, 224⟩ : Block) := by
        show (⟨sboxByte 164, sboxByte 162, sboxByte 40, sboxByte 107, sboxByte 153, sboxByte 96, sboxByte 199, sboxByte 38, sboxByte 85, sboxByte 211, sboxByte 176, sboxByte 137, sboxByte 85, sboxByte 148, sboxByte 185, sboxByte 160⟩ : Block) = (⟨73, 58, 52, 127, 238, 208, 198, 247, 252, 102, 231, 167, 252, 34, 86, 224⟩ : Block)
        simp only [sboxV38, sboxV40, sboxV85, sboxV96, sboxV107, sboxV137, sboxV148, sboxV153, sboxV160, sboxV162, sboxV164, sboxV176, sboxV185, sboxV199, sboxV211]
      have hza8 : Block.AddRoundKey 8 [0, 0, 0, 0, 1633903459, 1633903459, 1633903459, 1633903459, 2660800652, 4294704111, 2660800652, 4294704111, 2576828314, 1718402165, 4176749817, 118480662, 4278779999, 2573581354, 1636931795, 1721649093, 3567887980, 1305221702, 744325781, 1254344016, 3121608122, 4156813308, 3684593001, 2438834233, 1993205563, 2165180615, 1519412654, 3419262359, 3497029412, 1367238627, 200147533, 3223572442, 3237623966, 2441371517, 2590661936, 1514771178, 4222992160, 1781653597, 4032544109, 0] (Block.MixColumns (Block.ShiftRows (⟨73, 58, 52, 127, 238, 208, 198, 247, 252, 102, 231, 167, 252, 34, 86, 224⟩ : Block))) = (⟨218, 195, 58, 237, 43, 192, 167, 40, 54, 109, 90, 223, 28, 47, 168, 118⟩ : Block) := by decide!
      have hzu9 : Block.SubBytes (⟨218, 195, 58, 237, 43, 192, 167, 40, 54, 109, 90, 223, 28, 47, 168, 118⟩ : Block) = (⟨87, 46, 128, 85, 241, 186, 92, 52, 5, 60, 190, 158, 156, 21, 194, 56⟩ : Block) := by
        show (⟨sboxByte 218, sboxByte 195, sboxByte 58, sboxByte 237, sboxByte 43, sboxByte 192, sboxByte 167, sboxByte 40, sboxByte 54, sboxByte 109, sboxByte 90, sboxByte 223, sboxByte 28, sboxByte 47, sboxByte 168, sboxByte 118⟩ : Block) = (⟨87, 46, 128, 85, 241, 186, 92, 52, 5, 60, 190, 158, 156, 21, 194, 56⟩ : Block)
        simp only [sboxV28, sboxV40, sboxV43, sboxV47, sboxV54, sboxV58, sboxV90, sboxV109, sboxV118, sboxV167, sboxV168, sboxV192, sboxV195, sboxV218, sboxV223, sboxV237]
      have hza9 : Block.AddRoundKey 9 [0, 0, 0, 0, 1633903459, 1633903459, 1633903459, 1633903459, 2660800652, 4294704111, 2660800652, 4294704111, 2576828314, 1718402165, 4176749817, 118480662, 4278779999, 2573581354, 1636931795, 1721649093, 3567887980, 1305221702, 744325781, 1254344016, 3121608122, 4156813308, 3684593001, 2438834233, 1993205563, 2165180615, 1519412654, 3419262359, 3497029412, 1367238627, 200147533, 3223572442, 3237623966, 2441371517, 2590661936, 1514771178, 4222992160, 1781653597, 4032544109, 0] (Block.MixColumns (Block.ShiftRows (⟨87, 46, 128, 85, 241, 186, 92, 52, 5, 60, 190, 158, 156, 21, 194, 56⟩ : Block))) = (⟨99, 164, 242, 103, 18, 222, 240, 206, 123, 4, 61, 187, 83, 43, 41, 176⟩ : Block) := by decide!
      have hzu10 : Block.SubBytes (⟨99, 164, 242, 103, 18, 222, 240, 206, 123, 4, 61, 187, 83, 43, 41, 176⟩ : Block) = (⟨251, 73, 137, 133, 201, 29, 140, 139, 33, 242, 39, 234, 237, 241, 165, 231⟩ : Block) := by
        show (⟨sboxByte 99, sboxByte 164, sboxByte 242, sboxByte 103, sboxByte 18, sboxByte 222, sboxByte 240, sboxByte 206, sboxByte 123, sboxByte 4, sboxByte 61, sboxByte 187, sboxByte 83, sboxByte 43, sboxByte 41, sboxByte 176⟩ : Block) = (⟨251, 73, 137, 133, 201, 29, 140, 139, 33, 242, 39, 234, 237, 241, 165, 231⟩ : Block)
        simp only [sboxV4, sboxV18, sboxV41, sboxV43, sboxV61, sboxV83, sboxV99, sboxV103, sboxV123, sboxV164, sboxV176, sboxV187, sboxV206, sboxV222, sboxV240, sboxV242]
      have hza10 : Block.AddRoundKey 9 [0, 0, 0, 0, 1633903459, 1633903459, 1633903459, 1633903459, 2660800652, 4294704111, 2660800652, 4294704111, 2576828314, 1718402165, 4176749817, 118480662, 4278779999, 2573581354, 1636931795, 1721649093, 3567887980, 1305221702, 744325781, 1254344016, 3121608122, 4156813308, 3684593001, 2438834233, 1993205563, 2165180615, 1519412654, 3419262359, 3497029412, 1367238627, 200147533, 3223572442, 3237623966, 2441371517, 2590661936, 1514771178, 4222992160, 1781653597, 4032544109, 0] (Block.ShiftRows (⟨251, 73, 137, 133, 201, 29, 140, 139, 33, 242, 39, 234, 237, 241, 165, 231⟩ : Block)) = (⟨101, 96, 23, 13, 241, 173, 248, 23, 219, 117, 227, 194, 45, 216, 22, 176⟩ : Block) := by decide!
      have hzcb : cipherBlock [0, 0, 0, 0, 1633903459, 1633903459, 1633903459, 1633903459, 2660800652, 4294704111, 2660800652, 4294704111, 2576828314, 1718402165, 4176749817, 118480662, 4278779999, 2573581354, 1636931795, 1721649093, 3567887980, 1305221702, 744325781, 1254344016, 3121608122, 4156813308, 3684593001, 2438834233, 1993205563, 2165180615, 1519412654, 3419262359, 3497029412, 1367238627, 200147533, 3223572442, 3237623966, 2441371517, 2590661936, 1514771178, 4222992160, 1781653597, 4032544109, 0] 10 (⟨0, 0, 0, 0, 0, 0, 0, 0, 0, 0, 0, 0, 0, 0, 0, 0⟩ : Block) = (⟨101, 96, 23, 13, 241, 173, 248, 23, 219, 117, 227, 194, 45, 216, 22, 176⟩ : Block) := by
        show Block.AddRoundKey 9 [0, 0, 0, 0, 1633903459, 1633903459, 1633903459, 1633903459, 2660800652, 4294704111, 2660800652, 4294704111, 2576828314, 1718402165, 4176749817, 118480662, 4278779999, 2573581354, 1636931795, 1721649093, 3567887980, 1305221702, 744325781, 1254344016, 3121608122, 4156813308, 3684593001, 2438834233, 1993205563, 2165180615, 1519412654, 3419262359, 3497029412, 1367238627, 200147533, 3223572442, 3237623966, 2441371517, 2590661936, 1514771178, 4222992160, 1781653597, 4032544109, 0] (Block.ShiftRows (Block.SubBytes (cipherLoop [0, 0, 0, 0, 1633903459, 1633903459, 1633903459, 1633903459, 2660800652, 4294704111, 2660800652, 4294704111, 2576828314, 1718402165, 4176749817, 118480662, 4278779999, 2573581354, 1636931795, 1721649093, 3567887980, 1305221702, 744325781, 1254344016, 3121608122, 4156813308, 3684593001, 2438834233, 1993205563, 2165180615, 1519412654, 3419262359, 3497029412, 1367238627, 200147533, 3223572442, 3237623966, 2441371517, 2590661936, 1514771178, 4222992160, 1781653597, 4032544109, 0] 0 9 (Block.AddRoundKey 0 [0, 0, 0, 0, 1633903459, 1633903459, 1633903459, 1633903459, 2660800652, 4294704111, 2660800652, 4294704111, 2576828314, 1718402165, 4176749817, 118480662, 4278779999, 2573581354, 1636931795, 1721649093, 3567887980, 1305221702, 744325781, 1254344016, 3121608122, 4156813308, 3684593001, 2438834233, 1993205563, 2165180615, 1519412654, 3419262359, 3497029412, 1367238627, 200147533, 3223572442, 3237623966, 2441371517, 2590661936, 1514771178, 4222992160, 1781653597, 4032544109, 0] (⟨0, 0, 0, 0, 0, 0, 0, 0, 0, 0, 0, 0, 0, 0, 0, 0⟩ : Block))))) = (⟨101, 96, 23, 13, 241, 173, 248, 23, 219, 117, 227, 194, 45, 216, 22, 176⟩ : Block)
        rw [hz0]
        rw [show cipherLoop [0, 0, 0, 0, 1633903459, 1633903459, 1633903459, 1633903459, 2660800652, 4294704111, 2660800652, 4294704111, 2576828314, 1718402165, 4176749817, 118480662, 4278779999, 2573581354, 1636931795, 1721649093, 3567887980, 1305221702, 744325781, 1254344016, 3121608122, 4156813308, 3684593001, 2438834233, 1993205563, 2165180615, 1519412654, 3419262359, 3497029412, 1367238627, 200147533, 3223572442, 3237623966, 2441371517, 2590661936, 1514771178, 4222992160, 1781653597, 4032544109, 0] 0 9 (⟨0, 0, 0, 0, 0, 0, 0, 0, 0, 0, 0, 0, 0, 0, 0, 0⟩ : Block) = cipherLoop [0, 0, 0, 0, 1633903459, 1633903459, 1633903459, 1633903459, 2660800652, 4294704111, 2660800652, 4294704111, 2576828314, 1718402165, 4176749817, 118480662, 4278779999, 2573581354, 1636931795, 1721649093, 3567887980, 1305221702, 744325781, 1254344016, 3121608122, 4156813308, 3684593001, 2438834233, 1993205563, 2165180615, 1519412654, 3419262359, 3497029412, 1367238627, 200147533, 3223572442, 3237623966, 2441371517, 2590661936, 1514771178, 4222992160, 1781653597, 4032544109, 0] 1 8 (Block.AddRoundKey 1 [0, 0, 0, 0, 1633903459, 1633903459, 1633903459, 1633903459, 2660800652, 4294704111, 2660800652, 4294704111, 2576828314, 1718402165, 4176749817, 118480662, 4278779999, 2573581354, 1636931795, 1721649093, 3567887980, 1305221702, 744325781, 1254344016, 3121608122, 4156813308, 3684593001, 2438834233, 1993205563, 2165180615, 1519412654, 3419262359, 3497029412, 1367238627, 200147533, 3223572442, 3237623966, 2441371517, 2590661936, 1514771178, 4222992160, 1781653597, 4032544109, 0] (Block.MixColumns (Block.ShiftRows (Block.SubBytes (⟨0, 0, 0, 0, 0, 0, 0, 0, 0, 0, 0, 0, 0, 0, 0, 0⟩ : Block))))) from rfl, hzu1, hza1]
        rw [show cipherLoop [0, 0, 0, 0, 1633903459, 1633903459, 1633903459, 1633903459, 2660800652, 4294704111, 2660800652, 4294704111, 2576828314, 1718402165, 4176749817, 118480662, 4278779999, 2573581354, 1636931795, 1721649093, 3567887980, 1305221702, 744325781, 1254344016, 3121608122, 4156813308, 3684593001, 2438834233, 1993205563, 2165180615, 1519412654, 3419262359, 3497029412, 1367238627, 200147533, 3223572442, 3237623966, 2441371517, 2590661936, 1514771178, 4222992160, 1781653597, 4032544109, 0] 1 8 (⟨0, 0, 0, 0, 0, 0, 0, 0, 0, 0, 0, 0, 2, 2, 2, 2⟩ : Block) = cipherLoop [0, 0, 0, 0, 1633903459, 1633903459, 1633903459, 1633903459, 2660800652, 4294704111, 2660800652, 4294704111, 2576828314, 1718402165, 4176749817, 118480662, 4278779999, 2573581354, 1636931795, 1721649093, 3567887980, 1305221702, 744325781, 1254344016, 3121608122, 4156813308, 3684593001, 2438834233, 1993205563, 2165180615, 1519412654, 3419262359, 3497029412, 1367238627, 200147533, 3223572442, 3237623966, 2441371517, 2590661936, 1514771178, 4222992160, 1781653597, 4032544109, 0] 2 7 (Block.AddRoundKey 2 [0, 0, 0, 0, 1633903459, 1633903459, 1633903459, 1633903459, 2660800652, 4294704111, 2660800652, 4294704111, 2576828314, 1718402165, 4176749817, 118480662, 4278779999, 2573581354, 1636931795, 1721649093, 3567887980, 1305221702, 744325781, 1254344016, 3121608122, 4156813308, 3684593001, 2438834233, 1993205563, 2165180615, 1519412654, 3419262359, 3497029412, 1367238627, 200147533, 3223572442, 3237623966, 2441371517, 2590661936, 1514771178, 4222992160, 1781653597, 4032544109, 0] (Block.MixColumns (Block.ShiftRows (Block.SubBytes (⟨0, 0, 0, 0, 0, 0, 0, 0, 0, 0, 0, 0, 2, 2, 2, 2⟩ : Block))))) from rfl, hzu2, hza2]
        rw [show cipherLoop [0, 0, 0, 0, 1633903459, 1633903459, 1633903459, 1633903459, 2660800652, 4294704111, 2660800652, 4294704111, 2576828314, 1718402165, 4176749817, 118480662, 4278779999, 2573581354, 1636931795, 1721649093, 3567887980, 1305221702, 744325781, 1254344016, 3121608122, 4156813308, 3684593001, 2438834233, 1993205563, 2165180615, 1519412654, 3419262359, 3497029412, 1367238627, 200147533, 3223572442, 3237623966, 2441371517, 2590661936, 1514771178, 4222992160, 1781653597, 4032544109, 0] 2 7 (⟨251, 152, 211, 164, 239, 164, 211, 140, 199, 176, 239, 140, 213, 136, 233, 160⟩ : Block) = cipherLoop [0, 0, 0, 0, 1633903459, 1633903459, 1633903459, 1633903459, 2660800652, 4294704111, 2660800652, 4294704111, 2576828314, 1718402165, 4176749817, 118480662, 4278779999, 2573581354, 1636931795, 1721649093, 3567887980, 1305221702, 744325781, 1254344016, 3121608122, 4156813308, 3684593001, 2438834233, 1993205563, 2165180615, 1519412654, 3419262359, 3497029412, 1367238627, 200147533, 3223572442, 3237623966, 2441371517, 2590661936, 1514771178, 4222992160, 1781653597, 4032544109, 0] 3 6 (Block.AddRoundKey 3 [0, 0, 0, 0, 1633903459, 1633903459, 1633903459, 1633903459, 2660800652, 4294704111, 2660800652, 4294704111, 2576828314, 1718402165, 4176749817, 118480662, 4278779999, 2573581354, 1636931795, 1721649093, 3567887980, 1305221702, 744325781, 1254344016, 3121608122, 4156813308, 3684593001, 2438834233, 1993205563, 2165180615, 1519412654, 3419262359, 3497029412, 1367238627, 200147533, 3223572442, 3237623966, 2441371517, 2590661936, 1514771178, 4222992160, 1781653597, 4032544109, 0] (Block.MixColumns (Block.ShiftRows (Block.SubBytes (⟨251, 152, 211, 164, 239, 164, 211, 140, 199, 176, 239, 140, 213, 136, 233, 160⟩ : Block))))) from rfl, hzu3, hza3]
        rw [show cipherLoop [0, 0, 0, 0, 1633903459, 1633903459, 1633903459, 1633903459, 2660800652, 4294704111, 2660800652, 4294704111, 2576828314, 1718402165, 4176749817, 118480662, 4278779999, 2573581354, 1636931795, 1721649093, 3567887980, 1305221702, 744325781, 1254344016, 3121608122, 4156813308, 3684593001, 2438834233, 1993205563, 2165180615, 1519412654, 3419262359, 3497029412, 1367238627, 200147533, 3223572442, 3237623966, 2441371517, 2590661936, 1514771178, 4222992160, 1781653597, 4032544109, 0] 3 6 (⟨96, 114, 33, 74, 135, 221, 251, 206, 85, 247, 150, 52, 87, 39, 221, 234⟩ : Block) = cipherLoop [0, 0, 0, 0, 1633903459, 1633903459, 1633903459, 1633903459, 2660800652, 4294704111, 2660800652, 4294704111, 2576828314, 1718402165, 4176749817, 118480662, 4278779999, 2573581354, 1636931795, 1721649093, 3567887980, 1305221702, 744325781, 1254344016, 3121608122, 4156813308, 3684593001, 2438834233, 1993205563, 2165180615, 1519412654, 3419262359, 3497029412, 1367238627, 200147533, 3223572442, 3237623966, 2441371517, 2590661936, 1514771178, 4222992160, 1781653597, 4032544109, 0] 4 5 (Block.AddRoundKey 4 [0, 0, 0, 0, 1633903459, 1633903459, 1633903459, 1633903459, 2660800652, 4294704111, 2660800652, 4294704111, 2576828314, 1718402165, 4176749817, 118480662, 4278779999, 2573581354, 1636931795, 1721649093, 3567887980, 1305221702, 744325781, 1254344016, 3121608122, 4156813308, 3684593001, 2438834233, 1993205563, 2165180615, 1519412654, 3419262359, 3497029412, 1367238627, 200147533, 3223572442, 3237623966, 2441371517, 2590661936, 1514771178, 4222992160, 1781653597, 4032544109, 0] (Block.MixColumns (Block.ShiftRows (Block.SubBytes (⟨96, 114, 33, 74, 135, 221, 251, 206, 85, 247, 150, 52, 87, 39, 221, 234⟩ : Block))))) from rfl, hzu4, hza4]
        rw [show cipherLoop [0, 0, 0, 0, 1633903459, 1633903459, 1633903459, 1633903459, 2660800652, 4294704111, 2660800652, 4294704111, 2576828314, 1718402165, 4176749817, 118480662, 4278779999, 2573581354, 1636931795, 1721649093, 3567887980, 1305221702, 744325781, 1254344016, 3121608122, 4156813308, 3684593001, 2438834233, 1993205563, 2165180615, 1519412654, 3419262359, 3497029412, 1367238627, 200147533, 3223572442, 3237623966, 2441371517, 2590661936, 1514771178, 4222992160, 1781653597, 4032544109, 0] 4 5 (⟨171, 79, 107, 234, 129, 245, 31, 96, 211, 141, 198, 189, 158, 75, 76, 244⟩ : Block) = cipherLoop [0, 0, 0, 0, 1633903459, 1633903459, 1633903459, 1633903459, 2660800652, 4294704111, 2660800652, 4294704111, 2576828314, 1718402165, 4176749817, 118480662, 4278779999, 2573581354, 1636931795, 1721649093, 3567887980, 1305221702, 744325781, 1254344016, 3121608122, 4156813308, 3684593001, 2438834233, 1993205563, 2165180615, 1519412654, 3419262359, 3497029412, 1367238627, 200147533, 3223572442, 3237623966, 2441371517, 2590661936, 1514771178, 4222992160, 1781653597, 4032544109, 0] 5 4 (Block.AddRoundKey 5 [0, 0, 0, 0, 1633903459, 1633903459, 1633903459, 1633903459, 2660800652, 4294704111, 2660800652, 4294704111, 2576828314, 1718402165, 4176749817, 118480662, 4278779999, 2573581354, 1636931795, 1721649093, 3567887980, 1305221702, 744325781, 1254344016, 3121608122, 4156813308, 3684593001, 2438834233, 1993205563, 2165180615, 1519412654, 3419262359, 3497029412, 1367238627, 200147533, 3223572442, 3237623966, 2441371517, 2590661936, 1514771178, 4222992160, 1781653597, 4032544109, 0] (Block.MixColumns (Block.ShiftRows (Block.SubBytes (⟨171, 79, 107, 234, 129, 245, 31, 96, 211, 141, 198, 189, 158, 75, 76, 244⟩ : Block))))) from rfl, hzu5, hza5]
        rw [show cipherLoop [0, 0, 0, 0, 1633903459, 1633903459, 1633903459, 1633903459, 2660800652, 4294704111, 2660800652, 4294704111, 2576828314, 1718402165, 4176749817, 118480662, 4278779999, 2573581354, 1636931795, 1721649093, 3567887980, 1305221702, 744325781, 1254344016, 3121608122, 4156813308, 3684593001, 2438834233, 1993205563, 2165180615, 1519412654, 3419262359, 3497029412, 1367238627, 200147533, 3223572442, 3237623966, 2441371517, 2590661936, 1514771178, 4222992160, 1781653597, 4032544109, 0] 5 4 (⟨146, 139, 184, 193, 247, 80, 19, 176, 4, 134, 29, 30, 239, 116, 182, 231⟩ : Block) = cipherLoop [0, 0, 0, 0, 1633903459, 1633903459, 1633903459, 1633903459, 2660800652, 4294704111, 2660800652, 4294704111, 2576828314, 1718402165, 4176749817, 118480662, 4278779999, 2573581354, 1636931795, 1721649093, 3567887980, 1305221702, 744325781, 1254344016, 3121608122, 4156813308, 3684593001, 2438834233, 1993205563, 2165180615, 1519412654, 3419262359, 3497029412, 1367238627, 200147533, 3223572442, 3237623966, 2441371517, 2590661936, 1514771178, 4222992160, 1781653597, 4032544109, 0] 6 3 (Block.AddRoundKey 6 [0, 0, 0, 0, 1633903459, 1633903459, 1633903459, 1633903459, 2660800652, 4294704111, 2660800652, 4294704111, 2576828314, 1718402165, 4176749817, 118480662, 4278779999, 2573581354, 1636931795, 1721649093, 3567887980, 1305221702, 744325781, 1254344016, 3121608122, 4156813308, 3684593001, 2438834233, 1993205563, 2165180615, 1519412654, 3419262359, 3497029412, 1367238627, 200147533, 3223572442, 3237623966, 2441371517, 2590661936, 1514771178, 4222992160, 1781653597, 4032544109, 0] (Block.MixColumns (Block.ShiftRows (Block.SubBytes (⟨146, 139, 184, 193, 247, 80, 19, 176, 4, 134, 29, 30, 239, 116, 182, 231⟩ : Block))))) from rfl, hzu6, hza6]
        rw [show cipherLoop [0, 0, 0, 0, 1633903459, 1633903459, 1633903459, 1633903459, 2660800652, 4294704111, 2660800652, 4294704111, 2576828314, 1718402165, 4176749817, 118480662, 4278779999, 2573581354, 1636931795, 1721649093, 3567887980, 1305221702, 744325781, 1254344016, 3121608122, 4156813308, 3684593001, 2438834233, 1993205563, 2165180615, 1519412654, 3419262359, 3497029412, 1367238627, 200147533, 3223572442, 3237623966, 2441371517, 2590661936, 1514771178, 4222992160, 1781653597, 4032544109, 0] 6 3 (⟨225, 118, 129, 44, 223, 165, 85, 234, 214, 93, 20, 123, 87, 167, 85, 79⟩ : Block) = cipherLoop [0, 0, 0, 0, 1633903459, 1633903459, 1633903459, 1633903459, 2660800652, 4294704111, 2660800652, 4294704111, 2576828314, 1718402165, 4176749817, 118480662, 4278779999, 2573581354, 1636931795, 1721649093, 3567887980, 1305221702, 744325781, 1254344016, 3121608122, 4156813308, 3684593001, 2438834233, 1993205563, 2165180615, 1519412654, 3419262359, 3497029412, 1367238627, 200147533, 3223572442, 3237623966, 2441371517, 2590661936, 1514771178, 4222992160, 1781653597, 4032544109, 0] 7 2 (Block.AddRoundKey 7 [0, 0, 0, 0, 1633903459, 1633903459, 1633903459, 1633903459, 2660800652, 4294704111, 2660800652, 4294704111, 2576828314, 1718402165, 4176749817, 118480662, 4278779999, 2573581354, 1636931795, 1721649093, 3567887980, 1305221702, 744325781, 1254344016, 3121608122, 4156813308, 3684593001, 2438834233, 1993205563, 2165180615, 1519412654, 3419262359, 3497029412, 1367238627, 200147533, 3223572442, 3237623966, 2441371517, 2590661936, 1514771178, 4222992160, 1781653597, 4032544109, 0] (Block.MixColumns (Block.ShiftRows (Block.SubBytes (⟨225, 118, 129, 44, 223, 165, 85, 234, 214, 93, 20, 123, 87, 167, 85, 79⟩ : Block))))) from rfl, hzu7, hza7]
        rw [show cipherLoop [0, 0, 0, 0, 1633903459, 1633903459, 1633903459, 1633903459, 2660800652, 4294704111, 2660800652, 4294704111, 2576828314, 1718402165, 4176749817, 118480662, 4278779999, 2573581354, 1636931795, 1721649093, 3567887980, 1305221702, 744325781, 1254344016, 3121608122, 4156813308, 3684593001, 2438834233, 1993205563, 2165180615, 1519412654, 3419262359, 3497029412, 1367238627, 200147533, 3223572442, 3237623966, 2441371517, 2590661936, 1514771178, 4222992160, 1781653597, 4032544109, 0] 7 2 (⟨164, 162, 40, 107, 153, 96, 199, 38, 85, 211, 176, 137, 85, 148, 185, 160⟩ : Block) = cipherLoop [0, 0, 0, 0, 1633903459, 1633903459, 1633903459, 1633903459, 2660800652, 4294704111, 2660800652, 4294704111, 2576828314, 1718402165, 4176749817, 118480662, 4278779999, 2573581354, 1636931795, 1721649093, 3567887980, 1305221702, 744325781, 1254344016, 3121608122, 4156813308, 3684593001, 2438834233, 1993205563, 2165180615, 1519412654, 3419262359, 3497029412, 1367238627, 200147533, 3223572442, 3237623966, 2441371517, 2590661936, 1514771178, 4222992160, 1781653597, 4032544109, 0] 8 1 (Block.AddRoundKey 8 [0, 0, 0, 0, 1633903459, 1633903459, 1633903459, 1633903459, 2660800652, 4294704111, 2660800652, 4294704111, 2576828314, 1718402165, 4176749817, 118480662, 4278779999, 2573581354, 1636931795, 1721649093, 3567887980, 1305221702, 744325781, 1254344016, 3121608122, 4156813308, 3684593001, 2438834233, 1993205563, 2165180615, 1519412654, 3419262359, 3497029412, 1367238627, 200147533, 3223572442, 3237623966, 2441371517, 2590661936, 1514771178, 4222992160, 1781653597, 4032544109, 0] (Block.MixColumns (Block.ShiftRows (Block.SubBytes (⟨164, 162, 40, 107, 153, 96, 199, 38, 85, 211, 176, 137, 85, 148, 185, 160⟩ : Block))))) from rfl, hzu8, hza8]
        rw [show cipherLoop [0, 0, 0, 0, 1633903459, 1633903459, 1633903459, 1633903459, 2660800652, 4294704111, 2660800652, 4294704111, 2576828314, 1718402165, 4176749817, 118480662, 4278779999, 2573581354, 1636931795, 1721649093, 3567887980, 1305221702, 744325781, 1254344016, 3121608122, 4156813308, 3684593001, 2438834233, 1993205563, 2165180615, 1519412654, 3419262359, 3497029412, 1367238627, 200147533, 3223572442, 3237623966, 2441371517, 2590661936, 1514771178, 4222992160, 1781653597, 4032544109, 0] 8 1 (⟨218, 195, 58, 237, 43, 192, 167, 40, 54, 109, 90, 223, 28, 47, 168, 118⟩ : Block) = cipherLoop [0, 0, 0, 0, 1633903459, 1633903459, 1633903459, 1633903459, 2660800652, 4294704111, 2660800652, 4294704111, 2576828314, 1718402165, 4176749817, 118480662, 4278779999, 2573581354, 1636931795, 1721649093, 3567887980, 1305221702, 744325781, 1254344016, 3121608122, 4156813308, 3684593001, 2438834233, 1993205563, 2165180615, 1519412654, 3419262359, 3497029412, 1367238627, 200147533, 3223572442, 3237623966, 2441371517, 2590661936, 1514771178, 4222992160, 1781653597, 4032544109, 0] 9 0 (Block.AddRoundKey 9 [0, 0, 0, 0, 1633903459, 1633903459, 1633903459, 1633903459, 2660800652, 4294704111, 2660800652, 4294704111, 2576828314, 1718402165, 4176749817, 118480662, 4278779999, 2573581354, 1636931795, 1721649093, 3567887980, 1305221702, 744325781, 1254344016, 3121608122, 4156813308, 3684593001, 2438834233, 1993205563, 2165180615, 1519412654, 3419262359, 3497029412, 1367238627, 200147533, 3223572442, 3237623966, 2441371517, 2590661936, 1514771178, 4222992160, 1781653597, 4032544109, 0] (Block.MixColumns (Block.ShiftRows (Block.SubBytes (⟨218, 195, 58, 237, 43, 192, 167, 40, 54, 109, 90, 223, 28, 47, 168, 118⟩ : Block))))) from rfl, hzu9, hza9]
        rw [show cipherLoop [0, 0, 0, 0, 1633903459, 1633903459, 1633903459, 1633903459, 2660800652, 4294704111, 2660800652, 4294704111, 2576828314, 1718402165, 4176749817, 118480662, 4278779999, 2573581354, 1636931795, 1721649093, 3567887980, 1305221702, 744325781, 1254344016, 3121608122, 4156813308, 3684593001, 2438834233, 1993205563, 2165180615, 1519412654, 3419262359, 3497029412, 1367238627, 200147533, 3223572442, 3237623966, 2441371517, 2590661936, 1514771178, 4222992160, 1781653597, 4032544109, 0] 9 0 (⟨99, 164, 242, 103, 18, 222, 240, 206, 123, 4, 61, 187, 83, 43, 41, 176⟩ : Block) = (⟨99, 164, 242, 103, 18, 222, 240, 206, 123, 4, 61, 187, 83, 43, 41, 176⟩ : Block) from rfl, hzu10]
        exact hza10
      show (((toBlocks (List.replicate 16 0)).map (cipherBlock [0, 0, 0, 0, 1633903459, 1633903459, 1633903459, 1633903459, 2660800652, 4294704111, 2660800652, 4294704111, 2576828314, 1718402165, 4176749817, 118480662, 4278779999, 2573581354, 1636931795, 1721649093, 3567887980, 1305221702, 744325781, 1254344016, 3121608122, 4156813308, 3684593001, 2438834233, 1993205563, 2165180615, 1519412654, 3419262359, 3497029412, 1367238627, 200147533, 3223572442, 3237623966, 2441371517, 2590661936, 1514771178, 4222992160, 1781653597, 4032544109, 0] 10)).map Block.serialize).flatten = [101, 96, 23, 13, 241, 173, 248, 23, 219, 117, 227, 194, 45, 216, 22, 176]
      rw [show toBlocks (List.replicate 16 0) = [(⟨0, 0, 0, 0, 0, 0, 0, 0, 0, 0, 0, 0, 0, 0, 0, 0⟩ : Block)] from rfl]
      simp only [List.map_cons, List.map_nil, List.flatten_cons, List.flatten_nil, List.append_nil]
      rw [hzcb]
      rfl
    intro heq
    rw [key.expansionZero, hcs] at heq
    exact absurd heq (by decide!)

/-- Claim C3: the claim states that aes::Cipher maps the FIPS-197 test plaintext to the
standard ciphertext 3ad77bb40d7a3660a89ecaf32466ef97 under the FIPS-197 AES-128 key
loaded as two little-endian 64-bit words.  The code instead produces
b03a8d5f77e552f5d1e13448534adad2 (its key schedule uses Rcon with an off-by-one index,
rotates key words in the opposite direction, and applies round keys transposed). -/
theorem cipher_fips_vector_fails :
    Cipher [0x6b,0xc1,0xbe,0xe2,0x2e,0x40,0x9f,0x96,0xe9,0x3d,0x7e,0x11,0x73,0x93,0x17,0x2a]
        ⟨0xa6d2ae2816157e2b, 0x3c4fcf098815f7ab, 0, 0⟩ 10 =
      some [0xb0,0x3a,0x8d,0x5f,0x77,0xe5,0x52,0xf5,0xd1,0xe1,0x34,0x48,0x53,0x4a,0xda,0xd2] ∧
    [0xb0,0x3a,0x8d,0x5f,0x77,0xe5,0x52,0xf5,0xd1,0xe1,0x34,0x48,0x53,0x4a,0xda,0xd2] ≠
      [0x3a,0xd7,0x7b,0xb4,0x0d,0x7a,0x36,0x60,0xa8,0x9e,0xca,0xf3,0x24,0x66,0xef,0x97] := by
  refine ⟨?_, by decide⟩
  have hq0 : Block.AddRoundKey 0 [370507307, 2798825000, 2283141035, 1011863305, 2426372032, 911069672, 3193448003, 2182605130, 1686219219, 1389131835, 3969146488, 1854125874, 2150140492, 3538219639, 1047571471, 1358109501, 2642914591, 1331912552, 1897132903, 568387674, 1545343970, 327109770, 1651294189, 1133270967, 2017966840, 1798895218, 156518815, 1255677480, 2570423854, 4060969052, 4216926659, 2978033643, 2384488422, 2083332026, 2272538233, 922026386, 1583098083, 577845081, 2768574752, 2481985714, 3539017535, 4034930790, 1434792262, 0] (⟨107, 193, 190, 226, 46, 64, 159, 150, 233, 61, 126, 17, 115, 147, 23, 42⟩ : Block) = (⟨64, 233, 21, 235, 80, 238, 104, 89, 252, 239, 107, 94, 101, 53, 159, 22⟩ : Block) := by decide!
  have hqu1 : Block.SubBytes (⟨64, 233, 21, 235, 80, 238, 104, 89, 252, 239, 107, 94, 101, 53, 159, 22⟩ : Block) = (⟨9, 30, 89, 233, 83, 40, 69, 203, 176, 223, 127, 88, 77, 150, 219, 71⟩ : Block) := by
    show (⟨sboxByte 64, sboxByte 233, sboxByte 21, sboxByte 235, sboxByte 80, sboxByte 238, sboxByte 104, sboxByte 89, sboxByte 252, sboxByte 239, sboxByte 107, sboxByte 94, sboxByte 101, sboxByte 53, sboxByte 159, sboxByte 22⟩ : Block) = (⟨9, 30, 89, 233, 83, 40, 69, 203, 176, 223, 127, 88, 77, 150, 219, 71⟩ : Block)
    simp only [sboxV21, sboxV22, sboxV53, sboxV64, sboxV80, sboxV89, sboxV94, sboxV101, sboxV104, sboxV107, sboxV159, sboxV233, sboxV235, sboxV238, sboxV239, sboxV252]
  have hqa1 : Block.AddRoundKey 1 [370507307, 2798825000, 2283141035, 1011863305, 2426372032, 911069672, 3193448003, 2182605130, 1686219219, 1389131835, 3969146488, 1854125874, 2150140492, 3538219639, 1047571471, 1358109501, 2642914591, 1331912552, 1897132903, 568387674, 1545343970, 327109770, 1651294189, 1133270967, 2017966840, 1798895218, 156518815, 1255677480, 2570423854, 4060969052, 4216926659, 2978033643, 2384488422, 2083332026, 2272538233, 922026386, 1583098083, 577845081, 2768574752, 2481985714, 3539017535, 4034930790, 1434792262, 0] (Block.MixColumns (Block.ShiftRows (⟨9, 30, 89, 233, 83, 40, 69, 203, 176, 223, 127, 88, 77, 150, 219, 71⟩ : Block))) = (⟨146, 119, 85, 136, 145, 184, 39, 209, 215, 234, 138, 158, 53, 208, 143, 190⟩ : Block) := by decide!
  have hqu2 : Block.SubBytes (⟨146, 119, 85, 136, 145, 184, 39, 209, 215, 234, 138, 158, 53, 208, 143, 190⟩ : Block) = (⟨79, 245, 252, 196, 129, 108, 204, 62, 14, 135, 126, 11, 150, 112, 115, 174⟩ : Block) := by
    show (⟨sboxByte 146, sboxByte 119, sboxByte 85, sboxByte 136, sboxByte 145, sboxByte 184, sboxByte 39, sboxByte 209, sboxByte 215, sboxByte 234, sboxByte 138, sboxByte 158, sboxByte 53, sboxByte 208, sboxByte 143, sboxByte 190⟩ : Block) = (⟨79, 245, 252, 196, 129, 108, 204, 62, 14, 135, 126, 11, 150, 112, 115, 174⟩ : Block)
    simp only [sboxV39, sboxV53, sboxV85, sboxV119, sboxV136, sboxV138, sboxV143, sboxV145, sboxV146, sboxV158, sboxV184, sboxV190, sboxV208, sboxV209, sboxV215, sboxV234]
  have hqa2 : Block.AddRoundKey 2 [370507307, 2798825000, 2283141035, 1011863305, 2426372032, 911069672, 3193448003, 2182605130, 1686219219, 1389131835, 3969146488, 1854125874, 2150140492, 3538219639, 1047571471, 1358109501, 2642914591, 1331912552, 1897132903, 568387674, 1545343970, 327109770, 1651294189, 1133270967, 2017966840, 1798895218, 156518815, 1255677480, 2570423854, 4060969052, 4216926659, 2978033643, 2384488422, 2083332026, 2272538233, 922026386, 1583098083, 577845081, 2768574752, 2481985714, 3539017535, 4034930790, 1434792262, 0] (Block.MixColumns (Block.ShiftRows (⟨79, 245, 252, 196, 129, 108, 204, 62, 14, 135, 126, 11, 150, 112, 115, 174⟩ : Block))) = (⟨41, 128, 78, 182, 149, 189, 233, 72, 207, 3, 75, 97, 144, 113, 17, 224⟩ : Block) := by decide!
  have hqu3 : Block.SubBytes (⟨41, 128, 78, 182, 149, 189, 233, 72, 207, 3, 75, 97, 144, 113, 17, 224⟩ : Block) = (⟨165, 205, 47, 78, 42, 122, 30, 82, 138, 123, 179, 239, 96, 163, 130, 225⟩ : Block) := by
    show (⟨sboxByte 41, sboxByte 128, sboxByte 78, sboxByte 182, sboxByte 149, sboxByte 189, sboxByte 233, sboxByte 72, sboxByte 207, sboxByte 3, sboxByte 75, sboxByte 97, sboxByte 144, sboxByte 113, sboxByte 17, sboxByte 224⟩ : Block) = (⟨165, 205, 47, 78, 42, 122, 30, 82, 138, 123, 179, 239, 96, 163, 130, 225⟩ : Block)
    simp only [sboxV3, sboxV17, sboxV41, sboxV72, sboxV75, sboxV78, sboxV97, sboxV113, sboxV128, sboxV144, sboxV149, sboxV182, sboxV189, sboxV207, sboxV224, sboxV233]
  have hqa3 : Block.AddRoundKey 3 [370507307, 2798825000, 2283141035, 1011863305, 2426372032, 911069672, 3193448003, 2182605130, 1686219219, 1389131835, 3969146488, 1854125874, 2150140492, 3538219639, 1047571471, 1358109501, 2642914591, 1331912552, 1897132903, 568387674, 1545343970, 327109770, 1651294189, 1133270967, 2017966840, 1798895218, 156518815, 1255677480, 2570423854, 4060969052, 4216926659, 2978033643, 2384488422, 2083332026, 2272538233, 922026386, 1583098083, 577845081, 2768574752, 2481985714, 3539017535, 4034930790, 1434792262, 0] (Block.MixColumns (Block.ShiftRows (⟨165, 205, 47, 78, 42, 122, 30, 82, 138, 123, 179, 239, 96, 163, 130, 225⟩ : Block))) = (⟨193, 9, 149, 217, 159, 253, 48, 0, 164, 16, 241, 94, 253, 254, 133, 230⟩ : Block) := by decide!
  have hqu4 : Block.SubBytes (⟨193, 9, 149, 217, 159, 253, 48, 0, 164, 16, 241, 94, 253, 254, 133, 230⟩ : Block) = (⟨120, 1, 42, 53, 219, 84, 4, 99, 73, 202, 161, 88, 84, 187, 151, 142⟩ : Block) := by
    show (⟨sboxByte 193, sboxByte 9, sboxByte 149, sboxByte 217, sboxByte 159, sboxByte 253, sboxByte 48, sboxByte 0, sboxByte 164, sboxByte 16, sboxByte 241, sboxByte 94, sboxByte 253, sboxByte 254, sboxByte 133, sboxByte 230⟩ : Block) = (⟨120, 1, 42, 53, 219, 84, 4, 99, 73, 202, 161, 88, 84, 187, 151, 142⟩ : Block)
    simp only [sboxV0, sboxV9, sboxV16, sboxV48, sboxV94, sboxV133, sboxV149, sboxV159, sboxV164, sboxV193, sboxV217, sboxV230, sboxV241, sboxV253, sboxV254]
  have hqa4 : Block.AddRoundKey 4 [370507307, 2798825000, 2283141035, 1011863305, 2426372032, 911069672, 3193448003, 2182605130, 1686219219, 1389131835, 3969146488, 1854125874, 2150140492, 3538219639, 1047571471, 1358109501, 2642914591, 1331912552, 1897132903, 568387674, 1545343970, 327109770, 1651294189, 1133270967, 2017966840, 1798895218, 156518815, 1255677480, 2570423854, 4060969052, 4216926659, 2978033643, 2384488422, 2083332026, 2272538233, 922026386, 1583098083, 577845081, 2768574752, 2481985714, 3539017535, 4034930790, 1434792262, 0] (Block.MixColumns (Block.ShiftRows (⟨120, 1, 42, 53, 219, 84, 4, 99, 73, 202, 161, 88, 84, 187, 151, 142⟩ : Block))) = (⟨60, 206, 155, 32, 231, 156, 136, 169, 138, 90, 16, 108, 106, 77, 196, 104⟩ : Block) := by decide!
  have hqu5 : Block.SubBytes (⟨60, 206, 155, 32, 231, 156, 136, 169, 138, 90, 16, 108, 106, 77, 196, 104⟩ : Block) = (⟨235, 139, 20, 183, 148, 222, 196, 211, 126, 190, 202, 80, 2, 227, 28, 69⟩ : Block) := by
    show (⟨sboxByte 60, sboxByte 206, sboxByte 155, sboxByte 32, sboxByte 231, sboxByte 156, sboxByte 136, sboxByte 169, sboxByte 138, sboxByte 90, sboxByte 16, sboxByte 108, sboxByte 106, sboxByte 77, sboxByte 196, sboxByte 104⟩ : Block) = (⟨235, 139, 20, 183, 148, 222, 196, 211, 126, 190, 202, 80, 2, 227, 28, 69⟩ : Block)
    simp only [sboxV16, sboxV32, sboxV60, sboxV77, sboxV90, sboxV104, sboxV106, sboxV108, sboxV136, sboxV138, sboxV155, sboxV156, sboxV169, sboxV196, sboxV206, sboxV231]
  have hqa5 : Block.AddRoundKey 5 [370507307, 2798825000, 2283141035, 1011863305, 2426372032, 911069672, 3193448003, 2182605130, 1686219219, 1389131835, 3969146488, 1854125874, 2150140492, 3538219639, 1047571471, 1358109501, 2642914591, 1331912552, 1897132903, 568387674, 1545343970, 327109770, 1651294189, 1133270967, 2017966840, 1798895218, 156518815, 1255677480, 2570423854, 4060969052, 4216926659, 2978033643, 2384488422, 2083332026, 2272538233, 922026386, 1583098083, 577845081, 2768574752, 2481985714, 3539017535, 4034930790, 1434792262, 0] (Block.MixColumns (Block.ShiftRows (⟨235, 139, 20, 183, 148, 222, 196, 211, 126, 190, 202, 80, 2, 227, 28, 69⟩ : Block))) = (⟨217, 198, 152, 15, 82, 44, 111, 39, 25, 51, 183, 68, 74, 27, 136, 170⟩ : Block) := by decide!
  have hqu6 : Block.SubBytes (⟨217, 198, 152, 15, 82, 44, 111, 39, 25, 51, 183, 68, 74, 27, 136, 170⟩ : Block) = (⟨53, 180, 70, 118, 0, 113, 168, 204, 212, 195, 169, 27, 214, 175, 196, 172⟩ : Block) := by
    show (⟨sboxByte 217, sboxByte 198, sboxByte 152, sboxByte 15, sboxByte 82, sboxByte 44, sboxByte 111, sboxByte 39, sboxByte 25, sboxByte 51, sboxByte 183, sboxByte 68, sboxByte 74, sboxByte 27, sboxByte 136, sboxByte 170⟩ : Block) = (⟨53, 180, 70, 118, 0, 113, 168, 204, 212, 195, 169, 27, 214, 175, 196, 172⟩ : Block)
    simp only [sboxV15, sboxV25, sboxV27, sboxV39, sboxV44, sboxV51, sboxV68, sboxV74, sboxV82, sboxV111, sboxV136, sboxV152, sboxV170, sboxV183, sboxV198, sboxV217]
  have hqa6 : Block.AddRoundKey 6 [370507307, 2798825000, 2283141035, 1011863305, 2426372032, 911069672, 3193448003, 2182605130, 1686219219, 1389131835, 3969146488, 1854125874, 2150140492, 3538219639, 1047571471, 1358109501, 2642914591, 1331912552, 1897132903, 568387674, 1545343970, 327109770, 1651294189, 1133270967, 2017966840, 1798895218, 156518815, 1255677480, 2570423854, 4060969052, 4216926659, 2978033643, 2384488422, 2083332026, 2272538233, 922026386, 1583098083, 577845081, 2768574752, 2481985714, 3539017535, 4034930790, 1434792262, 0] (Block.MixColumns (Block.ShiftRows (⟨53, 180, 70, 118, 0, 113, 168, 204, 212, 195, 169, 27, 214, 175, 196, 172⟩ : Block))) = (⟨4, 233, 125, 236, 86, 74, 131, 245, 148, 175, 236, 213, 187, 54, 13, 1⟩ : Block) := by decide!
  have hqu7 : Block.SubBytes (⟨4, 233, 125, 236, 86, 74, 131, 245, 148, 175, 236, 213, 187, 54, 13, 1⟩ : Block) = (⟨242, 30, 255, 206, 177, 214, 236, 230, 34, 121, 206, 3, 234, 5, 215, 124⟩ : Block) := by
    show (⟨sboxByte 4, sboxByte 233, sboxByte 125, sboxByte 236, sboxByte 86, sboxByte 74, sboxByte 131, sboxByte 245, sboxByte 148, sboxByte 175, sboxByte 236, sboxByte 213, sboxByte 187, sboxByte 54, sboxByte 13, sboxByte 1⟩ : Block) = (⟨242, 30, 255, 206, 177, 214, 236, 230, 34, 121, 206, 3, 234, 5, 215, 124⟩ : Block)
    simp only [sboxV1, sboxV4, sboxV13, sboxV54, sboxV74, sboxV86, sboxV125, sboxV131, sboxV148, sboxV175, sboxV187, sboxV213, sboxV233, sboxV236, sboxV245]
  have hqa7 : Block.AddRoundKey 7 [370507307, 2798825000, 2283141035, 1011863305, 2426372032, 911069672, 3193448003, 2182605130, 1686219219, 1389131835, 3969146488, 1854125874, 2150140492, 3538219639, 1047571471, 1358109501, 2642914591, 1331912552, 1897132903, 568387674, 1545343970, 327109770, 1651294189, 1133270967, 2017966840, 1798895218, 156518815, 1255677480, 2570423854, 4060969052, 4216926659, 2978033643, 2384488422, 2083332026, 2272538233, 922026386, 1583098083, 577845081, 2768574752, 2481985714, 3539017535, 4034930790, 1434792262, 0] (Block.MixColumns (Block.ShiftRows (⟨242, 30, 255, 206, 177, 214, 236, 230, 34, 121, 206, 3, 234, 5, 215, 124⟩ : Block))) = (⟨2, 44, 228, 6, 101, 151, 5, 206, 103, 217, 170, 202, 155, 8, 201, 96⟩ : Block) := by decide!
  have hqu8 : Block.SubBytes (⟨2, 44, 228, 6, 101, 151, 5, 206, 103, 217, 170, 202, 155, 8, 201, 96⟩ : Block) = (⟨119, 113, 105, 111, 77, 136, 107, 139, 133, 53, 172, 116, 20, 48, 221, 208⟩ : Block) := by
    show (⟨sboxByte 2, sboxByte 44, sboxByte 228, sboxByte 6, sboxByte 101, sboxByte 151, sboxByte 5, sboxByte 206, sboxByte 103, sboxByte 217, sboxByte 170, sboxByte 202, sboxByte 155, sboxByte 8, sboxByte 201, sboxByte 96⟩ : Block) = (⟨119, 113, 105, 111, 77, 136, 107, 139, 133, 53, 172, 116, 20, 48, 221, 208⟩ : Block)
    simp only [sboxV2, sboxV5, sboxV6, sboxV8, sboxV44, sboxV96, sboxV101, sboxV103, sboxV151, sboxV155, sboxV170, sboxV201, sboxV202, sboxV206, sboxV217, sboxV228]
  have hqa8 : Block.AddRoundKey 8 [370507307, 2798825000, 2283141035, 1011863305, 2426372032, 911069672, 3193448003, 2182605130, 1686219219, 1389131835, 3969146488, 1854125874, 2150140492, 3538219639, 1047571471, 1358109501, 2642914591, 1331912552, 1897132903, 568387674, 1545343970, 327109770, 1651294189, 1133270967, 2017966840, 1798895218, 156518815, 1255677480, 2570423854, 4060969052, 4216926659, 2978033643, 2384488422, 2083332026, 2272538233, 922026386, 1583098083, 577845081, 2768574752, 2481985714, 3539017535, 4034930790, 1434792262, 0] (Block.MixColumns (Block.ShiftRows (⟨119, 113, 105, 111, 77, 136, 107, 139, 133, 53, 172, 116, 20, 48, 221, 208⟩ : Block))) = (⟨247, 249, 174, 148, 16, 43, 70, 224, 131, 248, 149, 53, 42, 67, 168, 248⟩ : Block) := by decide!
  have hqu9 : Block.SubBytes (⟨247, 249, 174, 148, 16, 43, 70, 224, 131, 248, 149, 53, 42, 67, 168, 248⟩ : Block) = (⟨104, 153, 228, 34, 202, 241, 90, 225, 236, 65, 42, 150, 229, 26, 194, 65⟩ : Block) := by
    show (⟨sboxByte 247, sboxByte 249, sboxByte 174, sboxByte 148, sboxByte 16, sboxByte 43, sboxByte 70, sboxByte 224, sboxByte 131, sboxByte 248, sboxByte 149, sboxByte 53, sboxByte 42, sboxByte 67, sboxByte 168, sboxByte 248⟩ : Block) = (⟨104, 153, 228, 34, 202, 241, 90, 225, 236, 65, 42, 150, 229, 26, 194, 65⟩ : Block)
    simp only [sboxV16, sboxV42, sboxV43, sboxV53, sboxV67, sboxV70, sboxV131, sboxV148, sboxV149, sboxV168, sboxV174, sboxV224, sboxV247, sboxV248, sboxV249]
  have hqa9 : Block.AddRoundKey 9 [370507307, 2798825000, 2283141035, 1011863305, 2426372032, 911069672, 3193448003, 2182605130, 1686219219, 1389131835, 3969146488, 1854125874, 2150140492, 3538219639, 1047571471, 1358109501, 2642914591, 1331912552, 1897132903, 568387674, 1545343970, 327109770, 1651294189, 1133270967, 2017966840, 1798895218, 156518815, 1255677480, 2570423854, 4060969052, 4216926659, 2978033643, 2384488422, 2083332026, 2272538233, 922026386, 1583098083, 577845081, 2768574752, 2481985714, 3539017535, 4034930790, 1434792262, 0] (Block.MixColumns (Block.ShiftRows (⟨104, 153, 228, 34, 202, 241, 90, 225, 236, 65, 42, 150, 229, 26, 194, 65⟩ : Block))) = (⟨80, 247, 46, 83, 132, 0, 107, 154, 180, 127, 24, 248, 243, 150, 204, 83⟩ : Block) := by decide!
  have hqu10 : Block.SubBytes (⟨80, 247, 46, 83, 132, 0, 107, 154, 180, 127, 24, 248, 243, 150, 204, 83⟩ : Block) = (⟨83, 104, 49, 237, 95, 99, 127, 184, 141, 210, 173, 65, 13, 144, 75, 237⟩ : Block) := by
    show (⟨sboxByte 80, sboxByte 247, sboxByte 46, sboxByte 83, sboxByte 132, sboxByte 0, sboxByte 107, sboxByte 154, sboxByte 180, sboxByte 127, sboxByte 24, sboxByte 248, sboxByte 243, sboxByte 150, sboxByte 204, sboxByte 83⟩ : Block) = (⟨83, 104, 49, 237, 95, 99, 127, 184, 141, 210, 173, 65, 13, 144, 75, 237⟩ : Block)
    simp only [sboxV0, sboxV24, sboxV46, sboxV80, sboxV83, sboxV107, sboxV127, sboxV132, sboxV150, sboxV154, sboxV180, sboxV204, sboxV243, sboxV247, sboxV248]
  have hqa10 : Block.AddRoundKey 9 [370507307, 2798825000, 2283141035, 1011863305, 2426372032, 911069672, 3193448003, 2182605130, 1686219219, 1389131835, 3969146488, 1854125874, 2150140492, 3538219639, 1047571471, 1358109501, 2642914591, 1331912552, 1897132903, 568387674, 1545343970, 327109770, 1651294189, 1133270967, 2017966840, 1798895218, 156518815, 1255677480, 2570423854, 4060969052, 4216926659, 2978033643, 2384488422, 2083332026, 2272538233, 922026386, 1583098083, 577845081, 2768574752, 2481985714, 3539017535, 4034930790, 1434792262, 0] (Block.ShiftRows (⟨83, 104, 49, 237, 95, 99, 127, 184, 141, 210, 173, 65, 13, 144, 75, 237⟩ : Block)) = (⟨176, 58, 141, 95, 119, 229, 82, 245, 209, 225, 52, 72, 83, 74, 218, 210⟩ : Block) := by decide!
  have hqcb : cipherBlock [370507307, 2798825000, 2283141035, 1011863305, 2426372032, 911069672, 3193448003, 2182605130, 1686219219, 1389131835, 3969146488, 1854125874, 2150140492, 3538219639, 1047571471, 1358109501, 2642914591, 1331912552, 1897132903, 568387674, 1545343970, 327109770, 1651294189, 1133270967, 2017966840, 1798895218, 156518815, 1255677480, 2570423854, 4060969052, 4216926659, 2978033643, 2384488422, 2083332026, 2272538233, 922026386, 1583098083, 577845081, 2768574752, 2481985714, 3539017535, 4034930790, 1434792262, 0] 10 (⟨107, 193, 190, 226, 46, 64, 159, 150, 233, 61, 126, 17, 115, 147, 23, 42⟩ : Block) = (⟨176, 58, 141, 95, 119, 229, 82, 245, 209, 225, 52, 72, 83, 74, 218, 210⟩ : Block) := by
    show Block.AddRoundKey 9 [370507307, 2798825000, 2283141035, 1011863305, 2426372032, 911069672, 3193448003, 2182605130, 1686219219, 1389131835, 3969146488, 1854125874, 2150140492, 3538219639, 1047571471, 1358109501, 2642914591, 1331912552, 1897132903, 568387674, 1545343970, 327109770, 1651294189, 1133270967, 2017966840, 1798895218, 156518815, 1255677480, 2570423854, 4060969052, 4216926659, 2978033643, 2384488422, 2083332026, 2272538233, 922026386, 1583098083, 577845081, 2768574752, 2481985714, 3539017535, 4034930790, 1434792262, 0] (Block.ShiftRows (Block.SubBytes (cipherLoop [370507307, 2798825000, 2283141035, 1011863305, 2426372032, 911069672, 3193448003, 2182605130, 1686219219, 1389131835, 3969146488, 1854125874, 2150140492, 3538219639, 1047571471, 1358109501, 2642914591, 1331912552, 1897132903, 568387674, 1545343970, 327109770, 1651294189, 1133270967, 2017966840, 1798895218, 156518815, 1255677480, 2570423854, 4060969052, 4216926659, 2978033643, 2384488422, 2083332026, 2272538233, 922026386, 1583098083, 577845081, 2768574752, 2481985714, 3539017535, 4034930790, 1434792262, 0] 0 9 (Block.AddRoundKey 0 [370507307, 2798825000, 2283141035, 1011863305, 2426372032, 911069672, 3193448003, 2182605130, 1686219219, 1389131835, 3969146488, 1854125874, 2150140492, 3538219639, 1047571471, 1358109501, 2642914591, 1331912552, 1897132903, 568387674, 1545343970, 327109770, 1651294189, 1133270967, 2017966840, 1798895218, 156518815, 1255677480, 2570423854, 4060969052, 4216926659, 2978033643, 2384488422, 2083332026, 2272538233, 922026386, 1583098083, 577845081, 2768574752, 2481985714, 3539017535, 4034930790, 1434792262, 0] (⟨107, 193, 190, 226, 46, 64, 159, 150, 233, 61, 126, 17, 115, 147, 23, 42⟩ : Block))))) = (⟨176, 58, 141, 95, 119, 229, 82, 245, 209, 225, 52, 72, 83, 74, 218, 210⟩ : Block)
    rw [hq0]
    rw [show cipherLoop [370507307, 2798825000, 2283141035, 1011863305, 2426372032, 911069672, 3193448003, 2182605130, 1686219219, 1389131835, 3969146488, 1854125874, 2150140492, 3538219639, 1047571471, 1358109501, 2642914591, 1331912552, 1897132903, 568387674, 1545343970, 327109770, 1651294189, 1133270967, 2017966840, 1798895218, 156518815, 1255677480, 2570423854, 4060969052, 4216926659, 2978033643, 2384488422, 2083332026, 2272538233, 922026386, 1583098083, 577845081, 2768574752, 2481985714, 3539017535, 4034930790, 1434792262, 0] 0 9 (⟨64, 233, 21, 235, 80, 238, 104, 89, 252, 239, 107, 94, 101, 53, 159, 22⟩ : Block) = cipherLoop [370507307, 2798825000, 2283141035, 1011863305, 2426372032, 911069672, 3193448003, 2182605130, 1686219219, 1389131835, 3969146488, 1854125874, 2150140492, 3538219639, 1047571471, 1358109501, 2642914591, 1331912552, 1897132903, 568387674, 1545343970, 327109770, 1651294189, 1133270967, 2017966840, 1798895218, 156518815, 1255677480, 2570423854, 4060969052, 4216926659, 2978033643, 2384488422, 2083332026, 2272538233, 922026386, 1583098083, 577845081, 2768574752, 2481985714, 3539017535, 4034930790, 1434792262, 0] 1 8 (Block.AddRoundKey 1 [370507307, 2798825000, 2283141035, 1011863305, 2426372032, 911069672, 3193448003, 2182605130, 1686219219, 1389131835, 3969146488, 1854125874, 2150140492, 3538219639, 1047571471, 1358109501, 2642914591, 1331912552, 1897132903, 568387674, 1545343970, 327109770, 1651294189, 1133270967, 2017966840, 1798895218, 156518815, 1255677480, 2570423854, 4060969052, 4216926659, 2978033643, 2384488422, 2083332026, 2272538233, 922026386, 1583098083, 577845081, 2768574752, 2481985714, 3539017535, 4034930790, 1434792262, 0] (Block.MixColumns (Block.ShiftRows (Block.SubBytes (⟨64, 233, 21, 235, 80, 238, 104, 89, 252, 239, 107, 94, 101, 53, 159, 22⟩ : Block))))) from rfl, hqu1, hqa1]
    rw [show cipherLoop [370507307, 2798825000, 2283141035, 1011863305, 2426372032, 911069672, 3193448003, 2182605130, 1686219219, 1389131835, 3969146488, 1854125874, 2150140492, 3538219639, 1047571471, 1358109501, 2642914591, 1331912552, 1897132903, 568387674, 1545343970, 327109770, 1651294189, 1133270967, 2017966840, 1798895218, 156518815, 1255677480, 2570423854, 4060969052, 4216926659, 2978033643, 2384488422, 2083332026, 2272538233, 922026386, 1583098083, 577845081, 2768574752, 2481985714, 3539017535, 4034930790, 1434792262, 0] 1 8 (⟨146, 119, 85, 136, 145, 184, 39, 209, 215, 234, 138, 158, 53, 208, 143, 190⟩ : Block) = cipherLoop [370507307, 2798825000, 2283141035, 1011863305, 2426372032, 911069672, 3193448003, 2182605130, 1686219219, 1389131835, 3969146488, 1854125874, 2150140492, 3538219639, 1047571471, 1358109501, 2642914591, 1331912552, 1897132903, 568387674, 1545343970, 327109770, 1651294189, 1133270967, 2017966840, 1798895218, 156518815, 1255677480, 2570423854, 4060969052, 4216926659, 2978033643, 2384488422, 2083332026, 2272538233, 922026386, 1583098083, 577845081, 2768574752, 2481985714, 3539017535, 4034930790, 1434792262, 0] 2 7 (Block.AddRoundKey 2 [370507307, 2798825000, 2283141035, 1011863305, 2426372032, 911069672, 3193448003, 2182605130, 1686219219, 1389131835, 3969146488, 1854125874, 2150140492, 3538219639, 1047571471, 1358109501, 2642914591, 1331912552, 1897132903, 568387674, 1545343970, 327109770, 1651294189, 1133270967, 2017966840, 1798895218, 156518815, 1255677480, 2570423854, 4060969052, 4216926659, 2978033643, 2384488422, 2083332026, 2272538233, 922026386, 1583098083, 577845081, 2768574752, 2481985714, 3539017535, 4034930790, 1434792262, 0] (Block.MixColumns (Block.ShiftRows (Block.SubBytes (⟨146, 119, 85, 136, 145, 184, 39, 209, 215, 234, 138, 158, 53, 208, 143, 190⟩ : Block))))) from rfl, hqu2, hqa2]
    rw [show cipherLoop [370507307, 2798825000, 2283141035, 1011863305, 2426372032, 911069672, 3193448003, 2182605130, 1686219219, 1389131835, 3969146488, 1854125874, 2150140492, 3538219639, 1047571471, 1358109501, 2642914591, 1331912552, 1897132903, 568387674, 1545343970, 327109770, 1651294189, 1133270967, 2017966840, 1798895218, 156518815, 1255677480, 2570423854, 4060969052, 4216926659, 2978033643, 2384488422, 2083332026, 2272538233, 922026386, 1583098083, 577845081, 2768574752, 2481985714, 3539017535, 4034930790, 1434792262, 0] 2 7 (⟨41, 128, 78, 182, 149, 189, 233, 72, 207, 3, 75, 97, 144, 113, 17, 224⟩ : Block) = cipherLoop [370507307, 2798825000, 2283141035, 1011863305, 2426372032, 911069672, 3193448003, 2182605130, 1686219219, 1389131835, 3969146488, 1854125874, 2150140492, 3538219639, 1047571471, 1358109501, 2642914591, 1331912552, 1897132903, 568387674, 1545343970, 327109770, 1651294189, 1133270967, 2017966840, 1798895218, 156518815, 1255677480, 2570423854, 4060969052, 4216926659, 2978033643, 2384488422, 2083332026, 2272538233, 922026386, 1583098083, 577845081, 2768574752, 2481985714, 3539017535, 4034930790, 1434792262, 0] 3 6 (Block.AddRoundKey 3 [370507307, 2798825000, 2283141035, 1011863305, 2426372032, 911069672, 3193448003, 2182605130, 1686219219, 1389131835, 3969146488, 1854125874, 2150140492, 3538219639, 1047571471, 1358109501, 2642914591, 1331912552, 1897132903, 568387674, 1545343970, 327109770, 1651294189, 1133270967, 2017966840, 1798895218, 156518815, 1255677480, 2570423854, 4060969052, 4216926659, 2978033643, 2384488422, 2083332026, 2272538233, 922026386, 1583098083, 577845081, 2768574752, 2481985714, 3539017535, 4034930790, 1434792262, 0] (Block.MixColumns (Block.ShiftRows (Block.SubBytes (⟨41, 128, 78, 182, 149, 189, 233, 72, 207, 3, 75, 97, 144, 113, 17, 224⟩ : Block))))) from rfl, hqu3, hqa3]
    rw [show cipherLoop [370507307, 2798825000, 2283141035, 1011863305, 2426372032, 911069672, 3193448003, 2182605130, 1686219219, 1389131835, 3969146488, 1854125874, 2150140492, 3538219639, 1047571471, 1358109501, 2642914591, 1331912552, 1897132903, 568387674, 1545343970, 327109770, 1651294189, 1133270967, 2017966840, 1798895218, 156518815, 1255677480, 2570423854, 4060969052, 4216926659, 2978033643, 2384488422, 2083332026, 2272538233, 922026386, 1583098083, 577845081, 2768574752, 2481985714, 3539017535, 4034930790, 1434792262, 0] 3 6 (⟨193, 9, 149, 217, 159, 253, 48, 0, 164, 16, 241, 94, 253, 254, 133, 230⟩ : Block) = cipherLoop [370507307, 2798825000, 2283141035, 1011863305, 2426372032, 911069672, 3193448003, 2182605130, 1686219219, 1389131835, 3969146488, 1854125874, 2150140492, 3538219639, 1047571471, 1358109501, 2642914591, 1331912552, 1897132903, 568387674, 1545343970, 327109770, 1651294189, 1133270967, 2017966840, 1798895218, 156518815, 1255677480, 2570423854, 4060969052, 4216926659, 2978033643, 2384488422, 2083332026, 2272538233, 922026386, 1583098083, 577845081, 2768574752, 2481985714, 3539017535, 4034930790, 1434792262, 0] 4 5 (Block.AddRoundKey 4 [370507307, 2798825000, 2283141035, 1011863305, 2426372032, 911069672, 3193448003, 2182605130, 1686219219, 1389131835, 3969146488, 1854125874, 2150140492, 3538219639, 1047571471, 1358109501, 2642914591, 1331912552, 1897132903, 568387674, 1545343970, 327109770, 1651294189, 1133270967, 2017966840, 1798895218, 156518815, 1255677480, 2570423854, 4060969052, 4216926659, 2978033643, 2384488422, 2083332026, 2272538233, 922026386, 1583098083, 577845081, 2768574752, 2481985714, 3539017535, 4034930790, 1434792262, 0] (Block.MixColumns (Block.ShiftRows (Block.SubBytes (⟨193, 9, 149, 217, 159, 253, 48, 0, 164, 16, 241, 94, 253, 254, 133, 230⟩ : Block))))) from rfl, hqu4, hqa4]
    rw [show cipherLoop [370507307, 2798825000, 2283141035, 1011863305, 2426372032, 911069672, 3193448003, 2182605130, 1686219219, 1389131835, 3969146488, 1854125874, 2150140492, 3538219639, 1047571471, 1358109501, 2642914591, 1331912552, 1897132903, 568387674, 1545343970, 327109770, 1651294189, 1133270967, 2017966840, 1798895218, 156518815, 1255677480, 2570423854, 4060969052, 4216926659, 2978033643, 2384488422, 2083332026, 2272538233, 922026386, 1583098083, 577845081, 2768574752, 2481985714, 3539017535, 4034930790, 1434792262, 0] 4 5 (⟨60, 206, 155, 32, 231, 156, 136, 169, 138, 90, 16, 108, 106, 77, 196, 104⟩ : Block) = cipherLoop [370507307, 2798825000, 2283141035, 1011863305, 2426372032, 911069672, 3193448003, 2182605130, 1686219219, 1389131835, 3969146488, 1854125874, 2150140492, 3538219639, 1047571471, 1358109501, 2642914591, 1331912552, 1897132903, 568387674, 1545343970, 327109770, 1651294189, 1133270967, 2017966840, 1798895218, 156518815, 1255677480, 2570423854, 4060969052, 4216926659, 2978033643, 2384488422, 2083332026, 2272538233, 922026386, 1583098083, 577845081, 2768574752, 2481985714, 3539017535, 4034930790, 1434792262, 0] 5 4 (Block.AddRoundKey 5 [370507307, 2798825000, 2283141035, 1011863305, 2426372032, 911069672, 3193448003, 2182605130, 1686219219, 1389131835, 3969146488, 1854125874, 2150140492, 3538219639, 1047571471, 1358109501, 2642914591, 1331912552, 1897132903, 568387674, 1545343970, 327109770, 1651294189, 1133270967, 2017966840, 1798895218, 156518815, 1255677480, 2570423854, 4060969052, 4216926659, 2978033643, 2384488422, 2083332026, 2272538233, 922026386, 1583098083, 577845081, 2768574752, 2481985714, 3539017535, 4034930790, 1434792262, 0] (Block.MixColumns (Block.ShiftRows (Block.SubBytes (⟨60, 206, 155, 32, 231, 156, 136, 169, 138, 90, 16, 108, 106, 77, 196, 104⟩ : Block))))) from rfl, hqu5, hqa5]
    rw [show cipherLoop [370507307, 2798825000, 2283141035, 1011863305, 2426372032, 911069672, 3193448003, 2182605130, 1686219219, 1389131835, 3969146488, 1854125874, 2150140492, 3538219639, 1047571471, 1358109501, 2642914591, 1331912552, 1897132903, 568387674, 1545343970, 327109770, 1651294189, 1133270967, 2017966840, 1798895218, 156518815, 1255677480, 2570423854, 4060969052, 4216926659, 2978033643, 2384488422, 2083332026, 2272538233, 922026386, 1583098083, 577845081, 2768574752, 2481985714, 3539017535, 4034930790, 1434792262, 0] 5 4 (⟨217, 198, 152, 15, 82, 44, 111, 39, 25, 51, 183, 68, 74, 27, 136, 170⟩ : Block) = cipherLoop [370507307, 2798825000, 2283141035, 1011863305, 2426372032, 911069672, 3193448003, 2182605130, 1686219219, 1389131835, 3969146488, 1854125874, 2150140492, 3538219639, 1047571471, 1358109501, 2642914591, 1331912552, 1897132903, 568387674, 1545343970, 327109770, 1651294189, 1133270967, 2017966840, 1798895218, 156518815, 1255677480, 2570423854, 4060969052, 4216926659, 2978033643, 2384488422, 2083332026, 2272538233, 922026386, 1583098083, 577845081, 2768574752, 2481985714, 3539017535, 4034930790, 1434792262, 0] 6 3 (Block.AddRoundKey 6 [370507307, 2798825000, 2283141035, 1011863305, 2426372032, 911069672, 3193448003, 2182605130, 1686219219, 1389131835, 3969146488, 1854125874, 2150140492, 3538219639, 1047571471, 1358109501, 2642914591, 1331912552, 1897132903, 568387674, 1545343970, 327109770, 1651294189, 1133270967, 2017966840, 1798895218, 156518815, 1255677480, 2570423854, 4060969052, 4216926659, 2978033643, 2384488422, 2083332026, 2272538233, 922026386, 1583098083, 577845081, 2768574752, 2481985714, 3539017535, 4034930790, 1434792262, 0] (Block.MixColumns (Block.ShiftRows (Block.SubBytes (⟨217, 198, 152, 15, 82, 44, 111, 39, 25, 51, 183, 68, 74, 27, 136, 170⟩ : Block))))) from rfl, hqu6, hqa6]
    rw [show cipherLoop [370507307, 2798825000, 2283141035, 1011863305, 2426372032, 911069672, 3193448003, 2182605130, 1686219219, 1389131835, 3969146488, 1854125874, 2150140492, 3538219639, 1047571471, 1358109501, 2642914591, 1331912552, 1897132903, 568387674, 1545343970, 327109770, 1651294189, 1133270967, 2017966840, 1798895218, 156518815, 1255677480, 2570423854, 4060969052, 4216926659, 2978033643, 2384488422, 2083332026, 2272538233, 922026386, 1583098083, 577845081, 2768574752, 2481985714, 3539017535, 4034930790, 1434792262, 0] 6 3 (⟨4, 233, 125, 236, 86, 74, 131, 245, 148, 175, 236, 213, 187, 54, 13, 1⟩ : Block) = cipherLoop [370507307, 2798825000, 2283141035, 1011863305, 2426372032, 911069672, 3193448003, 2182605130, 1686219219, 1389131835, 3969146488, 1854125874, 2150140492, 3538219639, 1047571471, 1358109501, 2642914591, 1331912552, 1897132903, 568387674, 1545343970, 327109770, 1651294189, 1133270967, 2017966840, 1798895218, 156518815, 1255677480, 2570423854, 4060969052, 4216926659, 2978033643, 2384488422, 2083332026, 2272538233, 922026386, 1583098083, 577845081, 2768574752, 2481985714, 3539017535, 4034930790, 1434792262, 0] 7 2 (Block.AddRoundKey 7 [370507307, 2798825000, 2283141035, 1011863305, 2426372032, 911069672, 3193448003, 2182605130, 1686219219, 1389131835, 3969146488, 1854125874, 2150140492, 3538219639, 1047571471, 1358109501, 2642914591, 1331912552, 1897132903, 568387674, 1545343970, 327109770, 1651294189, 1133270967, 2017966840, 1798895218, 156518815, 1255677480, 2570423854, 4060969052, 4216926659, 2978033643, 2384488422, 2083332026, 2272538233, 922026386, 1583098083, 577845081, 2768574752, 2481985714, 3539017535, 4034930790, 1434792262, 0] (Block.MixColumns (Block.ShiftRows (Block.SubBytes (⟨4, 233, 125, 236, 86, 74, 131, 245, 148, 175, 236, 213, 187, 54, 13, 1⟩ : Block))))) from rfl, hqu7, hqa7]
    rw [show cipherLoop [370507307, 2798825000, 2283141035, 1011863305, 2426372032, 911069672, 3193448003, 2182605130, 1686219219, 1389131835, 3969146488, 1854125874, 2150140492, 3538219639, 1047571471, 1358109501, 2642914591, 1331912552, 1897132903, 568387674, 1545343970, 327109770, 1651294189, 1133270967, 2017966840, 1798895218, 156518815, 1255677480, 2570423854, 4060969052, 4216926659, 2978033643, 2384488422, 2083332026, 2272538233, 922026386, 1583098083, 577845081, 2768574752, 2481985714, 3539017535, 4034930790, 1434792262, 0] 7 2 (⟨2, 44, 228, 6, 101, 151, 5, 206, 103, 217, 170, 202, 155, 8, 201, 96⟩ : Block) = cipherLoop [370507307, 2798825000, 2283141035, 1011863305, 2426372032, 911069672, 3193448003, 2182605130, 1686219219, 1389131835, 3969146488, 1854125874, 2150140492, 3538219639, 1047571471, 1358109501, 2642914591, 1331912552, 1897132903, 568387674, 1545343970, 327109770, 1651294189, 1133270967, 2017966840, 1798895218, 156518815, 1255677480, 2570423854, 4060969052, 4216926659, 2978033643, 2384488422, 2083332026, 2272538233, 922026386, 1583098083, 577845081, 2768574752, 2481985714, 3539017535, 4034930790, 1434792262, 0] 8 1 (Block.AddRoundKey 8 [370507307, 2798825000, 2283141035, 1011863305, 2426372032, 911069672, 3193448003, 2182605130, 1686219219, 1389131835, 3969146488, 1854125874, 2150140492, 3538219639, 1047571471, 1358109501, 2642914591, 1331912552, 1897132903, 568387674, 1545343970, 327109770, 1651294189, 1133270967, 2017966840, 1798895218, 156518815, 1255677480, 2570423854, 4060969052, 4216926659, 2978033643, 2384488422, 2083332026, 2272538233, 922026386, 1583098083, 577845081, 2768574752, 2481985714, 3539017535, 4034930790, 1434792262, 0] (Block.MixColumns (Block.ShiftRows (Block.SubBytes (⟨2, 44, 228, 6, 101, 151, 5, 206, 103, 217, 170, 202, 155, 8, 201, 96⟩ : Block))))) from rfl, hqu8, hqa8]
    rw [show cipherLoop [370507307, 2798825000, 2283141035, 1011863305, 2426372032, 911069672, 3193448003, 2182605130, 1686219219, 1389131835, 3969146488, 1854125874, 2150140492, 3538219639, 1047571471, 1358109501, 2642914591, 1331912552, 1897132903, 568387674, 1545343970, 327109770, 1651294189, 1133270967, 2017966840, 1798895218, 156518815, 1255677480, 2570423854, 4060969052, 4216926659, 2978033643, 2384488422, 2083332026, 2272538233, 922026386, 1583098083, 577845081, 2768574752, 2481985714, 3539017535, 4034930790, 1434792262, 0] 8 1 (⟨247, 249, 174, 148, 16, 43, 70, 224, 131, 248, 149, 53, 42, 67, 168, 248⟩ : Block) = cipherLoop [370507307, 2798825000, 2283141035, 1011863305, 2426372032, 911069672, 3193448003, 2182605130, 1686219219, 1389131835, 3969146488, 1854125874, 2150140492, 3538219639, 1047571471, 1358109501, 2642914591, 1331912552, 1897132903, 568387674, 1545343970, 327109770, 1651294189, 1133270967, 2017966840, 1798895218, 156518815, 1255677480, 2570423854, 4060969052, 4216926659, 2978033643, 2384488422, 2083332026, 2272538233, 922026386, 1583098083, 577845081, 2768574752, 2481985714, 3539017535, 4034930790, 1434792262, 0] 9 0 (Block.AddRoundKey 9 [370507307, 2798825000, 2283141035, 1011863305, 2426372032, 911069672, 3193448003, 2182605130, 1686219219, 1389131835, 3969146488, 1854125874, 2150140492, 3538219639, 1047571471, 1358109501, 2642914591, 1331912552, 1897132903, 568387674, 1545343970, 327109770, 1651294189, 1133270967, 2017966840, 1798895218, 156518815, 1255677480, 2570423854, 4060969052, 4216926659, 2978033643, 2384488422, 2083332026, 2272538233, 922026386, 1583098083, 577845081, 2768574752, 2481985714, 3539017535, 4034930790, 1434792262, 0] (Block.MixColumns (Block.ShiftRows (Block.SubBytes (⟨247, 249, 174, 148, 16, 43, 70, 224, 131, 248, 149, 53, 42, 67, 168, 248⟩ : Block))))) from rfl, hqu9, hqa9]
    rw [show cipherLoop [370507307, 2798825000, 2283141035, 1011863305, 2426372032, 911069672, 3193448003, 2182605130, 1686219219, 1389131835, 3969146488, 1854125874, 2150140492, 3538219639, 1047571471, 1358109501, 2642914591, 1331912552, 1897132903, 568387674, 1545343970, 327109770, 1651294189, 1133270967, 2017966840, 1798895218, 156518815, 1255677480, 2570423854, 4060969052, 4216926659, 2978033643, 2384488422, 2083332026, 2272538233, 922026386, 1583098083, 577845081, 2768574752, 2481985714, 3539017535, 4034930790, 1434792262, 0] 9 0 (⟨80, 247, 46, 83, 132, 0, 107, 154, 180, 127, 24, 248, 243, 150, 204, 83⟩ : Block) = (⟨80, 247, 46, 83, 132, 0, 107, 154, 180, 127, 24, 248, 243, 150, 204, 83⟩ : Block) from rfl, hqu10]
    exact hqa10
  simp only [Cipher]
  rw [show Schedule ⟨0xa6d2ae2816157e2b, 0x3c4fcf098815f7ab, 0, 0⟩ 10 = some (key.Expansion ⟨0xa6d2ae2816157e2b, 0x3c4fcf098815f7ab, 0, 0⟩ 4) from rfl]
  rw [key.expansionFips]
  simp only [Option.map_some']
  rw [show cipherString [370507307, 2798825000, 2283141035, 1011863305, 2426372032, 911069672, 3193448003, 2182605130, 1686219219, 1389131835, 3969146488, 1854125874, 2150140492, 3538219639, 1047571471, 1358109501, 2642914591, 1331912552, 1897132903, 568387674, 1545343970, 327109770, 1651294189, 1133270967, 2017966840, 1798895218, 156518815, 1255677480, 2570423854, 4060969052, 4216926659, 2978033643, 2384488422, 2083332026, 2272538233, 922026386, 1583098083, 577845081, 2768574752, 2481985714, 3539017535, 4034930790, 1434792262, 0] 10 [0x6b,0xc1,0xbe,0xe2,0x2e,0x40,0x9f,0x96,0xe9,0x3d,0x7e,0x11,0x73,0x93,0x17,0x2a] = Block.serialize (cipherBlock [370507307, 2798825000, 2283141035, 1011863305, 2426372032, 911069672, 3193448003, 2182605130, 1686219219, 1389131835, 3969146488, 1854125874, 2150140492, 3538219639, 1047571471, 1358109501, 2642914591, 1331912552, 1897132903, 568387674, 1545343970, 327109770, 1651294189, 1133270967, 2017966840, 1798895218, 156518815, 1255677480, 2570423854, 4060969052, 4216926659, 2978033643, 2384488422, 2083332026, 2272538233, 922026386, 1583098083, 577845081, 2768574752, 2481985714, 3539017535, 4034930790, 1434792262, 0] 10 (⟨107, 193, 190, 226, 46, 64, 159, 150, 233, 61, 126, 17, 115, 147, 23, 42⟩ : Block)) from by
    show (((toBlocks [0x6b,0xc1,0xbe,0xe2,0x2e,0x40,0x9f,0x96,0xe9,0x3d,0x7e,0x11,0x73,0x93,0x17,0x2a]).map (cipherBlock [370507307, 2798825000, 2283141035, 1011863305, 2426372032, 911069672, 3193448003, 2182605130, 1686219219, 1389131835, 3969146488, 1854125874, 2150140492, 3538219639, 1047571471, 1358109501, 2642914591, 1331912552, 1897132903, 568387674, 1545343970, 327109770, 1651294189, 1133270967, 2017966840, 1798895218, 156518815, 1255677480, 2570423854, 4060969052, 4216926659, 2978033643, 2384488422, 2083332026, 2272538233, 922026386, 1583098083, 577845081, 2768574752, 2481985714, 3539017535, 4034930790, 1434792262, 0] 10)).map Block.serialize).flatten = Block.serialize (cipherBlock [370507307, 2798825000, 2283141035, 1011863305, 2426372032, 911069672, 3193448003, 2182605130, 1686219219, 1389131835, 3969146488, 1854125874, 2150140492, 3538219639, 1047571471, 1358109501, 2642914591, 1331912552, 1897132903, 568387674, 1545343970, 327109770, 1651294189, 1133270967, 2017966840, 1798895218, 156518815, 1255677480, 2570423854, 4060969052, 4216926659, 2978033643, 2384488422, 2083332026, 2272538233, 922026386, 1583098083, 577845081, 2768574752, 2481985714, 3539017535, 4034930790, 1434792262, 0] 10 (⟨107, 193, 190, 226, 46, 64, 159, 150, 233, 61, 126, 17, 115, 147, 23, 42⟩ : Block))
    rw [show toBlocks [0x6b,0xc1,0xbe,0xe2,0x2e,0x40,0x9f,0x96,0xe9,0x3d,0x7e,0x11,0x73,0x93,0x17,0x2a] = [(⟨107, 193, 190, 226, 46, 64, 159, 150, 233, 61, 126, 17, 115, 147, 23, 42⟩ : Block)] from rfl]
    simp only [List.map_cons, List.map_nil, List.flatten_cons, List.flatten_nil, List.append_nil]]
  rw [hqcb]
  rfl

/-- Claim C4: the claim states the standards-conformant expansion recurrence
(temp uses Rcon with index i/Nk - 1 when i mod Nk = 0) filling W up to index 4*Nr + 3.
Evaluated at the all-zero key with Nk = 4: the code computes W[4] with Rcon index
i/Nk = 1 rather than the claimed i/Nk - 1 = 0, and it never writes W[43] (the loop
stops at i = 4*Nr + 2), leaving it zero although the claimed recurrence value
W[39] XOR W[42] is nonzero. -/
theorem expansion_deviates_from_claim :
    (key.Expansion ⟨0,0,0,0⟩ 4).getD 4 0 =
        key.SubWord (key.RotWord ((key.Expansion ⟨0,0,0,0⟩ 4).getD 3 0)) ^^^ key.Rcon.getD 1 0 ∧
    (key.Expansion ⟨0,0,0,0⟩ 4).getD 4 0 ≠
        (key.Expansion ⟨0,0,0,0⟩ 4).getD 0 0 ^^^
          (key.SubWord (key.RotWord ((key.Expansion ⟨0,0,0,0⟩ 4).getD 3 0)) ^^^ key.Rcon.getD 0 0) ∧
    (key.Expansion ⟨0,0,0,0⟩ 4).getD 43 0 = 0 ∧
    (key.Expansion ⟨0,0,0,0⟩ 4).getD 39 0 ^^^ (key.Expansion ⟨0,0,0,0⟩ 4).getD 42 0 ≠ 0 := by
  rw [key.expansionZero]
  decide!

/-- Claim C5: ECB decryption of an ECB encryption with the same key and round count
yields the original zero-padded input for any input of byte values; in particular it
yields the input itself whenever the input length is a multiple of 16 (so for every
16-byte message). -/
theorem ecb_enc_dec_roundtrip (input : List Nat) (k : Key) (Nr : Nat)
    (hNr : Nr = 10 ∨ Nr = 12 ∨ Nr = 14) (hb : ∀ b ∈ input, b < 256) :
    (Cipher input k Nr).bind (fun c => InvCipher c k Nr) = some (zeroPad input) ∧
    (input.length % 16 = 0 →
      (Cipher input k Nr).bind (fun c => InvCipher c k Nr) = some input) := by
  refine ⟨ecb_roundtrip_helper input k Nr hNr hb, fun h16 => ?_⟩
  rw [ecb_roundtrip_helper input k Nr hNr hb, zeroPad_of_mod h16]

/-- Witness for ecb_enc_dec_roundtrip at input [1,2,3], key (0,0,0,0), Nr = 10. -/
theorem ecb_enc_dec_roundtrip_witness :
    (10 = 10 ∨ 10 = 12 ∨ 10 = 14) ∧ (∀ b ∈ [1,2,3], b < 256) ∧
    ((Cipher [1,2,3] ⟨0,0,0,0⟩ 10).bind (fun c => InvCipher c ⟨0,0,0,0⟩ 10) =
        some (zeroPad [1,2,3]) ∧
      (([1,2,3] : List Nat).length % 16 = 0 →
        (Cipher [1,2,3] ⟨0,0,0,0⟩ 10).bind (fun c => InvCipher c ⟨0,0,0,0⟩ 10) =
          some [1,2,3])) :=
  ⟨Or.inl rfl, by decide, ecb_enc_dec_roundtrip [1,2,3] ⟨0,0,0,0⟩ 10 (Or.inl rfl) (by decide)⟩

/-- Claim C6 counterexample: applying Ctr twice with the same key, round count and
nonce to the one-byte message [1] yields the 16-byte zero-padded block, not [1], so
CTR round-tripping is not the identity on messages whose length is not a multiple of
16. -/
theorem ctr_roundtrip_not_identity :
    ((Ctr [1] ⟨0,0,0,0⟩ 10 0).bind (fun c => Ctr c ⟨0,0,0,0⟩ 10 0)) ≠ some [1] := by
  rw [ctr_roundtrip_helper [1] ⟨0,0,0,0⟩ 10 0 (Or.inl rfl)]
  decide

/-- Claim C6 (amended): applying Ctr twice with the same key, round count and starting
nonce yields the message zero-padded to a multiple of 16 bytes; it equals the message
exactly when the message length is a multiple of 16. -/
theorem ctr_roundtrip_padded (M : List Nat) (k : Key) (Nr n : Nat)
    (hNr : Nr = 10 ∨ Nr = 12 ∨ Nr = 14) :
    (Ctr M k Nr n).bind (fun c => Ctr c k Nr n) = some (zeroPad M) ∧
    (M.length % 16 = 0 → (Ctr M k Nr n).bind (fun c => Ctr c k Nr n) = some M) := by
  refine ⟨ctr_roundtrip_helper M k Nr n hNr, fun h16 => ?_⟩
  rw [ctr_roundtrip_helper M k Nr n hNr, zeroPad_of_mod h16]

/-- Witness for ctr_roundtrip_padded at message [5], key (1,2,3,4), Nr = 10, nonce 9. -/
theorem ctr_roundtrip_padded_witness :
    (10 = 10 ∨ 10 = 12 ∨ 10 = 14) ∧
    ((Ctr [5] ⟨1,2,3,4⟩ 10 9).bind (fun c => Ctr c ⟨1,2,3,4⟩ 10 9) = some (zeroPad [5]) ∧
      (([5] : List Nat).length % 16 = 0 →
        (Ctr [5] ⟨1,2,3,4⟩ 10 9).bind (fun c => Ctr c ⟨1,2,3,4⟩ 10 9) = some [5])) :=
  ⟨Or.inl rfl, ctr_roundtrip_padded [5] ⟨1,2,3,4⟩ 10 9 (Or.inl rfl)⟩

end aes

namespace exchange

theorem serverHGo_reaches (e p h0 : Nat) (hsat : 1 < prime.raise h0 e p)
    (hmin : ∀ h, h < h0 → 1 ≤ h → prime.raise h e p ≤ 1) :
    ∀ (fuel h : Nat), 1 ≤ h → h ≤ h0 → h0 - h < fuel →
      serverHGo e p fuel h = h0 + 1 := by
  intro fuel
  induction fuel with
  | zero => intro h _ _ hcon; omega
  | succ fuel ih =>
    intro h h1 hle hfuel
    by_cases hcase : h = h0
    · subst hcase
      simp only [serverHGo]
      rw [decide_eq_true hsat]
      rfl
    · have hlt : h < h0 := by omega
      have hs := hmin h hlt h1
      simp only [serverHGo]
      rw [decide_eq_false (by omega : ¬ 1 < prime.raise h e p)]
      show serverHGo e p fuel (h+1) = h0 + 1
      exact ih (h+1) (by omega) (by omega) (by omega)

/-- Claim C7 counterexample: for the safe-prime pair (7, 3) -- which prime::generate
can produce, since 7 = 2*3 + 1 and both pass the prime::is test of the source -- the
smallest h with modexp(h, (p-1)/q, p) greater than 1 is h = 2, yet the generator the
server sends is serverG 7 3 = 2, not modexp(2, 2, 7) = 4: the post-increment h++ makes
the code evaluate the final raise at h + 1. -/
theorem serverG_not_from_smallest_h :
    7 = 2*3+1 ∧ prime.is 7 = true ∧ prime.is 3 = true ∧
    1 < prime.raise 2 ((7-1)/3) 7 ∧
    (∀ h, h < 2 → 1 ≤ h → prime.raise h ((7-1)/3) 7 ≤ 1) ∧
    serverG 7 3 ≠ prime.raise 2 ((7-1)/3) 7 := by
  decide

/-- Claim C7 (amended): in the server path the generator sent to the client is
g = modexp(h0 + 1, (p-1)/q, p), where h0 is the smallest h of at least 1 such that
modexp(h, (p-1)/q, p) exceeds 1 (expressed by the hypotheses: h0 is positive and below
p, its raise exceeds 1, and every smaller positive h raises to at most 1).  The
post-increment in the search loop makes the code use h0 + 1, not h0. -/
theorem serverG_off_by_one (p q h0 : Nat) (h1 : 1 ≤ h0) (hp : h0 < p)
    (hsat : 1 < prime.raise h0 ((p-1)/q) p)
    (hmin : ∀ h, h < h0 → 1 ≤ h → prime.raise h ((p-1)/q) p ≤ 1) :
    serverG p q = prime.raise (h0 + 1) ((p-1)/q) p := by
  unfold serverG serverH
  rw [serverHGo_reaches ((p-1)/q) p h0 hsat hmin p 1 (le_refl 1) h1 (by omega)]

/-- Witness for serverG_off_by_one at the safe-prime pair (7, 3), h0 = 2. -/
theorem serverG_off_by_one_witness :
    (1 ≤ 2) ∧ (2 < 7) ∧ (1 < prime.raise 2 ((7-1)/3) 7) ∧
    (∀ h, h < 2 → 1 ≤ h → prime.raise h ((7-1)/3) 7 ≤ 1) ∧
    serverG 7 3 = prime.raise (2 + 1) ((7-1)/3) 7 :=
  ⟨by decide, by decide, by decide, by decide,
    serverG_off_by_one 7 3 2 (by decide) (by decide) (by decide) (by decide)⟩

end exchange

namespace hmac

/-- Claim C8: the claim states that the key handed to the external HMAC primitive is
the byte serialization of the leading shared-key words (8 bytes per 64-bit word).
The code instead masks with 0xf (one nibble) and shifts by one BIT per iteration: for
the shared key (2,0,0,0) at Nr = 10 it produces bytes 2,1,0,... instead of the word
byte representation 2,0,0,... -/
theorem keyBytes_not_byte_serialization :
    keyBytes ⟨2,0,0,0⟩ 10 = some [2,1,0,0,0,0,0,0,0,0,0,0,0,0,0,0] ∧
    specKeyBytes ⟨2,0,0,0⟩ 10 = some [2,0,0,0,0,0,0,0,0,0,0,0,0,0,0,0] ∧
    keyBytes ⟨2,0,0,0⟩ 10 ≠ specKeyBytes ⟨2,0,0,0⟩ 10 := by
  decide

end hmac

namespace network

/-- Claim C9: the claim states recv_value raises on a packet tagged ERROR and parses
the payload only otherwise.  Because the check on src/network.h line 133 uses a single
equals sign (assignment, always yielding the false-converting value ERROR = 0),
recv_value never raises on ANY packet and in particular returns the parsed value 0
for the zero-filled ERROR packet that recv_packet produces on timeout. -/
theorem recv_value_never_raises :
    (∀ p : Packet, recv_value p ≠ Except.error ()) ∧
    recv_value ⟨Tag.ERROR, List.replicate 1024 0⟩ = Except.ok 0 := by
  constructor
  · intro p
    simp [recv_value, Tag.toNat]
  · rfl

end network

namespace aes

/-- Claim C10: aes::Cipher applied to the empty input returns the empty string for
every key and every valid round count: the state constructor builds zero blocks from
an empty input, so ECB encryption operates on no blocks at all. -/
theorem cipher_empty (k : Key) (Nr : Nat) (hNr : Nr = 10 ∨ Nr = 12 ∨ Nr = 14) :
    Cipher [] k Nr = some [] := by
  rcases hNr with rfl | rfl | rfl <;> rfl

/-- Witness for cipher_empty at key (0,0,0,0), Nr = 10. -/
theorem cipher_empty_witness :
    (10 = 10 ∨ 10 = 12 ∨ 10 = 14) ∧ Cipher [] ⟨0,0,0,0⟩ 10 = some [] :=
  ⟨Or.inl rfl, cipher_empty ⟨0,0,0,0⟩ 10 (Or.inl rfl)⟩

end aes
